import Mathlib

/-!
# VertexShaderGen: descriptor builder and vertex shader synthesizer

A shallow embedding of `Source/Core/VideoCommon/VertexShaderGen.cpp`:

* `GetVertexShaderUid` builds the shader descriptor (uid) from the register state;
* `GenerateVertexShaderCode` emits the shader text for a descriptor.

The headers the file includes are not among the sources.  Every constant, macro and
string table they declare is a field of `Decls`, and the theorems hold for every value of
those fields.  Registers and descriptor fields are natural numbers (one-bit flags are
booleans), an assignment between fields copies the value.  Arrays of eight slots are
functions on `Fin 8`; an access outside the array has no defined result, so both
functions return an `Option`.
-/

namespace VertexShaderGen

/-! ## The output stream -/

/-- One argument of a formatted `Write`: a number for `%d` / `%u`, a string for `%s`. -/
inductive Arg where
  | int (n : Nat)
  | str (s : String)
  deriving DecidableEq, Repr

/-- One segment of a format string: a string literal written in the source, or the value
of a macro or table declared in a header (`I_PROJECTION`, `s_shader_uniforms`, ...). -/
inductive Seg where
  | lit (s : String)
  | ext (s : String)
  deriving DecidableEq, Repr

/-- A string literal of the source is a literal segment. -/
instance : Coe String Seg := ⟨Seg.lit⟩

/-- One append to the output stream `ShaderCode`.  `write fmt args` is a call
`out.Write(fmt, args...)` of the synthesizer; the format is kept as the list of its adjacent
segments, whose concatenation is the format string.  `collab text` is the text a
collaborator appended. -/
inductive Piece where
  | write (fmt : List Seg) (args : List Arg)
  | collab (text : String)
  deriving DecidableEq, Repr

/-- The output stream: the appended pieces, in order. -/
abbrev ShaderCode := List Piece

/-- Modelled from the spec: the dialect selector `API_TYPE` is declared in VideoCommon.h, not
among the sources; the spec gives it two supported values, and the source tests
`api_type == API_OPENGL` with the other branch commented `D3D`. -/
inductive API_TYPE where
  | API_OPENGL
  | API_D3D
  deriving DecidableEq, Repr

/-! ## Declarations taken from the headers -/

/-- Modelled from the spec: the lighting sub-descriptor `LightingUidData` is owned by the
lighting collaborator (LightingShaderGen.h is not among the sources); the spec describes it
as an opaque value embedded in the descriptor, comparable and copyable. -/
structure LightingUidData where
  bits : Nat
  deriving DecidableEq, Repr

/-- Constants and macros that the source uses and that are declared in headers outside the
sources (NativeVertexFormat.h, XFMemory.h, VertexShaderGen.h, LightingShaderGen.h,
Common/Assert.h).  They are parameters of the embedding. -/
structure Decls where
  VB_HAS_POSMTXIDX : Nat
  VB_HAS_TEXMTXIDX0 : Nat
  VB_HAS_NRM0 : Nat
  VB_HAS_NRM1 : Nat
  VB_HAS_NRM2 : Nat
  VB_HAS_NRMALL : Nat
  VB_HAS_COL0 : Nat
  VB_HAS_COL1 : Nat
  VB_HAS_UV0 : Nat
  XF_TEXGEN_REGULAR : Nat
  XF_TEXGEN_EMBOSS_MAP : Nat
  XF_TEXGEN_COLOR_STRGBC0 : Nat
  XF_TEXGEN_COLOR_STRGBC1 : Nat
  XF_SRCGEOM_INROW : Nat
  XF_SRCNORMAL_INROW : Nat
  XF_SRCCOLORS_INROW : Nat
  XF_SRCBINORMAL_T_INROW : Nat
  XF_SRCBINORMAL_B_INROW : Nat
  XF_SRCTEX0_INROW : Nat
  XF_SRCTEX7_INROW : Nat
  XF_TEXINPUT_AB11 : Nat
  XF_TEXPROJ_STQ : Nat
  SHADER_POSITION_ATTRIB : Nat
  SHADER_POSMTX_ATTRIB : Nat
  SHADER_NORM0_ATTRIB : Nat
  SHADER_NORM1_ATTRIB : Nat
  SHADER_NORM2_ATTRIB : Nat
  SHADER_COLOR0_ATTRIB : Nat
  SHADER_COLOR1_ATTRIB : Nat
  SHADER_TEXTURE0_ATTRIB : Nat
  I_POSNORMALMATRIX : String
  I_PROJECTION : String
  I_TEXMATRICES : String
  I_TRANSFORMMATRICES : String
  I_NORMALMATRICES : String
  I_POSTTRANSFORMMATRICES : String
  I_PIXELCENTERCORRECTION : String
  I_LIGHTS : String
  /-- The format fragment `LIGHT_POS`. -/
  LIGHT_POS : String
  /-- The arguments `LIGHT_POS_PARAMS(index)` that go with `LIGHT_POS`. -/
  LIGHT_POS_PARAMS : Nat → List Arg
  s_lighting_struct : String
  s_shader_uniforms : String
  /-- Text appended by `GenerateVSOutputMembers(out, api_type, numTexGens, pixel_lighting,
  qualifier)`. -/
  GenerateVSOutputMembers : API_TYPE → Nat → Bool → String → String
  /-- Result of `GetInterpolationQualifier(msaa, ssaa, ...)`; the list holds the further
  arguments the call passes explicitly. -/
  GetInterpolationQualifier : Bool → Bool → List Bool → String
  /-- Text appended by `GenerateLightingShaderCode(out, lighting, components, inColorName,
  dest)`. -/
  GenerateLightingShaderCode : LightingUidData → Nat → String → String → String
  /-- Text appended by `AssignVSOutputMembers(out, a, b, numTexGens, pixel_lighting)`. -/
  AssignVSOutputMembers : String → String → Nat → Bool → String
  /-- Whether a failed `_assert_` stops the function (it does in a debug build). -/
  assert_aborts : Bool

/-- The check `_assert_(cond)`: when assertions abort and `cond` fails, no result. -/
def _assert_ (d : Decls) (cond : Bool) : Option Unit :=
  if d.assert_aborts && !cond then none else some ()

/-- The loop `for (unsigned int i = 0; i < n; ++i) body`, threading the state: the
iterations `0 .. n-1` run in increasing order, and a failing iteration fails the loop. -/
def forUpTo {σ : Type} (body : Nat → σ → Option σ) : Nat → σ → Option σ
  | 0, s => some s
  | n + 1, s => (forUpTo body n s).bind (body n)

/-! ## Register state -/

/-- One register `xfmem.texMtxInfo[i]`. -/
structure TexMtxInfo where
  projection : Bool
  inputform : Nat
  texgentype : Nat
  sourcerow : Nat
  embosssourceshift : Nat
  embosslightshift : Nat

/-- One register `xfmem.postMtxInfo[i]`. -/
structure PostMtxInfo where
  index : Nat
  normalize : Bool

/-- The part of `xfmem` that the builder reads. -/
structure XFMemory where
  /-- Field `xfmem.numTexGen.numTexGens`. -/
  numTexGens : Nat
  /-- Field `xfmem.numChan.numColorChans`. -/
  numColorChans : Nat
  texMtxInfo : Fin 8 → TexMtxInfo
  /-- Field `xfmem.dualTexTrans.enabled`. -/
  dualTexTrans_enabled : Bool
  postMtxInfo : Fin 8 → PostMtxInfo

/-- The settings of `g_ActiveConfig` that the two functions read. -/
structure VideoConfig where
  bEnablePixelLighting : Bool
  iMultisamples : Int
  bSSAA : Bool
  bSupportsBindingLayout : Bool
  bSupportsGeometryShaders : Bool
  bSupportsClipControl : Bool

/-- The global state `GetVertexShaderUid` reads. -/
structure HwState where
  /-- Field `bpmem.genMode.numtexgens`. -/
  bp_numtexgens : Nat
  /-- Field `bpmem.genMode.numcolchans`. -/
  bp_numcolchans : Nat
  xfmem : XFMemory
  /-- Global `VertexLoaderManager::g_current_components`. -/
  g_current_components : Nat
  g_ActiveConfig : VideoConfig
  /-- What the collaborator `GetLightingShaderUid` extracts from the lighting registers. -/
  lighting : LightingUidData

/-! ## The descriptor -/

/-- One slot `uid_data->texMtxInfo[i]`. -/
structure UidTexMtxInfo where
  inputform : Nat
  texgentype : Nat
  sourcerow : Nat
  embosssourceshift : Nat
  embosslightshift : Nat
  deriving DecidableEq, Repr

/-- One slot `uid_data->postMtxInfo[i]`. -/
structure UidPostMtxInfo where
  index : Nat
  normalize : Bool
  deriving DecidableEq, Repr

/-- The descriptor `vertex_shader_uid_data`. -/
structure vertex_shader_uid_data where
  components : Nat
  numTexGens : Nat
  numColorChans : Nat
  dualTexTrans_enabled : Bool
  pixel_lighting : Bool
  msaa : Bool
  ssaa : Bool
  texMtxInfo_n_projection : Nat
  texMtxInfo : Fin 8 → UidTexMtxInfo
  postMtxInfo : Fin 8 → UidPostMtxInfo
  lighting : LightingUidData

/-- The all-zero slot of `texMtxInfo`. -/
def UidTexMtxInfo.zero : UidTexMtxInfo :=
  { inputform := 0, texgentype := 0, sourcerow := 0, embosssourceshift := 0,
    embosslightshift := 0 }

/-- The all-zero slot of `postMtxInfo`. -/
def UidPostMtxInfo.zero : UidPostMtxInfo :=
  { index := 0, normalize := false }

/-- The descriptor after `memset(uid_data, 0, sizeof(*uid_data))`. -/
def vertex_shader_uid_data.zero : vertex_shader_uid_data :=
  { components := 0, numTexGens := 0, numColorChans := 0, dualTexTrans_enabled := false,
    pixel_lighting := false, msaa := false, ssaa := false, texMtxInfo_n_projection := 0,
    texMtxInfo := fun _ => UidTexMtxInfo.zero, postMtxInfo := fun _ => UidPostMtxInfo.zero,
    lighting := { bits := 0 } }

/-! ## GetVertexShaderUid -/

/-- The `switch (texinfo.texgentype)` of the builder, on the slot and the projection bits. -/
def uidFirstTransformation (d : Decls) (components : Nat) (hw : TexMtxInfo) (i : Nat)
    (texinfo : UidTexMtxInfo) (n_projection : Nat) : UidTexMtxInfo × Nat :=
  if texinfo.texgentype = d.XF_TEXGEN_EMBOSS_MAP then
    if components &&& (d.VB_HAS_NRM1 ||| d.VB_HAS_NRM2) ≠ 0 then
      ({ texinfo with embosslightshift := hw.embosslightshift,
                      embosssourceshift := hw.embosssourceshift }, n_projection)
    else
      ({ texinfo with embosssourceshift := hw.embosssourceshift }, n_projection)
  else if texinfo.texgentype = d.XF_TEXGEN_COLOR_STRGBC0
      ∨ texinfo.texgentype = d.XF_TEXGEN_COLOR_STRGBC1 then
    (texinfo, n_projection)
  else
    -- case XF_TEXGEN_REGULAR and default
    (texinfo, n_projection ||| (hw.projection.toNat <<< i))

/-- The body of the loop over the generators, for index `i`.  The source compares `i` with
`numTexGens` only; the arrays `texMtxInfo` and `postMtxInfo` have eight slots, and an index
outside them, for which C++ defines no result, is `none` here. -/
def uidTexGenStep (d : Decls) (xfmem : XFMemory) (i : Nat)
    (uid_data : vertex_shader_uid_data) : Option vertex_shader_uid_data :=
  if h : i < 8 then
    let idx : Fin 8 := ⟨i, h⟩
    let hw := xfmem.texMtxInfo idx
    let texinfo : UidTexMtxInfo :=
      { uid_data.texMtxInfo idx with
        sourcerow := hw.sourcerow, texgentype := hw.texgentype, inputform := hw.inputform }
    let r := uidFirstTransformation d uid_data.components hw i texinfo
      uid_data.texMtxInfo_n_projection
    let texinfo := r.1
    let dual := xfmem.dualTexTrans_enabled
    let postInfo : UidPostMtxInfo :=
      if dual = true ∧ texinfo.texgentype = d.XF_TEXGEN_REGULAR then
        { index := (xfmem.postMtxInfo idx).index,
          normalize := (xfmem.postMtxInfo idx).normalize }
      else uid_data.postMtxInfo idx
    some { uid_data with
      texMtxInfo := Function.update uid_data.texMtxInfo idx texinfo
      texMtxInfo_n_projection := r.2
      dualTexTrans_enabled := dual
      postMtxInfo := Function.update uid_data.postMtxInfo idx postInfo }
  else none

/-- The function `GetVertexShaderUid`. -/
def GetVertexShaderUid (d : Decls) (s : HwState) : Option vertex_shader_uid_data := do
  let uid_data := vertex_shader_uid_data.zero
  _assert_ d (decide (s.bp_numtexgens = s.xfmem.numTexGens))
  _assert_ d (decide (s.bp_numcolchans = s.xfmem.numColorChans))
  let uid_data := { uid_data with numTexGens := s.xfmem.numTexGens }
  let uid_data := { uid_data with components := s.g_current_components }
  let uid_data := { uid_data with pixel_lighting := s.g_ActiveConfig.bEnablePixelLighting }
  let uid_data := { uid_data with msaa := decide (s.g_ActiveConfig.iMultisamples > 1) }
  let uid_data := { uid_data with
    ssaa := decide (s.g_ActiveConfig.iMultisamples > 1) && s.g_ActiveConfig.bSSAA }
  let uid_data := { uid_data with numColorChans := s.xfmem.numColorChans }
  let uid_data := { uid_data with lighting := s.lighting }
  forUpTo (uidTexGenStep d s.xfmem) uid_data.numTexGens uid_data

/-! ## GenerateVertexShaderCode -/

/-- A call `out.Write(fmt, args...)`. -/
abbrev W (fmt : List Seg) (args : List Arg) : Piece := Piece.write fmt args

/-- A loop `for (i = 0; i < n; ++i)` whose body only appends to the stream: the pieces of
the iterations `0 .. n-1`, in increasing order. -/
def emitFor (body : Nat → List Piece) : Nat → List Piece
  | 0 => []
  | n + 1 => emitFor body n ++ body n

/-- Lines 84-97: lighting struct, uniform block and the output record. -/
def preamble (d : Decls) (cfg : VideoConfig) (api_type : API_TYPE)
    (uid_data : vertex_shader_uid_data) : List Piece :=
  [W ["%s"] [.str d.s_lighting_struct]]
  ++ (if api_type = API_TYPE.API_OPENGL then
        [W ["layout(std140%s) uniform VSBlock \x7b\n"]
          [.str (if cfg.bSupportsBindingLayout then ", binding = 2" else "")]]
      else
        [W ["cbuffer VSBlock \x7b\n"] []])
  ++ [W [.ext d.s_shader_uniforms] []]
  ++ [W ["\x7d;\n"] []]
  ++ [W ["struct VS_OUTPUT \x7b\n"] []]
  ++ [Piece.collab (d.GenerateVSOutputMembers api_type uid_data.numTexGens
        uid_data.pixel_lighting "")]
  ++ [W ["\x7d;\n"] []]

/-- Lines 116-122: the iteration `i` of the loop declaring the texcoord inputs (OpenGL). -/
def glTexInput (d : Decls) (uid_data : vertex_shader_uid_data) (i : Nat) : List Piece :=
  let hastexmtx := uid_data.components &&& (d.VB_HAS_TEXMTXIDX0 <<< i)
  if uid_data.components &&& (d.VB_HAS_UV0 <<< i) ≠ 0 ∨ hastexmtx ≠ 0 then
    [W ["in float%d tex%d; // ATTR%d,\n"]
      [.int (if hastexmtx ≠ 0 then 3 else 2), .int i, .int (d.SHADER_TEXTURE0_ATTRIB + i)]]
  else []

/-- Lines 101-158: inputs, outputs and the opening of `main` in the OpenGL dialect. -/
def glInterface (d : Decls) (cfg : VideoConfig) (uid_data : vertex_shader_uid_data) :
    List Piece :=
  [W ["in float4 rawpos; // ATTR%d,\n"] [.int d.SHADER_POSITION_ATTRIB]]
  ++ (if uid_data.components &&& d.VB_HAS_POSMTXIDX ≠ 0 then
        [W ["in int posmtx; // ATTR%d,\n"] [.int d.SHADER_POSMTX_ATTRIB]] else [])
  ++ (if uid_data.components &&& d.VB_HAS_NRM0 ≠ 0 then
        [W ["in float3 rawnorm0; // ATTR%d,\n"] [.int d.SHADER_NORM0_ATTRIB]] else [])
  ++ (if uid_data.components &&& d.VB_HAS_NRM1 ≠ 0 then
        [W ["in float3 rawnorm1; // ATTR%d,\n"] [.int d.SHADER_NORM1_ATTRIB]] else [])
  ++ (if uid_data.components &&& d.VB_HAS_NRM2 ≠ 0 then
        [W ["in float3 rawnorm2; // ATTR%d,\n"] [.int d.SHADER_NORM2_ATTRIB]] else [])
  ++ (if uid_data.components &&& d.VB_HAS_COL0 ≠ 0 then
        [W ["in float4 color0; // ATTR%d,\n"] [.int d.SHADER_COLOR0_ATTRIB]] else [])
  ++ (if uid_data.components &&& d.VB_HAS_COL1 ≠ 0 then
        [W ["in float4 color1; // ATTR%d,\n"] [.int d.SHADER_COLOR1_ATTRIB]] else [])
  ++ emitFor (glTexInput d uid_data) 8
  ++ (if cfg.bSupportsGeometryShaders then
        [W ["out VertexData \x7b\n"] []]
        ++ [Piece.collab (d.GenerateVSOutputMembers API_TYPE.API_OPENGL uid_data.numTexGens
              uid_data.pixel_lighting
              (d.GetInterpolationQualifier uid_data.msaa uid_data.ssaa [false, true]))]
        ++ [W ["\x7d vs;\n"] []]
      else
        emitFor (fun i =>
          if i < uid_data.numTexGens then
            [W ["%s out float3 uv%u;\n"]
              [.str (d.GetInterpolationQualifier uid_data.msaa uid_data.ssaa []), .int i]]
          else []) 8
        ++ [W ["%s out float4 clipPos;\n"]
              [.str (d.GetInterpolationQualifier uid_data.msaa uid_data.ssaa [])]]
        ++ (if uid_data.pixel_lighting then
              [W ["%s out float3 Normal;\n"]
                [.str (d.GetInterpolationQualifier uid_data.msaa uid_data.ssaa [])],
               W ["%s out float3 WorldPos;\n"]
                [.str (d.GetInterpolationQualifier uid_data.msaa uid_data.ssaa [])]]
            else [])
        ++ [W ["%s out float4 colors_0;\n"]
              [.str (d.GetInterpolationQualifier uid_data.msaa uid_data.ssaa [])]]
        ++ [W ["%s out float4 colors_1;\n"]
              [.str (d.GetInterpolationQualifier uid_data.msaa uid_data.ssaa [])]])
  ++ [W ["void main()\n\x7b\n"] []]

/-- Lines 175-180: the iteration `i` of the loop declaring the texcoord inputs (D3D). -/
def d3dTexInput (d : Decls) (uid_data : vertex_shader_uid_data) (i : Nat) : List Piece :=
  let hastexmtx := uid_data.components &&& (d.VB_HAS_TEXMTXIDX0 <<< i)
  if uid_data.components &&& (d.VB_HAS_UV0 <<< i) ≠ 0 ∨ hastexmtx ≠ 0 then
    [W ["  float%d tex%d : TEXCOORD%d,\n"]
      [.int (if hastexmtx ≠ 0 then 3 else 2), .int i, .int i]]
  else []

/-- Lines 162-183: the signature of `main` in the D3D dialect. -/
def d3dInterface (d : Decls) (uid_data : vertex_shader_uid_data) : List Piece :=
  [W ["VS_OUTPUT main(\n"] []]
  ++ (if uid_data.components &&& d.VB_HAS_NRM0 ≠ 0 then
        [W ["  float3 rawnorm0 : NORMAL0,\n"] []] else [])
  ++ (if uid_data.components &&& d.VB_HAS_NRM1 ≠ 0 then
        [W ["  float3 rawnorm1 : NORMAL1,\n"] []] else [])
  ++ (if uid_data.components &&& d.VB_HAS_NRM2 ≠ 0 then
        [W ["  float3 rawnorm2 : NORMAL2,\n"] []] else [])
  ++ (if uid_data.components &&& d.VB_HAS_COL0 ≠ 0 then
        [W ["  float4 color0 : COLOR0,\n"] []] else [])
  ++ (if uid_data.components &&& d.VB_HAS_COL1 ≠ 0 then
        [W ["  float4 color1 : COLOR1,\n"] []] else [])
  ++ emitFor (d3dTexInput d uid_data) 8
  ++ (if uid_data.components &&& d.VB_HAS_POSMTXIDX ≠ 0 then
        [W ["  int posmtx : BLENDINDICES,\n"] []] else [])
  ++ [W ["  float4 rawpos : POSITION) \x7b\n"] []]

/-- Lines 186-238: position and normal transforms, projection, lighting locals. -/
def transforms (d : Decls) (uid_data : vertex_shader_uid_data) : List Piece :=
  [W ["VS_OUTPUT o;\n"] []]
  ++ (if uid_data.components &&& d.VB_HAS_POSMTXIDX ≠ 0 then
        [W ["float4 pos = float4(dot(", .ext d.I_TRANSFORMMATRICES, "[posmtx], rawpos), dot(",
            .ext d.I_TRANSFORMMATRICES, "[posmtx+1], rawpos), dot(", .ext d.I_TRANSFORMMATRICES,
            "[posmtx+2], rawpos), 1);\n"] []]
        ++ (if uid_data.components &&& d.VB_HAS_NRMALL ≠ 0 then
              [W ["int normidx = posmtx & 31;\n"] [],
               W ["float3 N0 = ", .ext d.I_NORMALMATRICES, "[normidx].xyz, N1 = ",
                  .ext d.I_NORMALMATRICES, "[normidx+1].xyz, N2 = ", .ext d.I_NORMALMATRICES,
                  "[normidx+2].xyz;\n"] []]
            else [])
        ++ (if uid_data.components &&& d.VB_HAS_NRM0 ≠ 0 then
              [W ["float3 _norm0 = normalize(float3(dot(N0, rawnorm0), dot(N1, rawnorm0), dot(N2, rawnorm0)));\n"] []]
            else [])
        ++ (if uid_data.components &&& d.VB_HAS_NRM1 ≠ 0 then
              [W ["float3 _norm1 = float3(dot(N0, rawnorm1), dot(N1, rawnorm1), dot(N2, rawnorm1));\n"] []]
            else [])
        ++ (if uid_data.components &&& d.VB_HAS_NRM2 ≠ 0 then
              [W ["float3 _norm2 = float3(dot(N0, rawnorm2), dot(N1, rawnorm2), dot(N2, rawnorm2));\n"] []]
            else [])
      else
        [W ["float4 pos = float4(dot(", .ext d.I_POSNORMALMATRIX, "[0], rawpos), dot(",
            .ext d.I_POSNORMALMATRIX, "[1], rawpos), dot(", .ext d.I_POSNORMALMATRIX,
            "[2], rawpos), 1.0);\n"] []]
        ++ (if uid_data.components &&& d.VB_HAS_NRM0 ≠ 0 then
              [W ["float3 _norm0 = normalize(float3(dot(", .ext d.I_POSNORMALMATRIX,
                  "[3].xyz, rawnorm0), dot(", .ext d.I_POSNORMALMATRIX,
                  "[4].xyz, rawnorm0), dot(", .ext d.I_POSNORMALMATRIX,
                  "[5].xyz, rawnorm0)));\n"] []]
            else [])
        ++ (if uid_data.components &&& d.VB_HAS_NRM1 ≠ 0 then
              [W ["float3 _norm1 = float3(dot(", .ext d.I_POSNORMALMATRIX,
                  "[3].xyz, rawnorm1), dot(", .ext d.I_POSNORMALMATRIX,
                  "[4].xyz, rawnorm1), dot(", .ext d.I_POSNORMALMATRIX,
                  "[5].xyz, rawnorm1));\n"] []]
            else [])
        ++ (if uid_data.components &&& d.VB_HAS_NRM2 ≠ 0 then
              [W ["float3 _norm2 = float3(dot(", .ext d.I_POSNORMALMATRIX,
                  "[3].xyz, rawnorm2), dot(", .ext d.I_POSNORMALMATRIX,
                  "[4].xyz, rawnorm2), dot(", .ext d.I_POSNORMALMATRIX,
                  "[5].xyz, rawnorm2));\n"] []]
            else []))
  ++ (if ¬ (uid_data.components &&& d.VB_HAS_NRM0 ≠ 0) then
        [W ["float3 _norm0 = float3(0.0, 0.0, 0.0);\n"] []] else [])
  ++ [W ["o.pos = float4(dot(", .ext d.I_PROJECTION, "[0], pos), dot(", .ext d.I_PROJECTION,
         "[1], pos), dot(", .ext d.I_PROJECTION, "[2], pos), dot(", .ext d.I_PROJECTION,
         "[3], pos));\n"] []]
  ++ [W ["int4 lacc;\nfloat3 ldir, h, cosAttn, distAttn;\nfloat dist, dist2, attn;\n"] []]

/-- Line 241: the fragment of the lighting collaborator. -/
def lightingFragment (d : Decls) (uid_data : vertex_shader_uid_data) : List Piece :=
  [Piece.collab (d.GenerateLightingShaderCode uid_data.lighting uid_data.components
    "color" "o.colors_")]

/-- Lines 251-284: `switch (texinfo.sourcerow)` of a generator block. -/
def texGenSource (d : Decls) (uid_data : vertex_shader_uid_data) (texinfo : UidTexMtxInfo) :
    Option (List Piece) :=
  if texinfo.sourcerow = d.XF_SRCGEOM_INROW then
    some [W ["coord.xyz = rawpos.xyz;\n"] []]
  else if texinfo.sourcerow = d.XF_SRCNORMAL_INROW then
    some (if uid_data.components &&& d.VB_HAS_NRM0 ≠ 0 then
      [W ["coord.xyz = rawnorm0.xyz;\n"] []] else [])
  else if texinfo.sourcerow = d.XF_SRCCOLORS_INROW then do
    _assert_ d (decide (texinfo.texgentype = d.XF_TEXGEN_COLOR_STRGBC0
      ∨ texinfo.texgentype = d.XF_TEXGEN_COLOR_STRGBC1))
    pure []
  else if texinfo.sourcerow = d.XF_SRCBINORMAL_T_INROW then
    some (if uid_data.components &&& d.VB_HAS_NRM1 ≠ 0 then
      [W ["coord.xyz = rawnorm1.xyz;\n"] []] else [])
  else if texinfo.sourcerow = d.XF_SRCBINORMAL_B_INROW then
    some (if uid_data.components &&& d.VB_HAS_NRM2 ≠ 0 then
      [W ["coord.xyz = rawnorm2.xyz;\n"] []] else [])
  else do
    _assert_ d (decide (texinfo.sourcerow ≤ d.XF_SRCTEX7_INROW))
    pure (if uid_data.components
          &&& (d.VB_HAS_UV0 <<< (texinfo.sourcerow - d.XF_SRCTEX0_INROW)) ≠ 0 then
      [W ["coord = float4(tex%d.x, tex%d.y, 1.0, 1.0);\n"]
        [.int (texinfo.sourcerow - d.XF_SRCTEX0_INROW),
         .int (texinfo.sourcerow - d.XF_SRCTEX0_INROW)]]
      else [])

/-- Lines 287-288: the input form AB11 sets the z element to 1.0. -/
def texGenInputForm (d : Decls) (texinfo : UidTexMtxInfo) : List Piece :=
  if texinfo.inputform = d.XF_TEXINPUT_AB11 then [W ["coord.z = 1.0;\n"] []] else []

/-- Lines 291-347: `switch (texinfo.texgentype)` of the block of generator `i`. -/
def texGenFirstTransformation (d : Decls) (uid_data : vertex_shader_uid_data) (i : Nat)
    (texinfo : UidTexMtxInfo) : List Piece :=
  if texinfo.texgentype = d.XF_TEXGEN_EMBOSS_MAP then
    if uid_data.components &&& (d.VB_HAS_NRM1 ||| d.VB_HAS_NRM2) ≠ 0 then
      [W ["ldir = normalize(", .ext d.LIGHT_POS, ".xyz - pos.xyz);\n"]
         (d.LIGHT_POS_PARAMS texinfo.embosslightshift),
       W ["o.tex%d.xyz = o.tex%d.xyz + float3(dot(ldir, _norm1), dot(ldir, _norm2), 0.0);\n"]
         [.int i, .int texinfo.embosssourceshift]]
    else
      [W ["o.tex%d.xyz = o.tex%d.xyz;\n"] [.int i, .int texinfo.embosssourceshift]]
  else if texinfo.texgentype = d.XF_TEXGEN_COLOR_STRGBC0 then
    [W ["o.tex%d.xyz = float3(o.colors_0.x, o.colors_0.y, 1);\n"] [.int i]]
  else if texinfo.texgentype = d.XF_TEXGEN_COLOR_STRGBC1 then
    [W ["o.tex%d.xyz = float3(o.colors_1.x, o.colors_1.y, 1);\n"] [.int i]]
  else
    -- case XF_TEXGEN_REGULAR and default
    if uid_data.components &&& (d.VB_HAS_TEXMTXIDX0 <<< i) ≠ 0 then
      [W ["int tmp = int(tex%d.z);\n"] [.int i]]
      ++ (if (uid_data.texMtxInfo_n_projection >>> i) &&& 1 = d.XF_TEXPROJ_STQ then
            [W ["o.tex%d.xyz = float3(dot(coord, ", .ext d.I_TRANSFORMMATRICES,
                "[tmp]), dot(coord, ", .ext d.I_TRANSFORMMATRICES, "[tmp+1]), dot(coord, ",
                .ext d.I_TRANSFORMMATRICES, "[tmp+2]));\n"] [.int i]]
          else
            [W ["o.tex%d.xyz = float3(dot(coord, ", .ext d.I_TRANSFORMMATRICES,
                "[tmp]), dot(coord, ", .ext d.I_TRANSFORMMATRICES, "[tmp+1]), 1);\n"] [.int i]])
    else
      (if (uid_data.texMtxInfo_n_projection >>> i) &&& 1 = d.XF_TEXPROJ_STQ then
        [W ["o.tex%d.xyz = float3(dot(coord, ", .ext d.I_TEXMATRICES, "[%d]), dot(coord, ",
            .ext d.I_TEXMATRICES, "[%d]), dot(coord, ", .ext d.I_TEXMATRICES, "[%d]));\n"]
           [.int i, .int (3 * i), .int (3 * i + 1), .int (3 * i + 2)]]
      else
        [W ["o.tex%d.xyz = float3(dot(coord, ", .ext d.I_TEXMATRICES, "[%d]), dot(coord, ",
            .ext d.I_TEXMATRICES, "[%d]), 1);\n"]
           [.int i, .int (3 * i), .int (3 * i + 1)]])

/-- Lines 350-366: the post transform of the block of generator `i`. -/
def texGenPostTransform (d : Decls) (uid_data : vertex_shader_uid_data) (i : Nat)
    (texinfo : UidTexMtxInfo) (postInfo : UidPostMtxInfo) : List Piece :=
  if uid_data.dualTexTrans_enabled = true ∧ texinfo.texgentype = d.XF_TEXGEN_REGULAR then
    [W ["float4 P0 = ", .ext d.I_POSTTRANSFORMMATRICES, "[%d];\nfloat4 P1 = ",
        .ext d.I_POSTTRANSFORMMATRICES, "[%d];\nfloat4 P2 = ", .ext d.I_POSTTRANSFORMMATRICES,
        "[%d];\n"]
       [.int (postInfo.index &&& 0x3f), .int ((postInfo.index + 1) &&& 0x3f),
        .int ((postInfo.index + 2) &&& 0x3f)]]
    ++ (if postInfo.normalize then
          [W ["o.tex%d.xyz = normalize(o.tex%d.xyz);\n"] [.int i, .int i]] else [])
    ++ [W ["o.tex%d.xyz = float3(dot(P0.xyz, o.tex%d.xyz) + P0.w, dot(P1.xyz, o.tex%d.xyz) + P1.w, dot(P2.xyz, o.tex%d.xyz) + P2.w);\n"]
          [.int i, .int i, .int i, .int i]]
  else []

/-- Lines 247-368: the block the loop body emits for generator `i`.  The slots
`texMtxInfo[i]` and `postMtxInfo[i]` exist for `i < 8` only. -/
def texGenBlock (d : Decls) (uid_data : vertex_shader_uid_data) (i : Nat) :
    Option (List Piece) :=
  if h : i < 8 then
    let texinfo := uid_data.texMtxInfo ⟨i, h⟩
    (texGenSource d uid_data texinfo).map (fun source =>
      [W ["\x7b\n"] [], W ["coord = float4(0.0, 0.0, 1.0, 1.0);\n"] []]
      ++ source
      ++ texGenInputForm d texinfo
      ++ texGenFirstTransformation d uid_data i texinfo
      ++ texGenPostTransform d uid_data i texinfo (uid_data.postMtxInfo ⟨i, h⟩)
      ++ [W ["\x7d\n"] []])
  else none

/-- Lines 244-369: the declaration of `coord` and the loop over the generators, appending
to `out`. -/
def texGens (d : Decls) (uid_data : vertex_shader_uid_data) (out : ShaderCode) :
    Option ShaderCode :=
  forUpTo (fun i out => (texGenBlock d uid_data i).map (fun block => out ++ block))
    uid_data.numTexGens (out ++ [W ["float4 coord = float4(0.0, 0.0, 1.0, 1.0);\n"] []])

/-- Lines 371-384: the fallback color channels. -/
def fallbackColors (d : Decls) (uid_data : vertex_shader_uid_data) : List Piece :=
  (if uid_data.numColorChans = 0 then
    (if uid_data.components &&& d.VB_HAS_COL0 ≠ 0 then
      [W ["o.colors_0 = color0;\n"] []]
    else
      [W ["o.colors_0 = float4(1.0, 1.0, 1.0, 1.0);\n"] []])
   else [])
  ++ (if uid_data.numColorChans < 2 then
    (if uid_data.components &&& d.VB_HAS_COL1 ≠ 0 then
      [W ["o.colors_1 = color1;\n"] []]
    else
      [W ["o.colors_1 = o.colors_0;\n"] []])
   else [])

/-- Lines 387-431: clip position, pixel lighting pass-through, depth and pixel center. -/
def finalOutputs (d : Decls) (cfg : VideoConfig) (uid_data : vertex_shader_uid_data) :
    List Piece :=
  [W ["o.clipPos = o.pos;\n"] []]
  ++ (if uid_data.pixel_lighting then
        [W ["o.Normal = _norm0;\n"] [], W ["o.WorldPos = pos.xyz;\n"] []]
        ++ (if uid_data.components &&& d.VB_HAS_COL0 ≠ 0 then
              [W ["o.colors_0 = color0;\n"] []] else [])
        ++ (if uid_data.components &&& d.VB_HAS_COL1 ≠ 0 then
              [W ["o.colors_1 = color1;\n"] []] else [])
      else [])
  ++ (if cfg.bSupportsClipControl then
        [W ["o.pos.z = -o.pos.z;\n"] []]
      else
        [W ["o.pos.z = o.pos.z * -2.0 - o.pos.w;\n"] []])
  ++ [W ["o.pos.xy = o.pos.xy - o.pos.w * ", .ext d.I_PIXELCENTERCORRECTION, ".xy;\n"] []]

/-- Lines 433-461: the epilogue of either dialect. -/
def epilogue (d : Decls) (cfg : VideoConfig) (api_type : API_TYPE)
    (uid_data : vertex_shader_uid_data) : List Piece :=
  (if api_type = API_TYPE.API_OPENGL then
    (if cfg.bSupportsGeometryShaders then
      [Piece.collab (d.AssignVSOutputMembers "vs" "o" uid_data.numTexGens
        uid_data.pixel_lighting)]
    else
      emitFor (fun i => [W ["uv%d.xyz = o.tex%d;\n"] [.int i, .int i]]) uid_data.numTexGens
      ++ [W ["clipPos = o.clipPos;\n"] []]
      ++ (if uid_data.pixel_lighting then
            [W ["Normal = o.Normal;\n"] [], W ["WorldPos = o.WorldPos;\n"] []] else [])
      ++ [W ["colors_0 = o.colors_0;\n"] []]
      ++ [W ["colors_1 = o.colors_1;\n"] []])
    ++ [W ["gl_Position = o.pos;\n"] []]
   else
    [W ["return o;\n"] []])
  ++ [W ["\x7d\n"] []]

/-- What the function writes before the loop over the generators (lines 84-241). -/
def beforeTexGens (d : Decls) (cfg : VideoConfig) (api_type : API_TYPE)
    (uid_data : vertex_shader_uid_data) : ShaderCode :=
  preamble d cfg api_type uid_data
  ++ (if api_type = API_TYPE.API_OPENGL then glInterface d cfg uid_data
      else d3dInterface d uid_data)
  ++ transforms d uid_data
  ++ lightingFragment d uid_data

/-- What the function writes after the loop over the generators (lines 371-461). -/
def afterTexGens (d : Decls) (cfg : VideoConfig) (api_type : API_TYPE)
    (uid_data : vertex_shader_uid_data) : List Piece :=
  fallbackColors d uid_data ++ finalOutputs d cfg uid_data ++ epilogue d cfg api_type uid_data

/-- The function `GenerateVertexShaderCode`; `cfg` is the global `g_ActiveConfig`. -/
def GenerateVertexShaderCode (d : Decls) (cfg : VideoConfig) (api_type : API_TYPE)
    (uid_data : vertex_shader_uid_data) : Option ShaderCode := do
  let out : ShaderCode := beforeTexGens d cfg api_type uid_data
  let out ← texGens d uid_data out
  pure (out ++ afterTexGens d cfg api_type uid_data)


/-! ## Closed forms used in the proofs -/

/-- The slot iteration `i` leaves in `texMtxInfo[i]`, from the register and the slot before. -/
def builtTexInfo (d : Decls) (components : Nat) (hw : TexMtxInfo) (old : UidTexMtxInfo) :
    UidTexMtxInfo :=
  (uidFirstTransformation d components hw 0
    { old with sourcerow := hw.sourcerow, texgentype := hw.texgentype,
               inputform := hw.inputform } 0).1

/-- Whether iteration `j` records the projection bit of its generator. -/
def recordsProjection (d : Decls) (xfmem : XFMemory) (j : Nat) : Bool :=
  if h : j < 8 then
    decide ((xfmem.texMtxInfo ⟨j, h⟩).texgentype ≠ d.XF_TEXGEN_EMBOSS_MAP
      ∧ (xfmem.texMtxInfo ⟨j, h⟩).texgentype ≠ d.XF_TEXGEN_COLOR_STRGBC0
      ∧ (xfmem.texMtxInfo ⟨j, h⟩).texgentype ≠ d.XF_TEXGEN_COLOR_STRGBC1)
    && (xfmem.texMtxInfo ⟨j, h⟩).projection
  else false

/-- The post-matrix slot iteration `i` leaves in `postMtxInfo[i]`. -/
def builtPostInfo (d : Decls) (xfmem : XFMemory) (i : Fin 8) (old : UidPostMtxInfo) :
    UidPostMtxInfo :=
  if xfmem.dualTexTrans_enabled = true
      ∧ (xfmem.texMtxInfo i).texgentype = d.XF_TEXGEN_REGULAR then
    { index := (xfmem.postMtxInfo i).index, normalize := (xfmem.postMtxInfo i).normalize }
  else old

/-- What `n` iterations of the builder loop leave in the descriptor. -/
structure LoopResult (d : Decls) (xfmem : XFMemory) (n : Nat)
    (u0 u : vertex_shader_uid_data) : Prop where
  le : n ≤ 8
  components : u.components = u0.components
  numTexGens : u.numTexGens = u0.numTexGens
  numColorChans : u.numColorChans = u0.numColorChans
  pixel_lighting : u.pixel_lighting = u0.pixel_lighting
  msaa : u.msaa = u0.msaa
  ssaa : u.ssaa = u0.ssaa
  lighting : u.lighting = u0.lighting
  dual : u.dualTexTrans_enabled =
    if n = 0 then u0.dualTexTrans_enabled else xfmem.dualTexTrans_enabled
  tex : ∀ i : Fin 8, u.texMtxInfo i =
    if i.val < n then builtTexInfo d u0.components (xfmem.texMtxInfo i) (u0.texMtxInfo i)
    else u0.texMtxInfo i
  post : ∀ i : Fin 8, u.postMtxInfo i =
    if i.val < n then builtPostInfo d xfmem i (u0.postMtxInfo i) else u0.postMtxInfo i
  proj : ∀ j : Nat, u.texMtxInfo_n_projection.testBit j =
    (u0.texMtxInfo_n_projection.testBit j || (decide (j < n) && recordsProjection d xfmem j))

/-- The descriptor before the loop over the generators. -/
def uidScalars (s : HwState) : vertex_shader_uid_data :=
  { vertex_shader_uid_data.zero with
    numTexGens := s.xfmem.numTexGens
    components := s.g_current_components
    pixel_lighting := s.g_ActiveConfig.bEnablePixelLighting
    msaa := decide (s.g_ActiveConfig.iMultisamples > 1)
    ssaa := decide (s.g_ActiveConfig.iMultisamples > 1) && s.g_ActiveConfig.bSSAA
    numColorChans := s.xfmem.numColorChans
    lighting := s.lighting }

/-! ## Concrete inputs -/

/-- A concrete assignment of the declarations, to evaluate the code on concrete inputs.
The attribute bits are distinct powers of two, the enumerations count from zero, the texcoord
source rows are 5 to 12; collaborators emit a short marker text. -/
def sampleDecls : Decls :=
  { VB_HAS_POSMTXIDX := 2, VB_HAS_TEXMTXIDX0 := 4,
    VB_HAS_NRM0 := 1024, VB_HAS_NRM1 := 2048, VB_HAS_NRM2 := 4096, VB_HAS_NRMALL := 7168,
    VB_HAS_COL0 := 8192, VB_HAS_COL1 := 16384, VB_HAS_UV0 := 32768,
    XF_TEXGEN_REGULAR := 0, XF_TEXGEN_EMBOSS_MAP := 1,
    XF_TEXGEN_COLOR_STRGBC0 := 2, XF_TEXGEN_COLOR_STRGBC1 := 3,
    XF_SRCGEOM_INROW := 0, XF_SRCNORMAL_INROW := 1, XF_SRCCOLORS_INROW := 2,
    XF_SRCBINORMAL_T_INROW := 3, XF_SRCBINORMAL_B_INROW := 4,
    XF_SRCTEX0_INROW := 5, XF_SRCTEX7_INROW := 12,
    XF_TEXINPUT_AB11 := 0, XF_TEXPROJ_STQ := 1,
    SHADER_POSITION_ATTRIB := 0, SHADER_POSMTX_ATTRIB := 1, SHADER_NORM0_ATTRIB := 2,
    SHADER_NORM1_ATTRIB := 3, SHADER_NORM2_ATTRIB := 4, SHADER_COLOR0_ATTRIB := 5,
    SHADER_COLOR1_ATTRIB := 6, SHADER_TEXTURE0_ATTRIB := 8,
    I_POSNORMALMATRIX := "cpnmtx", I_PROJECTION := "cproj", I_TEXMATRICES := "ctexmtx",
    I_TRANSFORMMATRICES := "ctrmtx", I_NORMALMATRICES := "cnmtx",
    I_POSTTRANSFORMMATRICES := "cpostmtx", I_PIXELCENTERCORRECTION := "cpixelcenter",
    I_LIGHTS := "clights",
    LIGHT_POS := "%s[%d].pos",
    LIGHT_POS_PARAMS := fun index => [Arg.str "clights", Arg.int index],
    s_lighting_struct := "struct Light \x7b int4 color; float4 cosatt; float4 distatt; float4 pos; float4 dir; \x7d;\n",
    s_shader_uniforms := "\tfloat4 cpnmtx[6];\n\tfloat4 cproj[4];\n\tint4 cmtrl[4];\n\tLight clights[8];\n\tfloat4 ctexmtx[24];\n\tfloat4 ctrmtx[64];\n\tfloat4 cnmtx[32];\n\tfloat4 cpostmtx[64];\n\tfloat4 cpixelcenter;\n",
    GenerateVSOutputMembers := fun _ _ _ _ => "/* output members */\n",
    GetInterpolationQualifier := fun _ _ _ => "",
    GenerateLightingShaderCode := fun _ _ _ _ => "/* lighting */\n",
    AssignVSOutputMembers := fun _ _ _ _ => "/* assign members */\n",
    assert_aborts := true }

/-- A register state whose eight generator registers all hold non-zero values. -/
def busyXF (numTexGens : Nat) (texgentype : Nat) (dual : Bool) : XFMemory :=
  { numTexGens := numTexGens, numColorChans := 1,
    texMtxInfo := fun i =>
      { projection := true, inputform := 1, texgentype := texgentype, sourcerow := 5 + i.val,
        embosssourceshift := 3, embosslightshift := 2 },
    dualTexTrans_enabled := dual,
    postMtxInfo := fun _ => { index := 62, normalize := true } }

/-- A video configuration. -/
def sampleConfig : VideoConfig :=
  { bEnablePixelLighting := false, iMultisamples := 1, bSSAA := false,
    bSupportsBindingLayout := true, bSupportsGeometryShaders := false,
    bSupportsClipControl := false }

/-- A hardware state around `busyXF`, with the given attribute bits. -/
def busyState (numTexGens : Nat) (texgentype : Nat) (dual : Bool) (components : Nat) :
    HwState :=
  { bp_numtexgens := numTexGens, bp_numcolchans := 1,
    xfmem := busyXF numTexGens texgentype dual,
    g_current_components := components, g_ActiveConfig := sampleConfig,
    lighting := { bits := 0 } }

/-- A state that agrees with `busyState 2 0 true components` on what two active regular
generators make relevant, and holds zeros in every other register. -/
def quietState (components : Nat) : HwState :=
  { bp_numtexgens := 2, bp_numcolchans := 1,
    xfmem :=
      { numTexGens := 2, numColorChans := 1,
        texMtxInfo := fun i =>
          if i.val < 2 then
            { projection := true, inputform := 1, texgentype := 0, sourcerow := 5 + i.val,
              embosssourceshift := 0, embosslightshift := 0 }
          else
            { projection := false, inputform := 0, texgentype := 0, sourcerow := 0,
              embosssourceshift := 0, embosslightshift := 0 },
        dualTexTrans_enabled := true,
        postMtxInfo := fun i =>
          if i.val < 2 then { index := 62, normalize := true }
          else { index := 0, normalize := false } },
    g_current_components := components, g_ActiveConfig := sampleConfig,
    lighting := { bits := 0 } }

/-- The descriptor the builder returns for a state (the zero descriptor when it fails). -/
def builtUid (d : Decls) (s : HwState) : vertex_shader_uid_data :=
  (GetVertexShaderUid d s).getD vertex_shader_uid_data.zero

/-! ## Reading the output -/

/-- The block of generator `i` (empty when the body fails). -/
def blockOf (d : Decls) (uid_data : vertex_shader_uid_data) (i : Nat) : List Piece :=
  (texGenBlock d uid_data i).getD []

/-- The text the synthesizer returns for a descriptor (empty when it fails). -/
def codeOf (d : Decls) (cfg : VideoConfig) (api_type : API_TYPE)
    (uid_data : vertex_shader_uid_data) : ShaderCode :=
  (GenerateVertexShaderCode d cfg api_type uid_data).getD []

/-- The opening line of a generator block. -/
def blockOpener : Piece := W ["\x7b\n"] []

/-- The line resetting `coord` at the start of a generator block. -/
def coordReset : Piece := W ["coord = float4(0.0, 0.0, 1.0, 1.0);\n"] []

/-- The first segment of the format of a write. -/
def Piece.head : Piece → Option Seg
  | Piece.write fmt _ => fmt.head?
  | Piece.collab _ => none

/-- The first argument of a write. -/
def Piece.firstArg : Piece → Option Arg
  | Piece.write _ args => args.head?
  | Piece.collab _ => none

/-- Whether a write assigns a generator output: its format starts with `o.tex%d.xyz = `. -/
def Piece.assignsTex : Piece → Bool
  | Piece.write (Seg.lit s :: _) _ => "o.tex%d.xyz = ".data.isPrefixOf s.data
  | _ => false

/-- A descriptor with the given counts and flags whose active generators all hold `slot`
and `post`; the other slots are zero. -/
def sampleUid (numTexGens components : Nat) (dual : Bool) (slot : UidTexMtxInfo)
    (post : UidPostMtxInfo) : vertex_shader_uid_data :=
  { vertex_shader_uid_data.zero with
    numTexGens := numTexGens, components := components, numColorChans := 1,
    dualTexTrans_enabled := dual,
    texMtxInfo := fun i => if i.val < numTexGens then slot else UidTexMtxInfo.zero,
    postMtxInfo := fun i => if i.val < numTexGens then post else UidPostMtxInfo.zero }

/-- The characters of a segment. -/
def Seg.chars : Seg → List Char
  | Seg.lit s => s.data
  | Seg.ext s => s.data

/-- The characters of a format string: those of its segments, in order. -/
def fmtChars : List Seg → List Char
  | [] => []
  | s :: rest => s.chars ++ fmtChars rest

/-- Whether `pat` occurs as a contiguous part of a list of characters. -/
def hasInfix (pat : List Char) : List Char → Bool
  | [] => pat.isEmpty
  | c :: cs => pat.isPrefixOf (c :: cs) || hasInfix pat cs

/-- Whether the format of a write of the synthesizer contains `name`; the text of a
collaborator is not looked at. -/
def Piece.mentions (name : String) : Piece → Bool
  | Piece.write fmt _ => hasInfix name.data (fmtChars fmt)
  | Piece.collab _ => false

/-- A hardware state with one emboss generator (texcoord 0 as source row, source shift 3,
light shift 2) and NRM1 as the only attribute bit. -/
def embossNrm1State : HwState := busyState 1 1 false 2048

/-- The literals that start the formats of the writes of a generator block. -/
def blockHeads : List String :=
  ["\x7b\n", "coord = float4(0.0, 0.0, 1.0, 1.0);\n", "coord.xyz = rawpos.xyz;\n",
   "coord.xyz = rawnorm0.xyz;\n", "coord.xyz = rawnorm1.xyz;\n",
   "coord.xyz = rawnorm2.xyz;\n", "coord = float4(tex%d.x, tex%d.y, 1.0, 1.0);\n",
   "coord.z = 1.0;\n", "ldir = normalize(",
   "o.tex%d.xyz = o.tex%d.xyz + float3(dot(ldir, _norm1), dot(ldir, _norm2), 0.0);\n",
   "o.tex%d.xyz = o.tex%d.xyz;\n",
   "o.tex%d.xyz = float3(o.colors_0.x, o.colors_0.y, 1);\n",
   "o.tex%d.xyz = float3(o.colors_1.x, o.colors_1.y, 1);\n",
   "int tmp = int(tex%d.z);\n", "o.tex%d.xyz = float3(dot(coord, ", "float4 P0 = ",
   "o.tex%d.xyz = normalize(o.tex%d.xyz);\n",
   "o.tex%d.xyz = float3(dot(P0.xyz, o.tex%d.xyz) + P0.w, dot(P1.xyz, o.tex%d.xyz) + P1.w, dot(P2.xyz, o.tex%d.xyz) + P2.w);\n",
   "\x7d\n"]

/-- Whether a write of the synthesizer assigns an output color: its format starts with
`o.colors_`. -/
def Piece.assignsColor : Piece → Bool
  | Piece.write (Seg.lit s :: _) _ => "o.colors_".data.isPrefixOf s.data
  | _ => false

/-- Whether the format of a write starts with a literal that starts with `pre`. -/
def Piece.startsWith (pre : String) : Piece → Bool
  | Piece.write (Seg.lit s :: _) _ => pre.data.isPrefixOf s.data
  | _ => false

/-- The descriptor of scenario A: no generator, no attribute bit, no pixel lighting, with the
given number of color channels. -/
def scenarioA (numColorChans : Nat) : vertex_shader_uid_data :=
  { vertex_shader_uid_data.zero with numColorChans := numColorChans }

/-- A register state with the given generator and color channel counts, the same in both
sources, and no attribute bit. -/
def countState (numTexGens numColorChans : Nat) : HwState :=
  { bp_numtexgens := numTexGens, bp_numcolchans := numColorChans,
    xfmem := { busyXF numTexGens 0 false with numColorChans := numColorChans },
    g_current_components := 0, g_ActiveConfig := sampleConfig,
    lighting := { bits := 0 } }

/-- A descriptor without generators and with the given attribute bits. -/
def attrUid (components : Nat) : vertex_shader_uid_data :=
  sampleUid 0 components false UidTexMtxInfo.zero UidPostMtxInfo.zero

/-- The case labels of `switch (texinfo.sourcerow)` are distinct, the texcoord rows follow
them, and the eight texcoord rows are consecutive. -/
abbrev Decls.sourceRowLabels (d : Decls) : Prop :=
  [d.XF_SRCGEOM_INROW, d.XF_SRCNORMAL_INROW, d.XF_SRCCOLORS_INROW,
    d.XF_SRCBINORMAL_T_INROW, d.XF_SRCBINORMAL_B_INROW].Nodup
  ∧ d.XF_SRCGEOM_INROW < d.XF_SRCTEX0_INROW ∧ d.XF_SRCNORMAL_INROW < d.XF_SRCTEX0_INROW
  ∧ d.XF_SRCCOLORS_INROW < d.XF_SRCTEX0_INROW
  ∧ d.XF_SRCBINORMAL_T_INROW < d.XF_SRCTEX0_INROW
  ∧ d.XF_SRCBINORMAL_B_INROW < d.XF_SRCTEX0_INROW
  ∧ d.XF_SRCTEX7_INROW = d.XF_SRCTEX0_INROW + 7

/-- What the synthesizer reads of a descriptor: the fields on which two descriptors have to
agree to get the same text. -/
structure ReadsAlike (d : Decls) (u1 u2 : vertex_shader_uid_data) : Prop where
  components : u1.components = u2.components
  numTexGens : u1.numTexGens = u2.numTexGens
  numColorChans : u1.numColorChans = u2.numColorChans
  dual : u1.dualTexTrans_enabled = u2.dualTexTrans_enabled
  pixel_lighting : u1.pixel_lighting = u2.pixel_lighting
  msaa : u1.msaa = u2.msaa
  ssaa : u1.ssaa = u2.ssaa
  lighting : u1.lighting = u2.lighting
  sourcerow : ∀ i : Fin 8, i.val < u1.numTexGens →
    (u1.texMtxInfo i).sourcerow = (u2.texMtxInfo i).sourcerow
  texgentype : ∀ i : Fin 8, i.val < u1.numTexGens →
    (u1.texMtxInfo i).texgentype = (u2.texMtxInfo i).texgentype
  inputform : ∀ i : Fin 8, i.val < u1.numTexGens →
    (u1.texMtxInfo i).inputform = (u2.texMtxInfo i).inputform
  embosssourceshift : ∀ i : Fin 8, i.val < u1.numTexGens →
    (u1.texMtxInfo i).texgentype = d.XF_TEXGEN_EMBOSS_MAP →
    (u1.texMtxInfo i).embosssourceshift = (u2.texMtxInfo i).embosssourceshift
  embosslightshift : ∀ i : Fin 8, i.val < u1.numTexGens →
    (u1.texMtxInfo i).texgentype = d.XF_TEXGEN_EMBOSS_MAP →
    (u1.components &&& d.VB_HAS_NRM1 ≠ 0 ∨ u1.components &&& d.VB_HAS_NRM2 ≠ 0) →
    (u1.texMtxInfo i).embosslightshift = (u2.texMtxInfo i).embosslightshift
  projection : ∀ i : Fin 8, i.val < u1.numTexGens →
    (u1.texMtxInfo i).texgentype ≠ d.XF_TEXGEN_EMBOSS_MAP →
    (u1.texMtxInfo i).texgentype ≠ d.XF_TEXGEN_COLOR_STRGBC0 →
    (u1.texMtxInfo i).texgentype ≠ d.XF_TEXGEN_COLOR_STRGBC1 →
    u1.texMtxInfo_n_projection.testBit i.val = u2.texMtxInfo_n_projection.testBit i.val
  post : ∀ i : Fin 8, i.val < u1.numTexGens →
    u1.dualTexTrans_enabled = true →
    (u1.texMtxInfo i).texgentype = d.XF_TEXGEN_REGULAR →
    u1.postMtxInfo i = u2.postMtxInfo i

/-! ## Lemmas on the builder -/

theorem uidFirstTransformation_fst (d : Decls) (c : Nat) (hw : TexMtxInfo) (i p : Nat)
    (t : UidTexMtxInfo) :
    (uidFirstTransformation d c hw i t p).1 = (uidFirstTransformation d c hw 0 t 0).1 := by
  unfold uidFirstTransformation
  split_ifs <;> rfl

theorem uidFirstTransformation_texgentype (d : Decls) (c : Nat) (hw : TexMtxInfo) (i p : Nat)
    (t : UidTexMtxInfo) :
    (uidFirstTransformation d c hw i t p).1.texgentype = t.texgentype := by
  unfold uidFirstTransformation
  split_ifs <;> rfl

theorem uidFirstTransformation_snd (d : Decls) (c : Nat) (hw : TexMtxInfo) (i p : Nat)
    (t : UidTexMtxInfo) :
    (uidFirstTransformation d c hw i t p).2 =
      if t.texgentype ≠ d.XF_TEXGEN_EMBOSS_MAP ∧ t.texgentype ≠ d.XF_TEXGEN_COLOR_STRGBC0
          ∧ t.texgentype ≠ d.XF_TEXGEN_COLOR_STRGBC1
      then p ||| (hw.projection.toNat <<< i) else p := by
  unfold uidFirstTransformation
  split_ifs <;> simp_all

theorem forUpTo_uid (d : Decls) (xfmem : XFMemory) (u0 : vertex_shader_uid_data) :
    ∀ (n : Nat) (u : vertex_shader_uid_data),
      forUpTo (uidTexGenStep d xfmem) n u0 = some u → LoopResult d xfmem n u0 u := by
  intro n
  induction n with
  | zero =>
    intro u h
    simp only [forUpTo, Option.some.injEq] at h
    subst h
    constructor <;> simp
  | succ n ih =>
    intro u h
    simp only [forUpTo, Option.bind_eq_some] at h
    obtain ⟨u1, h1, h2⟩ := h
    have r := ih u1 h1
    unfold uidTexGenStep at h2
    split at h2
    case isFalse => exact absurd h2 (by simp)
    case isTrue hn =>
      simp only [Option.some.injEq] at h2
      subst h2
      constructor
      · omega
      · exact r.components
      · exact r.numTexGens
      · exact r.numColorChans
      · exact r.pixel_lighting
      · exact r.msaa
      · exact r.ssaa
      · exact r.lighting
      · simp
      · intro i
        by_cases hi : i = ⟨n, hn⟩
        · subst hi
          simp only [Function.update_same, Nat.lt_succ_self, if_true]
          rw [uidFirstTransformation_fst, r.tex ⟨n, hn⟩, r.components]
          simp [builtTexInfo]
        · have hne : i.val ≠ n := fun e => hi (Fin.ext e)
          simp only [Function.update_noteq hi]
          rw [r.tex i]
          have : (i.val < n + 1) = (i.val < n) := by
            apply propext; constructor <;> intro _ <;> omega
          simp only [this]
      · intro i
        by_cases hi : i = ⟨n, hn⟩
        · subst hi
          simp only [Function.update_same, Nat.lt_succ_self, if_true]
          rw [uidFirstTransformation_texgentype, r.post ⟨n, hn⟩]
          simp [builtPostInfo]
        · have hne : i.val ≠ n := fun e => hi (Fin.ext e)
          simp only [Function.update_noteq hi]
          rw [r.post i]
          have : (i.val < n + 1) = (i.val < n) := by
            apply propext; constructor <;> intro _ <;> omega
          simp only [this]
      · intro j
        simp only [uidFirstTransformation_snd]
        by_cases hj : j = n
        · subst hj
          have hrec := r.proj j
          simp only [lt_self_iff_false, decide_False, Bool.false_and, Bool.or_false] at hrec
          simp only [recordsProjection, hn, dite_true, Nat.lt_succ_self, decide_True,
            Bool.true_and]
          split_ifs with hc
          · rw [Nat.testBit_or, Nat.testBit_shiftLeft, hrec]
            cases (xfmem.texMtxInfo ⟨j, hn⟩).projection <;> simp [Nat.testBit_bool_to_nat, hc]
          · rw [hrec]
            simp only [ne_eq] at hc
            simp [hc]
        · have hlt : decide (j < n + 1) = decide (j < n) := by
            apply decide_eq_decide.mpr; constructor <;> intro _ <;> omega
          rw [hlt, ← r.proj j]
          split_ifs with hc
          · rw [Nat.testBit_or, Nat.testBit_shiftLeft, Nat.testBit_bool_to_nat]
            have : ¬ (j - n = 0 ∧ j ≥ n) := by omega
            by_cases h1 : j ≥ n
            · have h2 : ¬ (j - n = 0) := by omega
              simp [h1, h2]
            · simp [h1]
          · rfl

theorem or_eq_zero_iff (a b : Nat) : a ||| b = 0 ↔ a = 0 ∧ b = 0 := by
  constructor
  · intro h
    have key : ∀ i, a.testBit i = false ∧ b.testBit i = false := by
      intro i
      have := congrArg (fun x => x.testBit i) h
      simpa [Nat.testBit_or] using this
    exact ⟨Nat.eq_of_testBit_eq (fun i => by simp [(key i).1]),
      Nat.eq_of_testBit_eq (fun i => by simp [(key i).2])⟩
  · rintro ⟨rfl, rfl⟩
    rfl

/-- A mask test against the union of two masks holds when one of the two tests holds. -/
theorem and_or_ne_zero (c x y : Nat) : c &&& (x ||| y) ≠ 0 ↔ c &&& x ≠ 0 ∨ c &&& y ≠ 0 := by
  rw [Nat.and_or_distrib_left, ne_eq, or_eq_zero_iff]
  tauto

theorem GetVertexShaderUid_loop (d : Decls) (s : HwState) (u : vertex_shader_uid_data)
    (h : GetVertexShaderUid d s = some u) :
    LoopResult d s.xfmem s.xfmem.numTexGens (uidScalars s) u := by
  apply forUpTo_uid
  unfold GetVertexShaderUid at h
  simp only [bind, Option.bind_eq_some] at h
  obtain ⟨_, _, _, _, h⟩ := h
  exact h

/-- The builder returns a descriptor when the assertions hold and the count is at most 8. -/
theorem GetVertexShaderUid_returns (d : Decls) (s : HwState)
    (hg : s.bp_numtexgens = s.xfmem.numTexGens) (hc : s.bp_numcolchans = s.xfmem.numColorChans)
    (h8 : s.xfmem.numTexGens ≤ 8) : ∃ u, GetVertexShaderUid d s = some u := by
  have loop : ∀ n u0, n ≤ 8 → ∃ u, forUpTo (uidTexGenStep d s.xfmem) n u0 = some u := by
    intro n
    induction n with
    | zero => intro u0 _; exact ⟨u0, rfl⟩
    | succ n ih =>
      intro u0 hn
      obtain ⟨u1, h1⟩ := ih u0 (by omega)
      have hlt : n < 8 := by omega
      simp only [forUpTo, h1, Option.some_bind, uidTexGenStep, hlt, dite_true]
      exact ⟨_, rfl⟩
  obtain ⟨u, hu⟩ := loop s.xfmem.numTexGens (uidScalars s) h8
  refine ⟨u, ?_⟩
  unfold GetVertexShaderUid
  simp only [_assert_, hg, hc, decide_True, Bool.not_true, Bool.and_false, bind,
    Bool.false_eq_true, if_false, Option.some_bind]
  exact hu

theorem uid_ext (a b : vertex_shader_uid_data)
    (h1 : a.components = b.components) (h2 : a.numTexGens = b.numTexGens)
    (h3 : a.numColorChans = b.numColorChans)
    (h4 : a.dualTexTrans_enabled = b.dualTexTrans_enabled)
    (h5 : a.pixel_lighting = b.pixel_lighting) (h6 : a.msaa = b.msaa) (h7 : a.ssaa = b.ssaa)
    (h8 : a.texMtxInfo_n_projection = b.texMtxInfo_n_projection)
    (h9 : ∀ i, a.texMtxInfo i = b.texMtxInfo i) (h10 : ∀ i, a.postMtxInfo i = b.postMtxInfo i)
    (h11 : a.lighting = b.lighting) : a = b := by
  cases a; cases b
  simp only [vertex_shader_uid_data.mk.injEq]
  exact ⟨h1, h2, h3, h4, h5, h6, h7, h8, funext h9, funext h10, h11⟩

theorem builtUid_eq (d : Decls) (s : HwState)
    (h : (GetVertexShaderUid d s).isSome = true) :
    GetVertexShaderUid d s = some (builtUid d s) := by
  unfold builtUid
  cases hg : GetVertexShaderUid d s with
  | none => rw [hg] at h; exact absurd h (by simp)
  | some u => rfl

/-! ## Claims on the builder -/

/-- C1: in the descriptor `GetVertexShaderUid` returns, every `texMtxInfo` slot and every
`postMtxInfo` slot at an index `i` with `numTexGens ≤ i < 8` is all zero. -/
theorem GetVertexShaderUid_inactive_slots_zero (d : Decls) (s : HwState)
    (u : vertex_shader_uid_data) (h : GetVertexShaderUid d s = some u)
    (i : Fin 8) (hi : u.numTexGens ≤ i.val) :
    u.texMtxInfo i = UidTexMtxInfo.zero ∧ u.postMtxInfo i = UidPostMtxInfo.zero := by
  have r := GetVertexShaderUid_loop d s u h
  have hn : u.numTexGens = s.xfmem.numTexGens := r.numTexGens
  have hlt : ¬ (i.val < s.xfmem.numTexGens) := by omega
  constructor
  · rw [r.tex i, if_neg hlt]; rfl
  · rw [r.post i, if_neg hlt]; rfl

theorem GetVertexShaderUid_inactive_slots_zero_witness :
    GetVertexShaderUid sampleDecls (busyState 2 0 true 2048)
        = some (builtUid sampleDecls (busyState 2 0 true 2048))
      ∧ (builtUid sampleDecls (busyState 2 0 true 2048)).numTexGens ≤ (5 : Fin 8).val
      ∧ (builtUid sampleDecls (busyState 2 0 true 2048)).texMtxInfo 5 = UidTexMtxInfo.zero
      ∧ (builtUid sampleDecls (busyState 2 0 true 2048)).postMtxInfo 5
          = UidPostMtxInfo.zero :=
  ⟨builtUid_eq _ _ (by decide), by decide,
    GetVertexShaderUid_inactive_slots_zero sampleDecls (busyState 2 0 true 2048) _
      (builtUid_eq _ _ (by decide)) 5 (by decide)⟩


/-- C2: for an active generator `i` of the descriptor the builder returns, the emboss light
shift is the register value when the type is emboss and NRM1 or NRM2 is present and zero
otherwise, the emboss source shift is the register value when the type is emboss and zero
otherwise, and the post-matrix slot holds the register index and normalize flag when dual
transform is enabled and the type is regular and is zero otherwise. -/
theorem GetVertexShaderUid_conditional_fields (d : Decls) (s : HwState)
    (u : vertex_shader_uid_data) (h : GetVertexShaderUid d s = some u)
    (i : Fin 8) (hi : i.val < u.numTexGens) :
    (u.texMtxInfo i).texgentype = (s.xfmem.texMtxInfo i).texgentype
    ∧ u.dualTexTrans_enabled = s.xfmem.dualTexTrans_enabled
    ∧ (((u.texMtxInfo i).texgentype = d.XF_TEXGEN_EMBOSS_MAP
          ∧ (u.components &&& d.VB_HAS_NRM1 ≠ 0 ∨ u.components &&& d.VB_HAS_NRM2 ≠ 0)) →
        (u.texMtxInfo i).embosslightshift = (s.xfmem.texMtxInfo i).embosslightshift)
    ∧ (¬ ((u.texMtxInfo i).texgentype = d.XF_TEXGEN_EMBOSS_MAP
          ∧ (u.components &&& d.VB_HAS_NRM1 ≠ 0 ∨ u.components &&& d.VB_HAS_NRM2 ≠ 0)) →
        (u.texMtxInfo i).embosslightshift = 0)
    ∧ ((u.texMtxInfo i).texgentype = d.XF_TEXGEN_EMBOSS_MAP →
        (u.texMtxInfo i).embosssourceshift = (s.xfmem.texMtxInfo i).embosssourceshift)
    ∧ (¬ (u.texMtxInfo i).texgentype = d.XF_TEXGEN_EMBOSS_MAP →
        (u.texMtxInfo i).embosssourceshift = 0)
    ∧ ((u.dualTexTrans_enabled = true
          ∧ (u.texMtxInfo i).texgentype = d.XF_TEXGEN_REGULAR) →
        (u.postMtxInfo i).index = (s.xfmem.postMtxInfo i).index
        ∧ (u.postMtxInfo i).normalize = (s.xfmem.postMtxInfo i).normalize)
    ∧ (¬ (u.dualTexTrans_enabled = true
          ∧ (u.texMtxInfo i).texgentype = d.XF_TEXGEN_REGULAR) →
        u.postMtxInfo i = UidPostMtxInfo.zero) := by
  have r := GetVertexShaderUid_loop d s u h
  have hn : u.numTexGens = s.xfmem.numTexGens := r.numTexGens
  have hlt : i.val < s.xfmem.numTexGens := by omega
  have hpos : ¬ (s.xfmem.numTexGens = 0) := by omega
  have hc : u.components = s.g_current_components := r.components
  have hd : u.dualTexTrans_enabled = s.xfmem.dualTexTrans_enabled := by
    rw [r.dual, if_neg hpos]
  have ht : u.texMtxInfo i
      = builtTexInfo d s.g_current_components (s.xfmem.texMtxInfo i) UidTexMtxInfo.zero := by
    rw [r.tex i, if_pos hlt]; rfl
  have hp : u.postMtxInfo i = builtPostInfo d s.xfmem i UidPostMtxInfo.zero := by
    rw [r.post i, if_pos hlt]; rfl
  have hty : (u.texMtxInfo i).texgentype = (s.xfmem.texMtxInfo i).texgentype := by
    rw [ht, builtTexInfo, uidFirstTransformation_texgentype]
  refine ⟨hty, hd, ?_, ?_, ?_, ?_, ?_, ?_⟩
  · rintro ⟨he, hnrm⟩
    rw [hty] at he
    rw [hc, ← and_or_ne_zero] at hnrm
    rw [ht, builtTexInfo, uidFirstTransformation]
    rw [if_pos he, if_pos hnrm]
  · intro hneg
    rw [hty, hc, ← and_or_ne_zero] at hneg
    rw [ht, builtTexInfo, uidFirstTransformation]
    split_ifs with h1 h2 h3
    · exact absurd ⟨h1, h2⟩ hneg
    · rfl
    · rfl
    · rfl
  · intro he
    rw [hty] at he
    rw [ht, builtTexInfo, uidFirstTransformation]
    rw [if_pos he]
    split_ifs <;> rfl
  · intro hneg
    rw [hty] at hneg
    rw [ht, builtTexInfo, uidFirstTransformation]
    rw [if_neg hneg]
    split_ifs <;> rfl
  · intro hcond
    rw [hd, hty] at hcond
    rw [hp, builtPostInfo, if_pos hcond]
    exact ⟨rfl, rfl⟩
  · intro hneg
    rw [hd, hty] at hneg
    rw [hp, builtPostInfo, if_neg hneg]

theorem GetVertexShaderUid_conditional_fields_witness :
    GetVertexShaderUid sampleDecls (busyState 2 1 true 2048)
        = some (builtUid sampleDecls (busyState 2 1 true 2048))
      ∧ (1 : Fin 8).val < (builtUid sampleDecls (busyState 2 1 true 2048)).numTexGens
      ∧ ((builtUid sampleDecls (busyState 2 1 true 2048)).texMtxInfo 1).embosslightshift = 2
      ∧ ((builtUid sampleDecls (busyState 2 1 true 2048)).texMtxInfo 1).embosssourceshift = 3
      ∧ (builtUid sampleDecls (busyState 2 1 true 2048)).postMtxInfo 1
          = UidPostMtxInfo.zero := by
  have hs := builtUid_eq sampleDecls (busyState 2 1 true 2048) (by decide)
  have c := GetVertexShaderUid_conditional_fields sampleDecls (busyState 2 1 true 2048) _ hs 1
    (by decide)
  obtain ⟨hty, -, h1, -, h3, -, -, h6⟩ := c
  have he : ((builtUid sampleDecls (busyState 2 1 true 2048)).texMtxInfo 1).texgentype
      = sampleDecls.XF_TEXGEN_EMBOSS_MAP := by rw [hty]; rfl
  refine ⟨hs, by decide, ?_, ?_, ?_⟩
  · rw [h1 ⟨he, Or.inl (by decide)⟩]; rfl
  · rw [h3 he]; rfl
  · apply h6
    rw [he]
    decide


/-- C3, as stated, fails: with one active generator whose type is none of the four named
types (value 4) and whose projection bit is STQ, bit 0 of the projection bits is set although
the type is not regular. -/
theorem projection_bit_set_for_unnamed_type :
    GetVertexShaderUid sampleDecls (busyState 1 4 false 0)
        = some (builtUid sampleDecls (busyState 1 4 false 0))
      ∧ ¬ ((builtUid sampleDecls (busyState 1 4 false 0)).texMtxInfo_n_projection.testBit 0
            = true ↔
          (0 < (builtUid sampleDecls (busyState 1 4 false 0)).numTexGens
            ∧ ((busyState 1 4 false 0).xfmem.texMtxInfo 0).texgentype
                = sampleDecls.XF_TEXGEN_REGULAR
            ∧ ((busyState 1 4 false 0).xfmem.texMtxInfo 0).projection = true)) :=
  ⟨builtUid_eq _ _ (by decide), by decide⟩

/-- C3, amended: bit `i` of the projection bits of the returned descriptor is set if and only
if `i < numTexGens`, the type of generator `i` is neither emboss nor one of the two color
types (so regular, or a value the default label treats like regular), and the projection bit
of the register is STQ (1); no bit at position 8 or above is set. -/
theorem GetVertexShaderUid_projection_bits (d : Decls) (s : HwState)
    (u : vertex_shader_uid_data) (h : GetVertexShaderUid d s = some u) :
    (∀ i : Fin 8, u.texMtxInfo_n_projection.testBit i.val = true ↔
      (i.val < u.numTexGens
        ∧ (s.xfmem.texMtxInfo i).texgentype ≠ d.XF_TEXGEN_EMBOSS_MAP
        ∧ (s.xfmem.texMtxInfo i).texgentype ≠ d.XF_TEXGEN_COLOR_STRGBC0
        ∧ (s.xfmem.texMtxInfo i).texgentype ≠ d.XF_TEXGEN_COLOR_STRGBC1
        ∧ (s.xfmem.texMtxInfo i).projection = true))
    ∧ (∀ j : Nat, 8 ≤ j → u.texMtxInfo_n_projection.testBit j = false) := by
  have r := GetVertexShaderUid_loop d s u h
  have hn : u.numTexGens = s.xfmem.numTexGens := r.numTexGens
  constructor
  · intro i
    rw [r.proj i.val, hn]
    simp only [uidScalars, vertex_shader_uid_data.zero, Nat.zero_testBit, Bool.false_or,
      recordsProjection, i.isLt, dite_true, Bool.and_eq_true, decide_eq_true_eq, Fin.eta]
    tauto
  · intro j hj
    rw [r.proj j]
    have hj8 : ¬ (j < 8) := by omega
    simp [uidScalars, vertex_shader_uid_data.zero, recordsProjection, hj8]

theorem GetVertexShaderUid_projection_bits_witness :
    GetVertexShaderUid sampleDecls (busyState 2 0 true 2048)
        = some (builtUid sampleDecls (busyState 2 0 true 2048))
      ∧ (builtUid sampleDecls (busyState 2 0 true 2048)).texMtxInfo_n_projection.testBit 1
          = true
      ∧ (builtUid sampleDecls (busyState 2 0 true 2048)).texMtxInfo_n_projection.testBit 2
          = false := by
  have hs := builtUid_eq sampleDecls (busyState 2 0 true 2048) (by decide)
  have c := GetVertexShaderUid_projection_bits sampleDecls (busyState 2 0 true 2048) _ hs
  refine ⟨hs, (c.1 1).mpr (by decide), ?_⟩
  have h2 := (c.1 2).not.mpr (by decide)
  simpa using h2

/-- C4, as stated, fails: with zero active generators and dual transform enabled in the
registers, the field of the descriptor stays false. -/
theorem dualTexTrans_not_copied_without_generators :
    GetVertexShaderUid sampleDecls (busyState 0 0 true 0)
        = some (builtUid sampleDecls (busyState 0 0 true 0))
      ∧ (busyState 0 0 true 0).xfmem.dualTexTrans_enabled = true
      ∧ (builtUid sampleDecls (busyState 0 0 true 0)).dualTexTrans_enabled = false :=
  ⟨builtUid_eq _ _ (by decide), by decide, by decide⟩

/-- C4, amended: the field `dualTexTrans_enabled` of the returned descriptor equals the global
flag when at least one generator is active, and is false (zero) when none is. -/
theorem GetVertexShaderUid_dualTexTrans (d : Decls) (s : HwState)
    (u : vertex_shader_uid_data) (h : GetVertexShaderUid d s = some u) :
    (0 < u.numTexGens → u.dualTexTrans_enabled = s.xfmem.dualTexTrans_enabled)
    ∧ (u.numTexGens = 0 → u.dualTexTrans_enabled = false) := by
  have r := GetVertexShaderUid_loop d s u h
  have hn : u.numTexGens = s.xfmem.numTexGens := r.numTexGens
  constructor
  · intro hpos
    have : ¬ (s.xfmem.numTexGens = 0) := by omega
    rw [r.dual, if_neg this]
  · intro hz
    rw [hn] at hz
    rw [r.dual, if_pos hz]; rfl

theorem GetVertexShaderUid_dualTexTrans_witness :
    GetVertexShaderUid sampleDecls (busyState 2 0 true 0)
        = some (builtUid sampleDecls (busyState 2 0 true 0))
      ∧ 0 < (builtUid sampleDecls (busyState 2 0 true 0)).numTexGens
      ∧ (builtUid sampleDecls (busyState 2 0 true 0)).dualTexTrans_enabled = true :=
  ⟨builtUid_eq _ _ (by decide), by decide,
    (GetVertexShaderUid_dualTexTrans sampleDecls (busyState 2 0 true 0) _
      (builtUid_eq _ _ (by decide))).1 (by decide)⟩

/-- C5: two hardware states that agree on the generator count, the channel count, the
component bits, the pixel-lighting, multisample and SSAA settings, the lighting state, the
dual-transform flag and, for every active generator, on source row, type and input form, on
the emboss source shift when the type is emboss, on the emboss light shift when the type is
emboss and NRM1 or NRM2 is present, on the projection bit when the type is regular or
default, and on the post-matrix index and normalize flag when dual transform is enabled and
the type is regular, get equal descriptors, whatever their other registers hold. -/
theorem GetVertexShaderUid_canonical (d : Decls) (s1 s2 : HwState)
    (u1 u2 : vertex_shader_uid_data)
    (h1 : GetVertexShaderUid d s1 = some u1) (h2 : GetVertexShaderUid d s2 = some u2)
    (hgens : s1.xfmem.numTexGens = s2.xfmem.numTexGens)
    (hchans : s1.xfmem.numColorChans = s2.xfmem.numColorChans)
    (hcomp : s1.g_current_components = s2.g_current_components)
    (hpl : s1.g_ActiveConfig.bEnablePixelLighting = s2.g_ActiveConfig.bEnablePixelLighting)
    (hms : s1.g_ActiveConfig.iMultisamples = s2.g_ActiveConfig.iMultisamples)
    (hssaa : s1.g_ActiveConfig.bSSAA = s2.g_ActiveConfig.bSSAA)
    (hlight : s1.lighting = s2.lighting)
    (hdual : s1.xfmem.dualTexTrans_enabled = s2.xfmem.dualTexTrans_enabled)
    (hgen : ∀ i : Fin 8, i.val < s1.xfmem.numTexGens →
      (s1.xfmem.texMtxInfo i).sourcerow = (s2.xfmem.texMtxInfo i).sourcerow
      ∧ (s1.xfmem.texMtxInfo i).texgentype = (s2.xfmem.texMtxInfo i).texgentype
      ∧ (s1.xfmem.texMtxInfo i).inputform = (s2.xfmem.texMtxInfo i).inputform
      ∧ ((s1.xfmem.texMtxInfo i).texgentype = d.XF_TEXGEN_EMBOSS_MAP →
          (s1.xfmem.texMtxInfo i).embosssourceshift
            = (s2.xfmem.texMtxInfo i).embosssourceshift)
      ∧ ((s1.xfmem.texMtxInfo i).texgentype = d.XF_TEXGEN_EMBOSS_MAP →
          (s1.g_current_components &&& d.VB_HAS_NRM1 ≠ 0
            ∨ s1.g_current_components &&& d.VB_HAS_NRM2 ≠ 0) →
          (s1.xfmem.texMtxInfo i).embosslightshift
            = (s2.xfmem.texMtxInfo i).embosslightshift)
      ∧ ((s1.xfmem.texMtxInfo i).texgentype ≠ d.XF_TEXGEN_EMBOSS_MAP →
          (s1.xfmem.texMtxInfo i).texgentype ≠ d.XF_TEXGEN_COLOR_STRGBC0 →
          (s1.xfmem.texMtxInfo i).texgentype ≠ d.XF_TEXGEN_COLOR_STRGBC1 →
          (s1.xfmem.texMtxInfo i).projection = (s2.xfmem.texMtxInfo i).projection)
      ∧ (s1.xfmem.dualTexTrans_enabled = true →
          (s1.xfmem.texMtxInfo i).texgentype = d.XF_TEXGEN_REGULAR →
          (s1.xfmem.postMtxInfo i).index = (s2.xfmem.postMtxInfo i).index
          ∧ (s1.xfmem.postMtxInfo i).normalize = (s2.xfmem.postMtxInfo i).normalize)) :
    u1 = u2 := by
  have r1 := GetVertexShaderUid_loop d s1 u1 h1
  have r2 := GetVertexShaderUid_loop d s2 u2 h2
  apply uid_ext
  · rw [r1.components, r2.components]; exact hcomp
  · rw [r1.numTexGens, r2.numTexGens]; exact hgens
  · rw [r1.numColorChans, r2.numColorChans]; exact hchans
  · rw [r1.dual, r2.dual, hgens, hdual]; rfl
  · rw [r1.pixel_lighting, r2.pixel_lighting]; exact hpl
  · rw [r1.msaa, r2.msaa]; simp only [uidScalars, hms]
  · rw [r1.ssaa, r2.ssaa]; simp only [uidScalars, hms, hssaa]
  · apply Nat.eq_of_testBit_eq
    intro j
    rw [r1.proj j, r2.proj j, ← hgens]
    simp only [uidScalars, vertex_shader_uid_data.zero, Nat.zero_testBit, Bool.false_or]
    by_cases hj : j < s1.xfmem.numTexGens
    · have hj8 : j < 8 := lt_of_lt_of_le hj r1.le
      obtain ⟨-, hty, -, -, -, hproj, -⟩ := hgen ⟨j, hj8⟩ hj
      simp only [hj, decide_True, Bool.true_and, recordsProjection, hj8, dite_true]
      rw [← hty]
      by_cases hc : (s1.xfmem.texMtxInfo ⟨j, hj8⟩).texgentype ≠ d.XF_TEXGEN_EMBOSS_MAP
          ∧ (s1.xfmem.texMtxInfo ⟨j, hj8⟩).texgentype ≠ d.XF_TEXGEN_COLOR_STRGBC0
          ∧ (s1.xfmem.texMtxInfo ⟨j, hj8⟩).texgentype ≠ d.XF_TEXGEN_COLOR_STRGBC1
      · rw [hproj hc.1 hc.2.1 hc.2.2]
      · simp only [hc, decide_False, Bool.false_and]
    · simp only [hj, decide_False, Bool.false_and]
  · intro i
    rw [r1.tex i, r2.tex i, ← hgens]
    split_ifs with hi
    · obtain ⟨hsr, hty, hif, hess, hels, -, -⟩ := hgen i hi
      simp only [builtTexInfo, uidFirstTransformation, uidScalars, ← hsr, ← hty, ← hif,
        ← hcomp, vertex_shader_uid_data.zero]
      split_ifs with he hn
      · rw [hess he, hels he ((and_or_ne_zero _ _ _).mp hn)]
      · rw [hess he]
      · rfl
      · rfl
    · rfl
  · intro i
    rw [r1.post i, r2.post i, ← hgens]
    split_ifs with hi
    · obtain ⟨-, hty, -, -, -, -, hpost⟩ := hgen i hi
      simp only [builtPostInfo, ← hdual, ← hty]
      split_ifs with hc
      · rw [(hpost hc.1 hc.2).1, (hpost hc.1 hc.2).2]
      · rfl
    · rfl
  · rw [r1.lighting, r2.lighting]; exact hlight

theorem GetVertexShaderUid_canonical_witness :
    GetVertexShaderUid sampleDecls (busyState 2 0 true 2048)
        = some (builtUid sampleDecls (busyState 2 0 true 2048))
      ∧ GetVertexShaderUid sampleDecls (quietState 2048)
        = some (builtUid sampleDecls (quietState 2048))
      ∧ ((busyState 2 0 true 2048).xfmem.texMtxInfo 5).sourcerow
          ≠ ((quietState 2048).xfmem.texMtxInfo 5).sourcerow
      ∧ builtUid sampleDecls (busyState 2 0 true 2048)
          = builtUid sampleDecls (quietState 2048) :=
  ⟨builtUid_eq _ _ (by decide), builtUid_eq _ _ (by decide), by decide,
    GetVertexShaderUid_canonical sampleDecls (busyState 2 0 true 2048) (quietState 2048) _ _
      (builtUid_eq _ _ (by decide)) (builtUid_eq _ _ (by decide))
      (by decide) (by decide) (by decide) (by decide) (by decide) (by decide) (by decide)
      (by decide) (by decide)⟩


/-! ## Lemmas on the synthesizer -/

theorem mem_emitFor (body : Nat → List Piece) (p : Piece) :
    ∀ n, p ∈ emitFor body n ↔ ∃ i, i < n ∧ p ∈ body i := by
  intro n
  induction n with
  | zero => simp [emitFor]
  | succ n ih =>
    simp only [emitFor, List.mem_append, ih]
    constructor
    · rintro (⟨i, hi, hp⟩ | hp)
      · exact ⟨i, by omega, hp⟩
      · exact ⟨n, by omega, hp⟩
    · rintro ⟨i, hi, hp⟩
      by_cases hin : i = n
      · subst hin; exact Or.inr hp
      · exact Or.inl ⟨i, by omega, hp⟩

theorem emitFor_infix (body : Nat → List Piece) :
    ∀ n i, i < n → body i <:+: emitFor body n := by
  intro n
  induction n with
  | zero => intro i hi; omega
  | succ n ih =>
    intro i hi
    simp only [emitFor]
    by_cases hin : i = n
    · subst hin
      exact (List.suffix_append _ _).isInfix
    · exact (ih i (by omega)).trans (List.prefix_append _ _).isInfix

theorem texGens_loop (d : Decls) (uid_data : vertex_shader_uid_data) (out0 : ShaderCode) :
    ∀ (n : Nat) (r : ShaderCode),
      forUpTo (fun i out => (texGenBlock d uid_data i).map (fun block => out ++ block)) n out0
        = some r →
      n ≤ 8 ∧ (∀ i, i < n → texGenBlock d uid_data i = some (blockOf d uid_data i))
      ∧ r = out0 ++ emitFor (blockOf d uid_data) n := by
  intro n
  induction n with
  | zero =>
    intro r h
    simp only [forUpTo, Option.some.injEq] at h
    subst h
    simp [emitFor]
  | succ n ih =>
    intro r h
    simp only [forUpTo, Option.bind_eq_some, Option.map_eq_some'] at h
    obtain ⟨r1, h1, block, hb, hr⟩ := h
    obtain ⟨hle, hall, hr1⟩ := ih r1 h1
    have hn8 : n < 8 := by
      by_contra hcon
      simp [texGenBlock, hcon] at hb
    refine ⟨by omega, ?_, ?_⟩
    · intro i hi
      by_cases hin : i = n
      · subst hin; simp [blockOf, hb]
      · exact hall i (by omega)
    · subst hr
      simp [emitFor, hr1, blockOf, hb]

/-- The shape of the text: what precedes the generator loop, the declaration of `coord`, the
blocks of the generators `0 .. numTexGens-1` in increasing order, and what follows. -/
theorem GenerateVertexShaderCode_shape (d : Decls) (cfg : VideoConfig) (api_type : API_TYPE)
    (uid_data : vertex_shader_uid_data) (out : ShaderCode)
    (h : GenerateVertexShaderCode d cfg api_type uid_data = some out) :
    uid_data.numTexGens ≤ 8
    ∧ (∀ i, i < uid_data.numTexGens →
        texGenBlock d uid_data i = some (blockOf d uid_data i))
    ∧ out = beforeTexGens d cfg api_type uid_data
        ++ [W ["float4 coord = float4(0.0, 0.0, 1.0, 1.0);\n"] []]
        ++ emitFor (blockOf d uid_data) uid_data.numTexGens
        ++ afterTexGens d cfg api_type uid_data := by
  unfold GenerateVertexShaderCode at h
  simp only [bind, Option.bind_eq_some, pure, Option.some.injEq] at h
  obtain ⟨r, hr, hout⟩ := h
  obtain ⟨hle, hall, hr1⟩ := texGens_loop d uid_data _ _ r hr
  refine ⟨hle, hall, ?_⟩
  rw [← hout, hr1]

/-- The synthesizer returns a text when no generator block fails. -/
theorem GenerateVertexShaderCode_returns (d : Decls) (cfg : VideoConfig) (api_type : API_TYPE)
    (uid_data : vertex_shader_uid_data)
    (hall : ∀ i, i < uid_data.numTexGens → (texGenBlock d uid_data i).isSome = true) :
    ∃ out, GenerateVertexShaderCode d cfg api_type uid_data = some out := by
  have loop : ∀ n out0, n ≤ uid_data.numTexGens →
      ∃ r, forUpTo (fun i out => (texGenBlock d uid_data i).map (fun block => out ++ block))
        n out0 = some r := by
    intro n
    induction n with
    | zero => intro out0 _; exact ⟨out0, rfl⟩
    | succ n ih =>
      intro out0 hn
      obtain ⟨r1, h1⟩ := ih out0 (by omega)
      obtain ⟨b, hb⟩ := Option.isSome_iff_exists.mp (hall n (by omega))
      exact ⟨r1 ++ b, by simp [forUpTo, h1, hb]⟩
  obtain ⟨r, hr⟩ := loop uid_data.numTexGens
    (beforeTexGens d cfg api_type uid_data
      ++ [W ["float4 coord = float4(0.0, 0.0, 1.0, 1.0);\n"] []]) le_rfl
  refine ⟨r ++ afterTexGens d cfg api_type uid_data, ?_⟩
  unfold GenerateVertexShaderCode
  simp only [bind, pure, texGens, hr, Option.some_bind]

theorem codeOf_eq (d : Decls) (cfg : VideoConfig) (api_type : API_TYPE)
    (uid_data : vertex_shader_uid_data)
    (h : (GenerateVertexShaderCode d cfg api_type uid_data).isSome = true) :
    GenerateVertexShaderCode d cfg api_type uid_data
      = some (codeOf d cfg api_type uid_data) := by
  unfold codeOf
  cases hg : GenerateVertexShaderCode d cfg api_type uid_data with
  | none => rw [hg] at h; exact absurd h (by simp)
  | some u => rfl

/-- When failed assertions do not abort, the synthesizer returns a text for every
descriptor with at most eight generators. -/
theorem GenerateVertexShaderCode_returns_of_le (d : Decls) (cfg : VideoConfig)
    (api_type : API_TYPE) (uid_data : vertex_shader_uid_data)
    (h8 : uid_data.numTexGens ≤ 8) (hrel : d.assert_aborts = false) :
    ∃ out, GenerateVertexShaderCode d cfg api_type uid_data = some out := by
  apply GenerateVertexShaderCode_returns
  intro i hi
  have hi8 : i < 8 := by omega
  have hsrc : ∀ t, (texGenSource d uid_data t).isSome = true := by
    intro t
    unfold texGenSource
    split_ifs <;> simp [_assert_, hrel, bind, pure]
  simp only [texGenBlock, hi8, dite_true, Option.isSome_map']
  exact hsrc _

/-- The pieces of a generator block, in order. -/
theorem texGenBlock_eq (d : Decls) (uid_data : vertex_shader_uid_data) (i : Fin 8)
    (block : List Piece) (h : texGenBlock d uid_data i.val = some block) :
    ∃ source, texGenSource d uid_data (uid_data.texMtxInfo i) = some source
      ∧ block = [blockOpener, coordReset] ++ source
          ++ texGenInputForm d (uid_data.texMtxInfo i)
          ++ texGenFirstTransformation d uid_data i.val (uid_data.texMtxInfo i)
          ++ texGenPostTransform d uid_data i.val (uid_data.texMtxInfo i)
              (uid_data.postMtxInfo i)
          ++ [W ["\x7d\n"] []] := by
  simp only [texGenBlock, i.isLt, dite_true, Fin.eta, Option.map_eq_some'] at h
  obtain ⟨source, hs, hb⟩ := h
  exact ⟨source, hs, hb.symm⟩

/-- The block of an active generator is a contiguous part of the text. -/
theorem block_infix (d : Decls) (cfg : VideoConfig) (api_type : API_TYPE)
    (uid_data : vertex_shader_uid_data) (out : ShaderCode)
    (h : GenerateVertexShaderCode d cfg api_type uid_data = some out)
    (i : Nat) (hi : i < uid_data.numTexGens) :
    texGenBlock d uid_data i = some (blockOf d uid_data i)
      ∧ blockOf d uid_data i <:+: out := by
  obtain ⟨-, hall, hout⟩ := GenerateVertexShaderCode_shape d cfg api_type uid_data out h
  refine ⟨hall i hi, ?_⟩
  rw [hout]
  have h1 := emitFor_infix (blockOf d uid_data) uid_data.numTexGens i hi
  have h2 : emitFor (blockOf d uid_data) uid_data.numTexGens
      <:+: beforeTexGens d cfg api_type uid_data
        ++ [W ["float4 coord = float4(0.0, 0.0, 1.0, 1.0);\n"] []]
        ++ emitFor (blockOf d uid_data) uid_data.numTexGens
        ++ afterTexGens d cfg api_type uid_data :=
    ⟨beforeTexGens d cfg api_type uid_data
        ++ [W ["float4 coord = float4(0.0, 0.0, 1.0, 1.0);\n"] []],
      afterTexGens d cfg api_type uid_data, by simp⟩
  exact h1.trans h2

/-- The pieces `switch (texinfo.sourcerow)` can emit. -/
theorem texGenSource_mem (d : Decls) (uid_data : vertex_shader_uid_data)
    (texinfo : UidTexMtxInfo) (source : List Piece)
    (h : texGenSource d uid_data texinfo = some source) (p : Piece) (hp : p ∈ source) :
    p = W ["coord.xyz = rawpos.xyz;\n"] [] ∨ p = W ["coord.xyz = rawnorm0.xyz;\n"] []
    ∨ p = W ["coord.xyz = rawnorm1.xyz;\n"] [] ∨ p = W ["coord.xyz = rawnorm2.xyz;\n"] []
    ∨ p = W ["coord = float4(tex%d.x, tex%d.y, 1.0, 1.0);\n"]
        [.int (texinfo.sourcerow - d.XF_SRCTEX0_INROW),
         .int (texinfo.sourcerow - d.XF_SRCTEX0_INROW)] := by
  unfold texGenSource at h
  split_ifs at h <;>
    simp only [Option.some.injEq, bind, Option.bind_eq_some, pure] at h <;>
    first
      | (subst h; simp_all)
      | (obtain ⟨_, _, h⟩ := h; subst h; simp_all)

/-- The pieces the input-form step can emit. -/
theorem texGenInputForm_mem (d : Decls) (texinfo : UidTexMtxInfo) (p : Piece)
    (hp : p ∈ texGenInputForm d texinfo) : p = W ["coord.z = 1.0;\n"] [] := by
  unfold texGenInputForm at hp
  split_ifs at hp
  · simpa using hp
  · simp at hp

/-- The pieces the post transform can emit. -/
theorem texGenPostTransform_mem (d : Decls) (uid_data : vertex_shader_uid_data) (i : Nat)
    (texinfo : UidTexMtxInfo) (postInfo : UidPostMtxInfo) (p : Piece)
    (hp : p ∈ texGenPostTransform d uid_data i texinfo postInfo) :
    p = W ["float4 P0 = ", .ext d.I_POSTTRANSFORMMATRICES, "[%d];\nfloat4 P1 = ",
            .ext d.I_POSTTRANSFORMMATRICES, "[%d];\nfloat4 P2 = ",
            .ext d.I_POSTTRANSFORMMATRICES, "[%d];\n"]
          [.int (postInfo.index &&& 0x3f), .int ((postInfo.index + 1) &&& 0x3f),
           .int ((postInfo.index + 2) &&& 0x3f)]
    ∨ p = W ["o.tex%d.xyz = normalize(o.tex%d.xyz);\n"] [.int i, .int i]
    ∨ p = W ["o.tex%d.xyz = float3(dot(P0.xyz, o.tex%d.xyz) + P0.w, dot(P1.xyz, o.tex%d.xyz) + P1.w, dot(P2.xyz, o.tex%d.xyz) + P2.w);\n"]
          [.int i, .int i, .int i, .int i] := by
  unfold texGenPostTransform at hp
  split_ifs at hp <;>
    simp only [List.mem_append, List.mem_cons, List.mem_singleton, List.not_mem_nil,
      or_false, false_or] at hp <;> tauto

/-- The pieces `switch (texinfo.texgentype)` can emit: the light-direction line, or a write
whose first argument is the index of the generator. -/
theorem texGenFirstTransformation_mem (d : Decls) (uid_data : vertex_shader_uid_data)
    (i : Nat) (texinfo : UidTexMtxInfo) (p : Piece)
    (hp : p ∈ texGenFirstTransformation d uid_data i texinfo) :
    p.head = some (Seg.lit "ldir = normalize(")
    ∨ (p.firstArg = some (Arg.int i)
        ∧ (p.head = some (Seg.lit "o.tex%d.xyz = o.tex%d.xyz + float3(dot(ldir, _norm1), dot(ldir, _norm2), 0.0);\n")
          ∨ p.head = some (Seg.lit "o.tex%d.xyz = o.tex%d.xyz;\n")
          ∨ p.head = some (Seg.lit "o.tex%d.xyz = float3(o.colors_0.x, o.colors_0.y, 1);\n")
          ∨ p.head = some (Seg.lit "o.tex%d.xyz = float3(o.colors_1.x, o.colors_1.y, 1);\n")
          ∨ p.head = some (Seg.lit "int tmp = int(tex%d.z);\n")
          ∨ p.head = some (Seg.lit "o.tex%d.xyz = float3(dot(coord, "))) := by
  unfold texGenFirstTransformation at hp
  split_ifs at hp <;>
    simp only [List.mem_append, List.mem_cons, List.mem_singleton, List.not_mem_nil,
      or_false, false_or] at hp <;>
    (obtain rfl | rfl := hp) <;> simp [Piece.head, Piece.firstArg]

/-- Membership in a generator block, by the step that wrote the piece. -/
theorem texGenBlock_mem (d : Decls) (uid_data : vertex_shader_uid_data) (i : Fin 8)
    (block : List Piece) (h : texGenBlock d uid_data i.val = some block) :
    ∃ source, texGenSource d uid_data (uid_data.texMtxInfo i) = some source
      ∧ ∀ p, p ∈ block ↔
        (p = blockOpener ∨ p = coordReset ∨ p ∈ source
          ∨ p ∈ texGenInputForm d (uid_data.texMtxInfo i)
          ∨ p ∈ texGenFirstTransformation d uid_data i.val (uid_data.texMtxInfo i)
          ∨ p ∈ texGenPostTransform d uid_data i.val (uid_data.texMtxInfo i)
              (uid_data.postMtxInfo i)
          ∨ p = W ["\x7d\n"] []) := by
  obtain ⟨source, hs, hb⟩ := texGenBlock_eq d uid_data i block h
  refine ⟨source, hs, ?_⟩
  intro p
  rw [hb]
  simp only [List.mem_append, List.mem_cons, List.mem_singleton, List.not_mem_nil, or_false,
    or_assoc]

/-- Masking with `0x3f` keeps the index below 64: it is the remainder modulo 64. -/
theorem and_0x3f (k : Nat) : k &&& 0x3f = k % 64 :=
  Nat.and_pow_two_sub_one_eq_mod k 6

theorem mem_ite_list (c : Prop) [Decidable c] (l1 l2 : List Piece) (p : Piece) :
    p ∈ (if c then l1 else l2) ↔ (c ∧ p ∈ l1) ∨ (¬ c ∧ p ∈ l2) := by
  split_ifs with h <;> simp [h]

theorem blockOpener_not_mem_before (d : Decls) (cfg : VideoConfig) (api_type : API_TYPE)
    (uid_data : vertex_shader_uid_data) :
    blockOpener ∉ beforeTexGens d cfg api_type uid_data
      ++ [W ["float4 coord = float4(0.0, 0.0, 1.0, 1.0);\n"] []] := by
  simp [beforeTexGens, preamble, glInterface, d3dInterface, transforms, lightingFragment,
    mem_emitFor, glTexInput, d3dTexInput, blockOpener, mem_ite_list]

theorem coordReset_not_mem_before (d : Decls) (cfg : VideoConfig) (api_type : API_TYPE)
    (uid_data : vertex_shader_uid_data) :
    coordReset ∉ beforeTexGens d cfg api_type uid_data
      ++ [W ["float4 coord = float4(0.0, 0.0, 1.0, 1.0);\n"] []] := by
  simp [beforeTexGens, preamble, glInterface, d3dInterface, transforms, lightingFragment,
    mem_emitFor, glTexInput, d3dTexInput, coordReset, mem_ite_list]

theorem blockOpener_not_mem_after (d : Decls) (cfg : VideoConfig) (api_type : API_TYPE)
    (uid_data : vertex_shader_uid_data) :
    blockOpener ∉ afterTexGens d cfg api_type uid_data := by
  simp [afterTexGens, fallbackColors, finalOutputs, epilogue, mem_emitFor, blockOpener,
    mem_ite_list]

theorem coordReset_not_mem_after (d : Decls) (cfg : VideoConfig) (api_type : API_TYPE)
    (uid_data : vertex_shader_uid_data) :
    coordReset ∉ afterTexGens d cfg api_type uid_data := by
  simp [afterTexGens, fallbackColors, finalOutputs, epilogue, mem_emitFor, coordReset,
    mem_ite_list]

theorem false_ne_true_elim {P : Prop} (h : false = true) : P :=
  Bool.noConfusion h

theorem emitFor_eq_flatten (body : Nat → List Piece) :
    ∀ n, emitFor body n = ((List.range n).map body).flatten := by
  intro n
  induction n with
  | zero => rfl
  | succ n ih => simp [emitFor, ih, List.range_succ]

theorem count_emitFor (a : Piece) (body : Nat → List Piece) :
    ∀ n, (∀ i, i < n → List.count a (body i) = 1) → List.count a (emitFor body n) = n := by
  intro n
  induction n with
  | zero => intro _; rfl
  | succ n ih =>
    intro hall
    simp only [emitFor, List.count_append]
    rw [ih (fun i hi => hall i (by omega)), hall n (by omega)]

/-- The writes of the first transformation that assign a generator output assign the output
of their own generator. -/
theorem texGenFirstTransformation_target (d : Decls) (uid_data : vertex_shader_uid_data)
    (i : Nat) (texinfo : UidTexMtxInfo) (p : Piece)
    (hp : p ∈ texGenFirstTransformation d uid_data i texinfo)
    (ha : p.assignsTex = true) : p.firstArg = some (Arg.int i) := by
  unfold texGenFirstTransformation at hp
  split_ifs at hp <;>
    simp only [List.mem_append, List.mem_cons, List.mem_singleton, List.not_mem_nil,
      or_false, false_or] at hp <;>
    (obtain rfl | rfl := hp) <;> first | rfl | exact false_ne_true_elim ha

/-- A generator block starts with the opener and the reset line, holds neither of them
again, and every write of it that assigns a generator output assigns `o.tex{i}`. -/
theorem texGenBlock_structure (d : Decls) (uid_data : vertex_shader_uid_data) (i : Fin 8)
    (block : List Piece) (h : texGenBlock d uid_data i.val = some block) :
    (∃ rest, block = blockOpener :: coordReset :: rest
      ∧ blockOpener ∉ rest ∧ coordReset ∉ rest)
    ∧ ∀ p, p ∈ block → p.assignsTex = true → p.firstArg = some (Arg.int i.val) := by
  obtain ⟨source, hsrc, hblock⟩ := texGenBlock_eq d uid_data i block h
  constructor
  · refine ⟨source ++ texGenInputForm d (uid_data.texMtxInfo i)
        ++ texGenFirstTransformation d uid_data i.val (uid_data.texMtxInfo i)
        ++ texGenPostTransform d uid_data i.val (uid_data.texMtxInfo i)
            (uid_data.postMtxInfo i)
        ++ [W ["\x7d\n"] []], ?_, ?_, ?_⟩
    · rw [hblock]; simp
    · intro hmem
      simp only [List.mem_append, List.mem_singleton] at hmem
      rcases hmem with (((hq | hq) | hq) | hq) | hq
      · rcases texGenSource_mem d uid_data _ source hsrc _ hq with hq | hq | hq | hq | hq <;>
          simp [blockOpener] at hq
      · have := texGenInputForm_mem d _ _ hq; simp [blockOpener] at this
      · rcases texGenFirstTransformation_mem d uid_data _ _ _ hq with hq | ⟨-, hq⟩ <;>
          simp [blockOpener, Piece.head] at hq
      · rcases texGenPostTransform_mem d uid_data _ _ _ _ hq with hq | hq | hq <;>
          simp [blockOpener] at hq
      · simp [blockOpener] at hq
    · intro hmem
      simp only [List.mem_append, List.mem_singleton] at hmem
      rcases hmem with (((hq | hq) | hq) | hq) | hq
      · rcases texGenSource_mem d uid_data _ source hsrc _ hq with hq | hq | hq | hq | hq <;>
          simp [coordReset] at hq
      · have := texGenInputForm_mem d _ _ hq; simp [coordReset] at this
      · rcases texGenFirstTransformation_mem d uid_data _ _ _ hq with hq | ⟨-, hq⟩ <;>
          simp [coordReset, Piece.head] at hq
      · rcases texGenPostTransform_mem d uid_data _ _ _ _ hq with hq | hq | hq <;>
          simp [coordReset] at hq
      · simp [coordReset] at hq
  · intro p hp ha
    obtain ⟨source2, hsrc2, hmem⟩ := texGenBlock_mem d uid_data i block h
    have hss : source2 = source := Option.some.inj (hsrc2.symm.trans hsrc)
    rw [hss] at hmem
    rcases (hmem p).mp hp with hq | hq | hq | hq | hq | hq | hq
    · subst hq; exact false_ne_true_elim ha
    · subst hq; exact false_ne_true_elim ha
    · rcases texGenSource_mem d uid_data _ source hsrc p hq with hq | hq | hq | hq | hq <;>
        subst hq <;> exact false_ne_true_elim ha
    · rw [texGenInputForm_mem d _ p hq] at ha; exact false_ne_true_elim ha
    · exact texGenFirstTransformation_target d uid_data _ _ p hq ha
    · rcases texGenPostTransform_mem d uid_data _ _ _ p hq with hq | hq | hq
      · subst hq; exact false_ne_true_elim ha
      · subst hq; rfl
      · subst hq; rfl
    · subst hq; exact false_ne_true_elim ha

theorem count_block (d : Decls) (uid_data : vertex_shader_uid_data) (i : Nat)
    (block : List Piece) (h : texGenBlock d uid_data i = some block) :
    List.count blockOpener block = 1 ∧ List.count coordReset block = 1 := by
  have hi : i < 8 := by
    by_contra hcon
    simp [texGenBlock, hcon] at h
  obtain ⟨⟨rest, hb, ho, hr⟩, -⟩ := texGenBlock_structure d uid_data ⟨i, hi⟩ block h
  have hne : blockOpener ≠ coordReset := by decide
  have hne2 : coordReset ≠ blockOpener := by decide
  subst hb
  constructor
  · rw [List.count_cons_self, List.count_cons_of_ne hne, List.count_eq_zero.mpr ho]
  · rw [List.count_cons_of_ne hne2, List.count_cons_self, List.count_eq_zero.mpr hr]

/-- Every piece of a generator block is a write whose format starts with one of these
literals. -/
theorem block_piece_head (d : Decls) (uid_data : vertex_shader_uid_data) (i : Nat)
    (p : Piece) (hp : p ∈ blockOf d uid_data i) :
    ∃ s, p.head = some (Seg.lit s) ∧ s ∈
      ["\x7b\n", "coord = float4(0.0, 0.0, 1.0, 1.0);\n", "coord.xyz = rawpos.xyz;\n",
       "coord.xyz = rawnorm0.xyz;\n", "coord.xyz = rawnorm1.xyz;\n",
       "coord.xyz = rawnorm2.xyz;\n", "coord = float4(tex%d.x, tex%d.y, 1.0, 1.0);\n",
       "coord.z = 1.0;\n", "ldir = normalize(",
       "o.tex%d.xyz = o.tex%d.xyz + float3(dot(ldir, _norm1), dot(ldir, _norm2), 0.0);\n",
       "o.tex%d.xyz = o.tex%d.xyz;\n",
       "o.tex%d.xyz = float3(o.colors_0.x, o.colors_0.y, 1);\n",
       "o.tex%d.xyz = float3(o.colors_1.x, o.colors_1.y, 1);\n",
       "int tmp = int(tex%d.z);\n", "o.tex%d.xyz = float3(dot(coord, ", "float4 P0 = ",
       "o.tex%d.xyz = normalize(o.tex%d.xyz);\n",
       "o.tex%d.xyz = float3(dot(P0.xyz, o.tex%d.xyz) + P0.w, dot(P1.xyz, o.tex%d.xyz) + P1.w, dot(P2.xyz, o.tex%d.xyz) + P2.w);\n",
       "\x7d\n"] := by
  unfold blockOf at hp
  cases hb : texGenBlock d uid_data i with
  | none => rw [hb] at hp; simp at hp
  | some block =>
    rw [hb] at hp
    simp only [Option.getD_some] at hp
    have hi : i < 8 := by
      by_contra hcon
      simp [texGenBlock, hcon] at hb
    obtain ⟨source, hsrc, hmem⟩ := texGenBlock_mem d uid_data ⟨i, hi⟩ block hb
    rcases (hmem p).mp hp with hq | hq | hq | hq | hq | hq | hq
    · subst hq; exact ⟨_, rfl, by simp⟩
    · subst hq; exact ⟨_, rfl, by simp⟩
    · rcases texGenSource_mem d uid_data _ source hsrc p hq with hq | hq | hq | hq | hq <;>
        subst hq <;> exact ⟨_, rfl, by simp⟩
    · rw [texGenInputForm_mem d _ p hq]; exact ⟨_, rfl, by simp⟩
    · rcases texGenFirstTransformation_mem d uid_data _ _ _ hq with hq | ⟨-, hq⟩
      · exact ⟨_, hq, by simp⟩
      · rcases hq with hq | hq | hq | hq | hq | hq <;> exact ⟨_, hq, by simp⟩
    · rcases texGenPostTransform_mem d uid_data _ _ _ p hq with hq | hq | hq <;>
        subst hq <;> exact ⟨_, rfl, by simp⟩
    · subst hq; exact ⟨_, rfl, by simp⟩

/-- A write whose format starts with none of the literals that start a write of a generator
block is in no generator block. -/
theorem not_mem_blocks (d : Decls) (uid_data : vertex_shader_uid_data) (n : Nat) (p : Piece)
    (s : String) (hs : p.head = some (Seg.lit s))
    (hne : s ∉
      ["\x7b\n", "coord = float4(0.0, 0.0, 1.0, 1.0);\n", "coord.xyz = rawpos.xyz;\n",
       "coord.xyz = rawnorm0.xyz;\n", "coord.xyz = rawnorm1.xyz;\n",
       "coord.xyz = rawnorm2.xyz;\n", "coord = float4(tex%d.x, tex%d.y, 1.0, 1.0);\n",
       "coord.z = 1.0;\n", "ldir = normalize(",
       "o.tex%d.xyz = o.tex%d.xyz + float3(dot(ldir, _norm1), dot(ldir, _norm2), 0.0);\n",
       "o.tex%d.xyz = o.tex%d.xyz;\n",
       "o.tex%d.xyz = float3(o.colors_0.x, o.colors_0.y, 1);\n",
       "o.tex%d.xyz = float3(o.colors_1.x, o.colors_1.y, 1);\n",
       "int tmp = int(tex%d.z);\n", "o.tex%d.xyz = float3(dot(coord, ", "float4 P0 = ",
       "o.tex%d.xyz = normalize(o.tex%d.xyz);\n",
       "o.tex%d.xyz = float3(dot(P0.xyz, o.tex%d.xyz) + P0.w, dot(P1.xyz, o.tex%d.xyz) + P1.w, dot(P2.xyz, o.tex%d.xyz) + P2.w);\n",
       "\x7d\n"]) :
    p ∉ emitFor (blockOf d uid_data) n := by
  intro hmem
  obtain ⟨i, -, hp⟩ := (mem_emitFor _ _ _).mp hmem
  obtain ⟨t, ht, htm⟩ := block_piece_head d uid_data i p hp
  rw [hs] at ht
  have : s = t := by simpa using ht
  subst this
  exact hne htm

theorem mem_out_iff (d : Decls) (cfg : VideoConfig) (api_type : API_TYPE)
    (uid_data : vertex_shader_uid_data) (out : ShaderCode)
    (h : GenerateVertexShaderCode d cfg api_type uid_data = some out) (p : Piece) :
    p ∈ out ↔ (p ∈ beforeTexGens d cfg api_type uid_data
      ∨ p = W ["float4 coord = float4(0.0, 0.0, 1.0, 1.0);\n"] []
      ∨ p ∈ emitFor (blockOf d uid_data) uid_data.numTexGens
      ∨ p ∈ afterTexGens d cfg api_type uid_data) := by
  obtain ⟨-, -, hout⟩ := GenerateVertexShaderCode_shape d cfg api_type uid_data out h
  rw [hout]
  simp only [List.mem_append, List.mem_singleton, or_assoc]

/-- The first transformation is a contiguous part of the block. -/
theorem firstTransformation_infix (d : Decls) (uid_data : vertex_shader_uid_data) (i : Fin 8)
    (block : List Piece) (h : texGenBlock d uid_data i.val = some block) :
    texGenFirstTransformation d uid_data i.val (uid_data.texMtxInfo i) <:+: block := by
  obtain ⟨source, -, hb⟩ := texGenBlock_eq d uid_data i block h
  rw [hb]
  exact ⟨[blockOpener, coordReset] ++ source ++ texGenInputForm d (uid_data.texMtxInfo i),
    texGenPostTransform d uid_data i.val (uid_data.texMtxInfo i) (uid_data.postMtxInfo i)
      ++ [W ["\x7d\n"] []], by simp only [List.append_assoc]⟩

/-- A property of writes that only depends on the first literal of the format, and fails for
the literals of the generator blocks, fails on every piece of the blocks. -/
theorem forall_mem_blocks (d : Decls) (uid_data : vertex_shader_uid_data) (n : Nat)
    (f : Piece → Bool)
    (hf : ∀ p s, p.head = some (Seg.lit s) → s ∈ blockHeads → f p = false) :
    ∀ p ∈ emitFor (blockOf d uid_data) n, f p = false := by
  intro p hp
  obtain ⟨i, -, hpi⟩ := (mem_emitFor _ _ _).mp hp
  obtain ⟨s, hs, hmem⟩ := block_piece_head d uid_data i p hpi
  exact hf p s hs hmem

theorem assignsColor_of_head (p : Piece) (s : String) (h : p.head = some (Seg.lit s)) :
    p.assignsColor = "o.colors_".data.isPrefixOf s.data := by
  cases p with
  | collab t => simp [Piece.head] at h
  | write fmt args =>
    cases fmt with
    | nil => simp [Piece.head] at h
    | cons a rest =>
      simp only [Piece.head, List.head?_cons, Option.some.injEq] at h
      subst h
      rfl

theorem all_ite (c : Prop) [Decidable c] (l1 l2 : List Piece) (f : Piece → Bool) :
    (if c then l1 else l2).all f = if c then l1.all f else l2.all f := by
  split_ifs <;> rfl

theorem all_emitFor (body : Nat → List Piece) (f : Piece → Bool)
    (h : ∀ i, (body i).all f = true) : ∀ n, (emitFor body n).all f = true := by
  intro n
  induction n with
  | zero => rfl
  | succ n ih => simp [emitFor, ih, h n]

theorem assignsColor_before (d : Decls) (cfg : VideoConfig) (api_type : API_TYPE)
    (uid_data : vertex_shader_uid_data) :
    (beforeTexGens d cfg api_type uid_data
      ++ [W ["float4 coord = float4(0.0, 0.0, 1.0, 1.0);\n"] []]).all
        (fun p => !p.assignsColor) = true := by
  simp +decide [beforeTexGens, preamble, glInterface, d3dInterface, transforms,
    lightingFragment, all_emitFor, glTexInput, d3dTexInput, all_ite, Piece.assignsColor]

theorem blockHeads_no_color :
    ∀ s ∈ blockHeads, "o.colors_".data.isPrefixOf s.data = false := by
  decide

theorem clipPos_not_mem_before (d : Decls) (cfg : VideoConfig) (api_type : API_TYPE)
    (uid_data : vertex_shader_uid_data) :
    W ["o.clipPos = o.pos;\n"] [] ∉ beforeTexGens d cfg api_type uid_data
      ++ [W ["float4 coord = float4(0.0, 0.0, 1.0, 1.0);\n"] []] := by
  simp [beforeTexGens, preamble, glInterface, d3dInterface, transforms, lightingFragment,
    mem_emitFor, glTexInput, d3dTexInput, mem_ite_list]

theorem filter_ite (c : Prop) [Decidable c] (l1 l2 : List Piece) (f : Piece → Bool) :
    (if c then l1 else l2).filter f = if c then l1.filter f else l2.filter f := by
  split_ifs <;> rfl

theorem startsWith_of_head (pre : String) (p : Piece) (s : String)
    (h : p.head = some (Seg.lit s)) : p.startsWith pre = pre.data.isPrefixOf s.data := by
  cases p with
  | collab t => simp [Piece.head] at h
  | write fmt args =>
    cases fmt with
    | nil => simp [Piece.head] at h
    | cons a rest =>
      simp only [Piece.head, List.head?_cons, Option.some.injEq] at h
      subst h
      rfl

theorem filter_emitFor_nil (body : Nat → List Piece) (f : Piece → Bool)
    (h : ∀ i, (body i).filter f = []) : ∀ n, (emitFor body n).filter f = [] := by
  intro n
  induction n with
  | zero => rfl
  | succ n ih => simp [emitFor, ih, h n]

/-- The writes of the text that start with `pre`, when no write of a generator block does:
those before the loop over the generators, then those after it. -/
theorem filter_startsWith (d : Decls) (cfg : VideoConfig) (api_type : API_TYPE)
    (uid_data : vertex_shader_uid_data) (out : ShaderCode)
    (h : GenerateVertexShaderCode d cfg api_type uid_data = some out) (pre : String)
    (hpre : ∀ s ∈ blockHeads, pre.data.isPrefixOf s.data = false) :
    out.filter (Piece.startsWith pre)
      = (beforeTexGens d cfg api_type uid_data
          ++ [W ["float4 coord = float4(0.0, 0.0, 1.0, 1.0);\n"] []]).filter
            (Piece.startsWith pre)
        ++ (afterTexGens d cfg api_type uid_data).filter (Piece.startsWith pre) := by
  obtain ⟨-, -, hout⟩ := GenerateVertexShaderCode_shape d cfg api_type uid_data out h
  have hb : (emitFor (blockOf d uid_data) uid_data.numTexGens).filter (Piece.startsWith pre)
      = [] := by
    rw [List.filter_eq_nil_iff]
    intro p hp
    have := forall_mem_blocks d uid_data uid_data.numTexGens (Piece.startsWith pre)
      (fun q s hs hmem => by rw [startsWith_of_head pre q s hs]; exact hpre s hmem) p hp
    simp [this]
  rw [hout, List.filter_append, List.filter_append, hb, List.append_nil]

/-- Without generators the synthesizer returns what it writes before and after the loop. -/
theorem GenerateVertexShaderCode_no_generators (d : Decls) (cfg : VideoConfig)
    (api_type : API_TYPE) (uid_data : vertex_shader_uid_data)
    (hn : uid_data.numTexGens = 0) :
    GenerateVertexShaderCode d cfg api_type uid_data
      = some (beforeTexGens d cfg api_type uid_data
          ++ [W ["float4 coord = float4(0.0, 0.0, 1.0, 1.0);\n"] []]
          ++ afterTexGens d cfg api_type uid_data) := by
  simp [GenerateVertexShaderCode, texGens, hn, forUpTo, bind, pure]

theorem VS_OUTPUT_not_mem_interface (d : Decls) (cfg : VideoConfig) (api_type : API_TYPE)
    (uid_data : vertex_shader_uid_data) :
    W ["VS_OUTPUT o;\n"] [] ∉ preamble d cfg api_type uid_data
      ++ (if api_type = API_TYPE.API_OPENGL then glInterface d cfg uid_data
          else d3dInterface d uid_data) := by
  simp [preamble, glInterface, d3dInterface, mem_emitFor, glTexInput, d3dTexInput,
    mem_ite_list]

theorem pixelcenter_not_mem_epilogue (d : Decls) (cfg : VideoConfig) (api_type : API_TYPE)
    (uid_data : vertex_shader_uid_data) :
    W ["o.pos.xy = o.pos.xy - o.pos.w * ", .ext d.I_PIXELCENTERCORRECTION, ".xy;\n"] []
      ∉ epilogue d cfg api_type uid_data := by
  simp [epilogue, mem_emitFor, mem_ite_list]

/-- The synthesizer returns a text in one dialect when it does in the other. -/
theorem returns_of_returns (d : Decls) (cfg : VideoConfig) (a b : API_TYPE)
    (uid_data : vertex_shader_uid_data) (out : ShaderCode)
    (h : GenerateVertexShaderCode d cfg a uid_data = some out) :
    (GenerateVertexShaderCode d cfg b uid_data).isSome = true := by
  obtain ⟨-, hall, -⟩ := GenerateVertexShaderCode_shape d cfg a uid_data out h
  obtain ⟨r, hr⟩ := GenerateVertexShaderCode_returns d cfg b uid_data
    (fun i hi => by rw [hall i hi]; rfl)
  rw [hr]; rfl

theorem texGenSource_rows (d : Decls) (uid_data : vertex_shader_uid_data)
    (texinfo : UidTexMtxInfo) (source : List Piece)
    (h : texGenSource d uid_data texinfo = some source) (hlab : d.sourceRowLabels) :
    (texinfo.sourcerow = d.XF_SRCGEOM_INROW → source = [W ["coord.xyz = rawpos.xyz;\n"] []])
    ∧ (texinfo.sourcerow = d.XF_SRCNORMAL_INROW →
        source = if uid_data.components &&& d.VB_HAS_NRM0 ≠ 0 then
          [W ["coord.xyz = rawnorm0.xyz;\n"] []] else [])
    ∧ (texinfo.sourcerow = d.XF_SRCBINORMAL_T_INROW →
        source = if uid_data.components &&& d.VB_HAS_NRM1 ≠ 0 then
          [W ["coord.xyz = rawnorm1.xyz;\n"] []] else [])
    ∧ (texinfo.sourcerow = d.XF_SRCBINORMAL_B_INROW →
        source = if uid_data.components &&& d.VB_HAS_NRM2 ≠ 0 then
          [W ["coord.xyz = rawnorm2.xyz;\n"] []] else [])
    ∧ (texinfo.sourcerow = d.XF_SRCCOLORS_INROW → source = [])
    ∧ (∀ k, k < 8 → texinfo.sourcerow = d.XF_SRCTEX0_INROW + k →
        source = if uid_data.components &&& (d.VB_HAS_UV0 <<< k) ≠ 0 then
          [W ["coord = float4(tex%d.x, tex%d.y, 1.0, 1.0);\n"] [.int k, .int k]] else []) := by
  obtain ⟨hnd, h1, h2, h3, h4, h5, h7⟩ := hlab
  simp only [List.nodup_cons, List.mem_cons, List.mem_singleton, List.not_mem_nil,
    not_or, or_false, List.nodup_nil, and_true, not_false_eq_true] at hnd
  obtain ⟨⟨g1, g2, g3, g4⟩, ⟨n1, n2, n3⟩, ⟨c1, c2⟩, t1⟩ := hnd
  unfold texGenSource at h
  refine ⟨?_, ?_, ?_, ?_, ?_, ?_⟩
  · intro hr
    rw [if_pos hr] at h
    exact (Option.some.inj h).symm
  · intro hr
    rw [if_neg (by rw [hr]; exact fun e => g1 e.symm), if_pos hr] at h
    exact (Option.some.inj h).symm
  · intro hr
    rw [if_neg (by rw [hr]; exact fun e => g3 e.symm),
      if_neg (by rw [hr]; exact fun e => n2 e.symm),
      if_neg (by rw [hr]; exact fun e => c1 e.symm), if_pos hr] at h
    exact (Option.some.inj h).symm
  · intro hr
    rw [if_neg (by rw [hr]; exact fun e => g4 e.symm),
      if_neg (by rw [hr]; exact fun e => n3 e.symm),
      if_neg (by rw [hr]; exact fun e => c2 e.symm),
      if_neg (by rw [hr]; exact fun e => t1 e.symm), if_pos hr] at h
    exact (Option.some.inj h).symm
  · intro hr
    rw [if_neg (by rw [hr]; exact fun e => g2 e.symm),
      if_neg (by rw [hr]; exact fun e => n1 e.symm), if_pos hr] at h
    simp only [bind, Option.bind_eq_some, pure, Option.some.injEq] at h
    obtain ⟨_, _, h⟩ := h
    exact h.symm
  · intro k hk hr
    rw [if_neg (by omega), if_neg (by omega), if_neg (by omega), if_neg (by omega),
      if_neg (by omega)] at h
    simp only [bind, Option.bind_eq_some, pure, Option.some.injEq] at h
    obtain ⟨_, _, h⟩ := h
    have hk2 : texinfo.sourcerow - d.XF_SRCTEX0_INROW = k := by omega
    rw [hk2] at h
    exact h.symm

theorem blockHeads_no_coord_after :
    ∀ s ∈ ["ldir = normalize(",
       "o.tex%d.xyz = o.tex%d.xyz + float3(dot(ldir, _norm1), dot(ldir, _norm2), 0.0);\n",
       "o.tex%d.xyz = o.tex%d.xyz;\n",
       "o.tex%d.xyz = float3(o.colors_0.x, o.colors_0.y, 1);\n",
       "o.tex%d.xyz = float3(o.colors_1.x, o.colors_1.y, 1);\n",
       "int tmp = int(tex%d.z);\n", "o.tex%d.xyz = float3(dot(coord, ", "float4 P0 = ",
       "o.tex%d.xyz = normalize(o.tex%d.xyz);\n",
       "o.tex%d.xyz = float3(dot(P0.xyz, o.tex%d.xyz) + P0.w, dot(P1.xyz, o.tex%d.xyz) + P1.w, dot(P2.xyz, o.tex%d.xyz) + P2.w);\n",
       "\x7d\n"], "coord".data.isPrefixOf s.data = false := by
  decide

theorem shiftRight_and_one_of_testBit (a b i : Nat) (h : a.testBit i = b.testBit i) :
    (a >>> i) &&& 1 = (b >>> i) &&& 1 := by
  rw [Nat.testBit_to_div_mod, Nat.testBit_to_div_mod] at h
  rw [Nat.and_one_is_mod, Nat.and_one_is_mod, Nat.shiftRight_eq_div_pow,
    Nat.shiftRight_eq_div_pow]
  have h1 := Nat.mod_two_eq_zero_or_one (a / 2 ^ i)
  have h2 := Nat.mod_two_eq_zero_or_one (b / 2 ^ i)
  rcases h1 with h1 | h1 <;> rcases h2 with h2 | h2 <;> simp_all

theorem forUpTo_congr {σ : Type} (f g : Nat → σ → Option σ) (n : Nat)
    (h : ∀ i, i < n → ∀ s, f i s = g i s) : ∀ s, forUpTo f n s = forUpTo g n s := by
  induction n with
  | zero => intro s; rfl
  | succ n ih =>
    intro s
    simp only [forUpTo]
    rw [ih (fun i hi => h i (by omega)) s]
    cases forUpTo g n s with
    | none => rfl
    | some t => exact h n (by omega) t

theorem beforeTexGens_congr (d : Decls) (cfg : VideoConfig) (api_type : API_TYPE)
    (u1 u2 : vertex_shader_uid_data) (r : ReadsAlike d u1 u2) :
    beforeTexGens d cfg api_type u1 = beforeTexGens d cfg api_type u2 := by
  have h1 : glTexInput d u1 = glTexInput d u2 := by
    funext i; simp only [glTexInput, r.components]
  have h2 : d3dTexInput d u1 = d3dTexInput d u2 := by
    funext i; simp only [d3dTexInput, r.components]
  simp only [beforeTexGens, preamble, glInterface, d3dInterface, transforms,
    lightingFragment, h1, h2, r.components, r.numTexGens, r.pixel_lighting, r.msaa, r.ssaa,
    r.lighting]

theorem afterTexGens_congr (d : Decls) (cfg : VideoConfig) (api_type : API_TYPE)
    (u1 u2 : vertex_shader_uid_data) (r : ReadsAlike d u1 u2) :
    afterTexGens d cfg api_type u1 = afterTexGens d cfg api_type u2 := by
  simp only [afterTexGens, fallbackColors, finalOutputs, epilogue, r.components,
    r.numTexGens, r.pixel_lighting, r.numColorChans]

theorem texGenBlock_congr (d : Decls) (u1 u2 : vertex_shader_uid_data)
    (r : ReadsAlike d u1 u2) (i : Nat) (hi : i < u1.numTexGens) :
    texGenBlock d u1 i = texGenBlock d u2 i := by
  unfold texGenBlock
  by_cases h8 : i < 8
  · simp only [h8, dite_true]
    have hs := r.sourcerow ⟨i, h8⟩ hi
    have ht := r.texgentype ⟨i, h8⟩ hi
    have hf := r.inputform ⟨i, h8⟩ hi
    have hsrc : texGenSource d u1 (u1.texMtxInfo ⟨i, h8⟩)
        = texGenSource d u2 (u2.texMtxInfo ⟨i, h8⟩) := by
      simp only [texGenSource, hs, ht, r.components]
    have hin : texGenInputForm d (u1.texMtxInfo ⟨i, h8⟩)
        = texGenInputForm d (u2.texMtxInfo ⟨i, h8⟩) := by
      simp only [texGenInputForm, hf]
    have hft : texGenFirstTransformation d u1 i (u1.texMtxInfo ⟨i, h8⟩)
        = texGenFirstTransformation d u2 i (u2.texMtxInfo ⟨i, h8⟩) := by
      unfold texGenFirstTransformation
      by_cases he : (u1.texMtxInfo ⟨i, h8⟩).texgentype = d.XF_TEXGEN_EMBOSS_MAP
      · have he2 := he
        rw [ht] at he2
        rw [if_pos he, if_pos he2, ← r.components, r.embosssourceshift ⟨i, h8⟩ hi he]
        by_cases hn : u1.components &&& (d.VB_HAS_NRM1 ||| d.VB_HAS_NRM2) ≠ 0
        · rw [if_pos hn, if_pos hn,
            r.embosslightshift ⟨i, h8⟩ hi he ((and_or_ne_zero _ _ _).mp hn)]
        · rw [if_neg hn, if_neg hn]
      · have he2 := he
        rw [ht] at he2
        rw [if_neg he, if_neg he2]
        by_cases hc0 : (u1.texMtxInfo ⟨i, h8⟩).texgentype = d.XF_TEXGEN_COLOR_STRGBC0
        · have hc02 := hc0
          rw [ht] at hc02
          rw [if_pos hc0, if_pos hc02]
        · have hc02 := hc0
          rw [ht] at hc02
          rw [if_neg hc0, if_neg hc02]
          by_cases hc1 : (u1.texMtxInfo ⟨i, h8⟩).texgentype = d.XF_TEXGEN_COLOR_STRGBC1
          · have hc12 := hc1
            rw [ht] at hc12
            rw [if_pos hc1, if_pos hc12]
          · have hc12 := hc1
            rw [ht] at hc12
            rw [if_neg hc1, if_neg hc12, ← r.components,
              shiftRight_and_one_of_testBit _ _ i (r.projection ⟨i, h8⟩ hi he hc0 hc1)]
    have hpt : texGenPostTransform d u1 i (u1.texMtxInfo ⟨i, h8⟩) (u1.postMtxInfo ⟨i, h8⟩)
        = texGenPostTransform d u2 i (u2.texMtxInfo ⟨i, h8⟩) (u2.postMtxInfo ⟨i, h8⟩) := by
      unfold texGenPostTransform
      by_cases hc : u1.dualTexTrans_enabled = true
          ∧ (u1.texMtxInfo ⟨i, h8⟩).texgentype = d.XF_TEXGEN_REGULAR
      · have hc2 := hc
        rw [r.dual, ht] at hc2
        rw [if_pos hc, if_pos hc2, r.post ⟨i, h8⟩ hi hc.1 hc.2]
      · have hc2 := hc
        rw [r.dual, ht] at hc2
        rw [if_neg hc, if_neg hc2]
    rw [hsrc, hin, hft, hpt]
  · simp only [h8, dite_false]

/-- The OpenGL declaration of `tex{i}` and its width. -/
theorem gl_tex_width (d : Decls) (cfg : VideoConfig)
    (uid_data : vertex_shader_uid_data) (out : ShaderCode)
    (h : GenerateVertexShaderCode d cfg API_TYPE.API_OPENGL uid_data = some out)
    (i : Nat) (hi : i < 8) (n : Nat) :
    (W ["in float%d tex%d; // ATTR%d,\n"]
        [.int n, .int i, .int (d.SHADER_TEXTURE0_ATTRIB + i)] ∈ out
      ↔ ((uid_data.components &&& (d.VB_HAS_UV0 <<< i) ≠ 0
            ∨ uid_data.components &&& (d.VB_HAS_TEXMTXIDX0 <<< i) ≠ 0)
          ∧ n = if uid_data.components &&& (d.VB_HAS_TEXMTXIDX0 <<< i) ≠ 0 then 3 else 2)) := by
  have hb := not_mem_blocks d uid_data uid_data.numTexGens
    (W ["in float%d tex%d; // ATTR%d,\n"]
      [.int n, .int i, .int (d.SHADER_TEXTURE0_ATTRIB + i)]) _ rfl (by decide)
  rw [mem_out_iff d cfg _ uid_data out h]
  simp [hb, beforeTexGens, preamble, glInterface, d3dInterface, transforms,
    lightingFragment, mem_emitFor, glTexInput, d3dTexInput, mem_ite_list, afterTexGens,
    fallbackColors, finalOutputs, epilogue]
  constructor
  · rintro ⟨j, -, hc, hn, rfl⟩
    exact ⟨hc, hn⟩
  · rintro ⟨hc, hn⟩
    exact ⟨i, hi, hc, hn, rfl⟩

/-- The D3D declaration of `tex{i}` and its width. -/
theorem d3d_tex_width (d : Decls) (cfg : VideoConfig)
    (uid_data : vertex_shader_uid_data) (out : ShaderCode)
    (h : GenerateVertexShaderCode d cfg API_TYPE.API_D3D uid_data = some out)
    (i : Nat) (hi : i < 8) (n : Nat) :
    (W ["  float%d tex%d : TEXCOORD%d,\n"] [.int n, .int i, .int i] ∈ out
      ↔ ((uid_data.components &&& (d.VB_HAS_UV0 <<< i) ≠ 0
            ∨ uid_data.components &&& (d.VB_HAS_TEXMTXIDX0 <<< i) ≠ 0)
          ∧ n = if uid_data.components &&& (d.VB_HAS_TEXMTXIDX0 <<< i) ≠ 0 then 3 else 2)) := by
  have hb := not_mem_blocks d uid_data uid_data.numTexGens
    (W ["  float%d tex%d : TEXCOORD%d,\n"] [.int n, .int i, .int i]) _ rfl (by decide)
  rw [mem_out_iff d cfg _ uid_data out h]
  simp [hb, beforeTexGens, preamble, glInterface, d3dInterface, transforms,
    lightingFragment, mem_emitFor, glTexInput, d3dTexInput, mem_ite_list, afterTexGens,
    fallbackColors, finalOutputs, epilogue]
  constructor
  · rintro ⟨j, -, hc, hn, rfl⟩
    exact ⟨hc, hn⟩
  · rintro ⟨hc, hn⟩
    exact ⟨i, hi, hc, hn, rfl⟩

/-- Some write of the first transformation assigns the output of its own generator. -/
theorem texGenFirstTransformation_assigns (d : Decls) (uid_data : vertex_shader_uid_data)
    (i : Nat) (texinfo : UidTexMtxInfo) :
    ∃ p, p ∈ texGenFirstTransformation d uid_data i texinfo
      ∧ p.assignsTex = true ∧ p.firstArg = some (Arg.int i) := by
  unfold texGenFirstTransformation
  split_ifs
  · exact ⟨_, List.mem_cons_of_mem _ (List.mem_singleton.mpr rfl), rfl, rfl⟩
  · exact ⟨_, List.mem_singleton.mpr rfl, rfl, rfl⟩
  · exact ⟨_, List.mem_singleton.mpr rfl, rfl, rfl⟩
  · exact ⟨_, List.mem_singleton.mpr rfl, rfl, rfl⟩
  · exact ⟨_, List.mem_append_right _ (List.mem_singleton.mpr rfl), rfl, rfl⟩
  · exact ⟨_, List.mem_append_right _ (List.mem_singleton.mpr rfl), rfl, rfl⟩
  · exact ⟨_, List.mem_singleton.mpr rfl, rfl, rfl⟩
  · exact ⟨_, List.mem_singleton.mpr rfl, rfl, rfl⟩

/-- Every generator block holds a write that assigns the output of its own generator. -/
theorem texGenBlock_assigns (d : Decls) (uid_data : vertex_shader_uid_data) (i : Fin 8)
    (block : List Piece) (h : texGenBlock d uid_data i.val = some block) :
    ∃ p, p ∈ block ∧ p.assignsTex = true ∧ p.firstArg = some (Arg.int i.val) := by
  obtain ⟨source, -, hmem⟩ := texGenBlock_mem d uid_data i block h
  obtain ⟨p, hp, ha, hf⟩ :=
    texGenFirstTransformation_assigns d uid_data i.val (uid_data.texMtxInfo i)
  exact ⟨p, (hmem p).mpr (Or.inr (Or.inr (Or.inr (Or.inr (Or.inl hp))))), ha, hf⟩

/-! ## Claims on the synthesizer -/

/-- C6, the code at the failing input: for the descriptor the builder returns for one
emboss generator with NRM1 as the only attribute bit, the D3D text holds the emboss line
that reads `_norm1` and `_norm2`, and that line is the only write of the synthesizer that
mentions `_norm2`: the local is used and never declared. -/
theorem emboss_line_uses_undeclared_norm2 :
    GetVertexShaderUid sampleDecls embossNrm1State
      = some (builtUid sampleDecls embossNrm1State)
    ∧ GenerateVertexShaderCode sampleDecls sampleConfig API_TYPE.API_D3D
        (builtUid sampleDecls embossNrm1State)
      = some (codeOf sampleDecls sampleConfig API_TYPE.API_D3D
          (builtUid sampleDecls embossNrm1State))
    ∧ (builtUid sampleDecls embossNrm1State).components &&& sampleDecls.VB_HAS_NRM2 = 0
    ∧ (codeOf sampleDecls sampleConfig API_TYPE.API_D3D
          (builtUid sampleDecls embossNrm1State)).filter (Piece.mentions "_norm2")
      = [W ["o.tex%d.xyz = o.tex%d.xyz + float3(dot(ldir, _norm1), dot(ldir, _norm2), 0.0);\n"]
          [.int 0, .int 3]] :=
  ⟨builtUid_eq _ _ (by decide), codeOf_eq _ _ _ _ (by decide), by decide, by decide⟩

/-- C7, as stated, fails: with the texture-matrix-index bit of texcoord 0 as the only
attribute bit, the OpenGL text declares the input `tex0` (as a float3) although the texcoord
presence bit `VB_HAS_UV0 << 0` is clear. -/
theorem tex_input_declared_without_texcoord_bit :
    GenerateVertexShaderCode sampleDecls sampleConfig API_TYPE.API_OPENGL
        (sampleUid 0 4 false UidTexMtxInfo.zero UidPostMtxInfo.zero)
      = some (codeOf sampleDecls sampleConfig API_TYPE.API_OPENGL
          (sampleUid 0 4 false UidTexMtxInfo.zero UidPostMtxInfo.zero))
    ∧ (sampleUid 0 4 false UidTexMtxInfo.zero UidPostMtxInfo.zero).components
        &&& (sampleDecls.VB_HAS_UV0 <<< 0) = 0
    ∧ W ["in float%d tex%d; // ATTR%d,\n"] [.int 3, .int 0, .int 8]
        ∈ codeOf sampleDecls sampleConfig API_TYPE.API_OPENGL
          (sampleUid 0 4 false UidTexMtxInfo.zero UidPostMtxInfo.zero) :=
  ⟨codeOf_eq _ _ _ _ (by decide), by decide, by decide⟩

/-- The input declarations of the OpenGL dialect. -/
theorem gl_inputs (d : Decls) (cfg : VideoConfig)
    (uid_data : vertex_shader_uid_data) (out : ShaderCode)
    (h : GenerateVertexShaderCode d cfg API_TYPE.API_OPENGL uid_data = some out) :
    (W ["in int posmtx; // ATTR%d,\n"] [.int d.SHADER_POSMTX_ATTRIB] ∈ out
        ↔ uid_data.components &&& d.VB_HAS_POSMTXIDX ≠ 0)
    ∧ (W ["in float3 rawnorm0; // ATTR%d,\n"] [.int d.SHADER_NORM0_ATTRIB] ∈ out
        ↔ uid_data.components &&& d.VB_HAS_NRM0 ≠ 0)
    ∧ (W ["in float3 rawnorm1; // ATTR%d,\n"] [.int d.SHADER_NORM1_ATTRIB] ∈ out
        ↔ uid_data.components &&& d.VB_HAS_NRM1 ≠ 0)
    ∧ (W ["in float3 rawnorm2; // ATTR%d,\n"] [.int d.SHADER_NORM2_ATTRIB] ∈ out
        ↔ uid_data.components &&& d.VB_HAS_NRM2 ≠ 0)
    ∧ (W ["in float4 color0; // ATTR%d,\n"] [.int d.SHADER_COLOR0_ATTRIB] ∈ out
        ↔ uid_data.components &&& d.VB_HAS_COL0 ≠ 0)
    ∧ (W ["in float4 color1; // ATTR%d,\n"] [.int d.SHADER_COLOR1_ATTRIB] ∈ out
        ↔ uid_data.components &&& d.VB_HAS_COL1 ≠ 0)
    ∧ (∀ i, i < 8 → ∀ n,
        (W ["in float%d tex%d; // ATTR%d,\n"]
            [.int n, .int i, .int (d.SHADER_TEXTURE0_ATTRIB + i)] ∈ out
          ↔ ((uid_data.components &&& (d.VB_HAS_UV0 <<< i) ≠ 0
                ∨ uid_data.components &&& (d.VB_HAS_TEXMTXIDX0 <<< i) ≠ 0)
              ∧ n = if uid_data.components &&& (d.VB_HAS_TEXMTXIDX0 <<< i) ≠ 0 then 3
                  else 2))) := by
  refine ⟨?_, ?_, ?_, ?_, ?_, ?_, ?_⟩
  · rw [mem_out_iff d cfg _ uid_data out h]
    have hb := not_mem_blocks d uid_data uid_data.numTexGens
      (W ["in int posmtx; // ATTR%d,\n"] [.int d.SHADER_POSMTX_ATTRIB]) _ rfl (by decide)
    simp [hb, beforeTexGens, preamble, glInterface, d3dInterface, transforms,
      lightingFragment, mem_emitFor, glTexInput, d3dTexInput, mem_ite_list, afterTexGens,
      fallbackColors, finalOutputs, epilogue]
  · rw [mem_out_iff d cfg _ uid_data out h]
    have hb := not_mem_blocks d uid_data uid_data.numTexGens
      (W ["in float3 rawnorm0; // ATTR%d,\n"] [.int d.SHADER_NORM0_ATTRIB]) _ rfl (by decide)
    simp [hb, beforeTexGens, preamble, glInterface, d3dInterface, transforms,
      lightingFragment, mem_emitFor, glTexInput, d3dTexInput, mem_ite_list, afterTexGens,
      fallbackColors, finalOutputs, epilogue]
  · rw [mem_out_iff d cfg _ uid_data out h]
    have hb := not_mem_blocks d uid_data uid_data.numTexGens
      (W ["in float3 rawnorm1; // ATTR%d,\n"] [.int d.SHADER_NORM1_ATTRIB]) _ rfl (by decide)
    simp [hb, beforeTexGens, preamble, glInterface, d3dInterface, transforms,
      lightingFragment, mem_emitFor, glTexInput, d3dTexInput, mem_ite_list, afterTexGens,
      fallbackColors, finalOutputs, epilogue]
  · rw [mem_out_iff d cfg _ uid_data out h]
    have hb := not_mem_blocks d uid_data uid_data.numTexGens
      (W ["in float3 rawnorm2; // ATTR%d,\n"] [.int d.SHADER_NORM2_ATTRIB]) _ rfl (by decide)
    simp [hb, beforeTexGens, preamble, glInterface, d3dInterface, transforms,
      lightingFragment, mem_emitFor, glTexInput, d3dTexInput, mem_ite_list, afterTexGens,
      fallbackColors, finalOutputs, epilogue]
  · rw [mem_out_iff d cfg _ uid_data out h]
    have hb := not_mem_blocks d uid_data uid_data.numTexGens
      (W ["in float4 color0; // ATTR%d,\n"] [.int d.SHADER_COLOR0_ATTRIB]) _ rfl (by decide)
    simp [hb, beforeTexGens, preamble, glInterface, d3dInterface, transforms,
      lightingFragment, mem_emitFor, glTexInput, d3dTexInput, mem_ite_list, afterTexGens,
      fallbackColors, finalOutputs, epilogue]
  · rw [mem_out_iff d cfg _ uid_data out h]
    have hb := not_mem_blocks d uid_data uid_data.numTexGens
      (W ["in float4 color1; // ATTR%d,\n"] [.int d.SHADER_COLOR1_ATTRIB]) _ rfl (by decide)
    simp [hb, beforeTexGens, preamble, glInterface, d3dInterface, transforms,
      lightingFragment, mem_emitFor, glTexInput, d3dTexInput, mem_ite_list, afterTexGens,
      fallbackColors, finalOutputs, epilogue]
  · intro i hi n
    exact gl_tex_width d cfg uid_data out h i hi n

/-- The input declarations of the D3D dialect. -/
theorem d3d_inputs (d : Decls) (cfg : VideoConfig)
    (uid_data : vertex_shader_uid_data) (out : ShaderCode)
    (h : GenerateVertexShaderCode d cfg API_TYPE.API_D3D uid_data = some out) :
    (W ["  int posmtx : BLENDINDICES,\n"] [] ∈ out
        ↔ uid_data.components &&& d.VB_HAS_POSMTXIDX ≠ 0)
    ∧ (W ["  float3 rawnorm0 : NORMAL0,\n"] [] ∈ out
        ↔ uid_data.components &&& d.VB_HAS_NRM0 ≠ 0)
    ∧ (W ["  float3 rawnorm1 : NORMAL1,\n"] [] ∈ out
        ↔ uid_data.components &&& d.VB_HAS_NRM1 ≠ 0)
    ∧ (W ["  float3 rawnorm2 : NORMAL2,\n"] [] ∈ out
        ↔ uid_data.components &&& d.VB_HAS_NRM2 ≠ 0)
    ∧ (W ["  float4 color0 : COLOR0,\n"] [] ∈ out
        ↔ uid_data.components &&& d.VB_HAS_COL0 ≠ 0)
    ∧ (W ["  float4 color1 : COLOR1,\n"] [] ∈ out
        ↔ uid_data.components &&& d.VB_HAS_COL1 ≠ 0)
    ∧ (∀ i, i < 8 → ∀ n,
        (W ["  float%d tex%d : TEXCOORD%d,\n"] [.int n, .int i, .int i] ∈ out
          ↔ ((uid_data.components &&& (d.VB_HAS_UV0 <<< i) ≠ 0
                ∨ uid_data.components &&& (d.VB_HAS_TEXMTXIDX0 <<< i) ≠ 0)
              ∧ n = if uid_data.components &&& (d.VB_HAS_TEXMTXIDX0 <<< i) ≠ 0 then 3
                  else 2))) := by
  refine ⟨?_, ?_, ?_, ?_, ?_, ?_, ?_⟩
  · rw [mem_out_iff d cfg _ uid_data out h]
    have hb := not_mem_blocks d uid_data uid_data.numTexGens
      (W ["  int posmtx : BLENDINDICES,\n"] []) _ rfl (by decide)
    simp [hb, beforeTexGens, preamble, glInterface, d3dInterface, transforms,
      lightingFragment, mem_emitFor, glTexInput, d3dTexInput, mem_ite_list, afterTexGens,
      fallbackColors, finalOutputs, epilogue]
  · rw [mem_out_iff d cfg _ uid_data out h]
    have hb := not_mem_blocks d uid_data uid_data.numTexGens
      (W ["  float3 rawnorm0 : NORMAL0,\n"] []) _ rfl (by decide)
    simp [hb, beforeTexGens, preamble, glInterface, d3dInterface, transforms,
      lightingFragment, mem_emitFor, glTexInput, d3dTexInput, mem_ite_list, afterTexGens,
      fallbackColors, finalOutputs, epilogue]
  · rw [mem_out_iff d cfg _ uid_data out h]
    have hb := not_mem_blocks d uid_data uid_data.numTexGens
      (W ["  float3 rawnorm1 : NORMAL1,\n"] []) _ rfl (by decide)
    simp [hb, beforeTexGens, preamble, glInterface, d3dInterface, transforms,
      lightingFragment, mem_emitFor, glTexInput, d3dTexInput, mem_ite_list, afterTexGens,
      fallbackColors, finalOutputs, epilogue]
  · rw [mem_out_iff d cfg _ uid_data out h]
    have hb := not_mem_blocks d uid_data uid_data.numTexGens
      (W ["  float3 rawnorm2 : NORMAL2,\n"] []) _ rfl (by decide)
    simp [hb, beforeTexGens, preamble, glInterface, d3dInterface, transforms,
      lightingFragment, mem_emitFor, glTexInput, d3dTexInput, mem_ite_list, afterTexGens,
      fallbackColors, finalOutputs, epilogue]
  · rw [mem_out_iff d cfg _ uid_data out h]
    have hb := not_mem_blocks d uid_data uid_data.numTexGens
      (W ["  float4 color0 : COLOR0,\n"] []) _ rfl (by decide)
    simp [hb, beforeTexGens, preamble, glInterface, d3dInterface, transforms,
      lightingFragment, mem_emitFor, glTexInput, d3dTexInput, mem_ite_list, afterTexGens,
      fallbackColors, finalOutputs, epilogue]
  · rw [mem_out_iff d cfg _ uid_data out h]
    have hb := not_mem_blocks d uid_data uid_data.numTexGens
      (W ["  float4 color1 : COLOR1,\n"] []) _ rfl (by decide)
    simp [hb, beforeTexGens, preamble, glInterface, d3dInterface, transforms,
      lightingFragment, mem_emitFor, glTexInput, d3dTexInput, mem_ite_list, afterTexGens,
      fallbackColors, finalOutputs, epilogue]
  · intro i hi n
    exact d3d_tex_width d cfg uid_data out h i hi n

/-- C7, amended: in either dialect the text declares `posmtx` if and only if POSMTXIDX is
set, `rawnorm0`, `rawnorm1`, `rawnorm2` if and only if NRM0, NRM1, NRM2 is set, `color0`,
`color1` if and only if COL0, COL1 is set, and for each `i` in `0 .. 7` the input `tex{i}`
if and only if the texcoord bit `VB_HAS_UV0 << i` or the texture-matrix-index bit
`VB_HAS_TEXMTXIDX0 << i` is set; the declared width of `tex{i}` is 3 (a float3) when the
matrix-index bit is set and 2 (a float2) otherwise, and no other width is declared. -/
theorem GenerateVertexShaderCode_inputs (d : Decls) (cfg : VideoConfig) (api_type : API_TYPE)
    (uid_data : vertex_shader_uid_data) (out : ShaderCode)
    (h : GenerateVertexShaderCode d cfg api_type uid_data = some out) :
    (api_type = API_TYPE.API_OPENGL →
      (W ["in int posmtx; // ATTR%d,\n"] [.int d.SHADER_POSMTX_ATTRIB] ∈ out
          ↔ uid_data.components &&& d.VB_HAS_POSMTXIDX ≠ 0)
      ∧ (W ["in float3 rawnorm0; // ATTR%d,\n"] [.int d.SHADER_NORM0_ATTRIB] ∈ out
          ↔ uid_data.components &&& d.VB_HAS_NRM0 ≠ 0)
      ∧ (W ["in float3 rawnorm1; // ATTR%d,\n"] [.int d.SHADER_NORM1_ATTRIB] ∈ out
          ↔ uid_data.components &&& d.VB_HAS_NRM1 ≠ 0)
      ∧ (W ["in float3 rawnorm2; // ATTR%d,\n"] [.int d.SHADER_NORM2_ATTRIB] ∈ out
          ↔ uid_data.components &&& d.VB_HAS_NRM2 ≠ 0)
      ∧ (W ["in float4 color0; // ATTR%d,\n"] [.int d.SHADER_COLOR0_ATTRIB] ∈ out
          ↔ uid_data.components &&& d.VB_HAS_COL0 ≠ 0)
      ∧ (W ["in float4 color1; // ATTR%d,\n"] [.int d.SHADER_COLOR1_ATTRIB] ∈ out
          ↔ uid_data.components &&& d.VB_HAS_COL1 ≠ 0)
      ∧ (∀ i, i < 8 → ∀ n,
          (W ["in float%d tex%d; // ATTR%d,\n"]
              [.int n, .int i, .int (d.SHADER_TEXTURE0_ATTRIB + i)] ∈ out
            ↔ ((uid_data.components &&& (d.VB_HAS_UV0 <<< i) ≠ 0
                  ∨ uid_data.components &&& (d.VB_HAS_TEXMTXIDX0 <<< i) ≠ 0)
                ∧ n = if uid_data.components &&& (d.VB_HAS_TEXMTXIDX0 <<< i) ≠ 0 then 3
                    else 2))))
    ∧ (api_type = API_TYPE.API_D3D →
      (W ["  int posmtx : BLENDINDICES,\n"] [] ∈ out
          ↔ uid_data.components &&& d.VB_HAS_POSMTXIDX ≠ 0)
      ∧ (W ["  float3 rawnorm0 : NORMAL0,\n"] [] ∈ out
          ↔ uid_data.components &&& d.VB_HAS_NRM0 ≠ 0)
      ∧ (W ["  float3 rawnorm1 : NORMAL1,\n"] [] ∈ out
          ↔ uid_data.components &&& d.VB_HAS_NRM1 ≠ 0)
      ∧ (W ["  float3 rawnorm2 : NORMAL2,\n"] [] ∈ out
          ↔ uid_data.components &&& d.VB_HAS_NRM2 ≠ 0)
      ∧ (W ["  float4 color0 : COLOR0,\n"] [] ∈ out
          ↔ uid_data.components &&& d.VB_HAS_COL0 ≠ 0)
      ∧ (W ["  float4 color1 : COLOR1,\n"] [] ∈ out
          ↔ uid_data.components &&& d.VB_HAS_COL1 ≠ 0)
      ∧ (∀ i, i < 8 → ∀ n,
          (W ["  float%d tex%d : TEXCOORD%d,\n"] [.int n, .int i, .int i] ∈ out
            ↔ ((uid_data.components &&& (d.VB_HAS_UV0 <<< i) ≠ 0
                  ∨ uid_data.components &&& (d.VB_HAS_TEXMTXIDX0 <<< i) ≠ 0)
                ∧ n = if uid_data.components &&& (d.VB_HAS_TEXMTXIDX0 <<< i) ≠ 0 then 3
                    else 2)))) := by
  constructor
  · intro ha
    subst ha
    exact gl_inputs d cfg uid_data out h
  · intro ha
    subst ha
    exact d3d_inputs d cfg uid_data out h

theorem GenerateVertexShaderCode_inputs_witness :
    GenerateVertexShaderCode sampleDecls sampleConfig API_TYPE.API_OPENGL
        (sampleUid 0 (32768 + 8) false UidTexMtxInfo.zero UidPostMtxInfo.zero)
      = some (codeOf sampleDecls sampleConfig API_TYPE.API_OPENGL
          (sampleUid 0 (32768 + 8) false UidTexMtxInfo.zero UidPostMtxInfo.zero))
    ∧ W ["in float%d tex%d; // ATTR%d,\n"] [.int 2, .int 0, .int 8]
        ∈ codeOf sampleDecls sampleConfig API_TYPE.API_OPENGL
          (sampleUid 0 (32768 + 8) false UidTexMtxInfo.zero UidPostMtxInfo.zero)
    ∧ ¬ (W ["in float%d tex%d; // ATTR%d,\n"] [.int 3, .int 0, .int 8]
        ∈ codeOf sampleDecls sampleConfig API_TYPE.API_OPENGL
          (sampleUid 0 (32768 + 8) false UidTexMtxInfo.zero UidPostMtxInfo.zero))
    ∧ W ["in float%d tex%d; // ATTR%d,\n"] [.int 3, .int 1, .int 9]
        ∈ codeOf sampleDecls sampleConfig API_TYPE.API_OPENGL
          (sampleUid 0 (32768 + 8) false UidTexMtxInfo.zero UidPostMtxInfo.zero)
    ∧ ¬ (W ["in int posmtx; // ATTR%d,\n"] [.int 1]
        ∈ codeOf sampleDecls sampleConfig API_TYPE.API_OPENGL
          (sampleUid 0 (32768 + 8) false UidTexMtxInfo.zero UidPostMtxInfo.zero)) := by
  have hs := codeOf_eq sampleDecls sampleConfig API_TYPE.API_OPENGL
    (sampleUid 0 (32768 + 8) false UidTexMtxInfo.zero UidPostMtxInfo.zero) (by decide)
  have c := (GenerateVertexShaderCode_inputs sampleDecls sampleConfig API_TYPE.API_OPENGL
    _ _ hs).1 rfl
  exact ⟨hs, (c.2.2.2.2.2.2 0 (by decide) 2).mpr (by decide),
    (c.2.2.2.2.2.2 0 (by decide) 3).not.mpr (by decide),
    (c.2.2.2.2.2.2 1 (by decide) 3).mpr (by decide),
    c.1.not.mpr (by decide)⟩

/-- C8: a text the synthesizer returns has `numTexGens ≤ 8` and consists of a part without
block opener, the blocks of the generators `0 .. numTexGens-1` in increasing order, and a
part without block opener.  Block `i` starts with the opener and the reset line
`coord = float4(0.0, 0.0, 1.0, 1.0);`, holds neither again, holds a write that assigns
`o.tex{i}`, and each of its writes that assigns a generator output assigns `o.tex{i}`; the
opener and the reset line each occur exactly `numTexGens` times in the text. -/
theorem GenerateVertexShaderCode_blocks (d : Decls) (cfg : VideoConfig) (api_type : API_TYPE)
    (uid_data : vertex_shader_uid_data) (out : ShaderCode)
    (h : GenerateVertexShaderCode d cfg api_type uid_data = some out) :
    uid_data.numTexGens ≤ 8
    ∧ List.count blockOpener out = uid_data.numTexGens
    ∧ List.count coordReset out = uid_data.numTexGens
    ∧ ∃ pre blocks post, out = pre ++ List.flatten blocks ++ post
        ∧ blocks.length = uid_data.numTexGens
        ∧ blockOpener ∉ pre ∧ blockOpener ∉ post
        ∧ ∀ i block, blocks[i]? = some block →
            texGenBlock d uid_data i = some block
            ∧ (∃ rest, block = blockOpener :: coordReset :: rest
                ∧ blockOpener ∉ rest ∧ coordReset ∉ rest)
            ∧ (∃ p, p ∈ block ∧ p.assignsTex = true ∧ p.firstArg = some (Arg.int i))
            ∧ ∀ p, p ∈ block → p.assignsTex = true → p.firstArg = some (Arg.int i) := by
  obtain ⟨h8, hall, hout⟩ := GenerateVertexShaderCode_shape d cfg api_type uid_data out h
  have hcount := fun i (hi : i < uid_data.numTexGens) =>
    count_block d uid_data i _ (hall i hi)
  refine ⟨h8, ?_, ?_, ?_⟩
  · rw [hout, List.count_append, List.count_append,
      List.count_eq_zero.mpr (blockOpener_not_mem_before d cfg api_type uid_data),
      List.count_eq_zero.mpr (blockOpener_not_mem_after d cfg api_type uid_data),
      count_emitFor _ _ _ (fun i hi => (hcount i hi).1)]
    omega
  · rw [hout, List.count_append, List.count_append,
      List.count_eq_zero.mpr (coordReset_not_mem_before d cfg api_type uid_data),
      List.count_eq_zero.mpr (coordReset_not_mem_after d cfg api_type uid_data),
      count_emitFor _ _ _ (fun i hi => (hcount i hi).2)]
    omega
  · refine ⟨beforeTexGens d cfg api_type uid_data
        ++ [W ["float4 coord = float4(0.0, 0.0, 1.0, 1.0);\n"] []],
      (List.range uid_data.numTexGens).map (blockOf d uid_data),
      afterTexGens d cfg api_type uid_data, ?_, ?_,
      blockOpener_not_mem_before d cfg api_type uid_data,
      blockOpener_not_mem_after d cfg api_type uid_data, ?_⟩
    · rw [hout, emitFor_eq_flatten]
    · simp
    · intro i block hib
      simp only [List.getElem?_map, Option.map_eq_some'] at hib
      obtain ⟨j, hj, hjb⟩ := hib
      have hlt : i < uid_data.numTexGens := by
        by_contra hcon
        rw [List.getElem?_eq_none (by simpa using hcon)] at hj
        exact absurd hj (by simp)
      rw [List.getElem?_range hlt] at hj
      have hji : i = j := Option.some.inj hj
      subst hji
      subst hjb
      have hi8 : i < 8 := by omega
      obtain ⟨hshape, honly⟩ := texGenBlock_structure d uid_data ⟨i, hi8⟩ _ (hall i hlt)
      exact ⟨hall i hlt, hshape, texGenBlock_assigns d uid_data ⟨i, hi8⟩ _ (hall i hlt),
        honly⟩

theorem GenerateVertexShaderCode_blocks_witness :
    GenerateVertexShaderCode sampleDecls sampleConfig API_TYPE.API_OPENGL
        (builtUid sampleDecls (busyState 3 0 true 2048))
      = some (codeOf sampleDecls sampleConfig API_TYPE.API_OPENGL
          (builtUid sampleDecls (busyState 3 0 true 2048)))
    ∧ List.count blockOpener (codeOf sampleDecls sampleConfig API_TYPE.API_OPENGL
          (builtUid sampleDecls (busyState 3 0 true 2048))) = 3
    ∧ List.count coordReset (codeOf sampleDecls sampleConfig API_TYPE.API_OPENGL
          (builtUid sampleDecls (busyState 3 0 true 2048))) = 3
    ∧ ∃ p, p ∈ codeOf sampleDecls sampleConfig API_TYPE.API_OPENGL
          (builtUid sampleDecls (busyState 3 0 true 2048))
        ∧ p.assignsTex = true ∧ p.firstArg = some (Arg.int 2) := by
  have hs := codeOf_eq sampleDecls sampleConfig API_TYPE.API_OPENGL
    (builtUid sampleDecls (busyState 3 0 true 2048)) (by decide)
  obtain ⟨-, h1, h2, pre, blocks, post, hout, hlen, -, -, hb⟩ :=
    GenerateVertexShaderCode_blocks sampleDecls sampleConfig API_TYPE.API_OPENGL _ _ hs
  have h2lt : 2 < blocks.length := by rw [hlen]; decide
  obtain ⟨-, -, ⟨p, hp, ha, hf⟩, -⟩ := hb 2 blocks[2] (List.getElem?_eq_getElem h2lt)
  refine ⟨hs, h1, h2, p, ?_, ha, hf⟩
  rw [hout]
  exact List.mem_append_left _ (List.mem_append_right _
    (List.mem_flatten.mpr ⟨_, List.getElem_mem h2lt, hp⟩))

/-- C9: the block of an active emboss generator `i` is part of the text; when neither NRM1
nor NRM2 is present it contains the pass-through line `o.tex{i}.xyz = o.tex{s}.xyz;`, with
`s` the emboss source index, and no write whose format starts with `ldir = normalize(`;
when NRM1 or NRM2 is present it contains the light-direction line and the line adding
`float3(dot(ldir, _norm1), dot(ldir, _norm2), 0.0)` to `o.tex{s}`. -/
theorem GenerateVertexShaderCode_emboss (d : Decls) (cfg : VideoConfig) (api_type : API_TYPE)
    (uid_data : vertex_shader_uid_data) (out : ShaderCode)
    (h : GenerateVertexShaderCode d cfg api_type uid_data = some out)
    (i : Fin 8) (hi : i.val < uid_data.numTexGens)
    (he : (uid_data.texMtxInfo i).texgentype = d.XF_TEXGEN_EMBOSS_MAP) :
    ∃ block, texGenBlock d uid_data i.val = some block ∧ block <:+: out
      ∧ ((uid_data.components &&& d.VB_HAS_NRM1 = 0
            ∧ uid_data.components &&& d.VB_HAS_NRM2 = 0) →
          W ["o.tex%d.xyz = o.tex%d.xyz;\n"]
              [.int i.val, .int (uid_data.texMtxInfo i).embosssourceshift] ∈ block
          ∧ ∀ p, p ∈ block → p.head ≠ some (Seg.lit "ldir = normalize("))
      ∧ ((uid_data.components &&& d.VB_HAS_NRM1 ≠ 0
            ∨ uid_data.components &&& d.VB_HAS_NRM2 ≠ 0) →
          W ["ldir = normalize(", .ext d.LIGHT_POS, ".xyz - pos.xyz);\n"]
              (d.LIGHT_POS_PARAMS (uid_data.texMtxInfo i).embosslightshift) ∈ block
          ∧ W ["o.tex%d.xyz = o.tex%d.xyz + float3(dot(ldir, _norm1), dot(ldir, _norm2), 0.0);\n"]
              [.int i.val, .int (uid_data.texMtxInfo i).embosssourceshift] ∈ block) := by
  obtain ⟨hb, hinf⟩ := block_infix d cfg api_type uid_data out h i.val hi
  obtain ⟨source, hsrc, hblock⟩ := texGenBlock_eq d uid_data i _ hb
  refine ⟨blockOf d uid_data i.val, hb, hinf, ?_, ?_⟩
  · rintro ⟨h1, h2⟩
    have hn : ¬ (uid_data.components &&& (d.VB_HAS_NRM1 ||| d.VB_HAS_NRM2) ≠ 0) := by
      rw [and_or_ne_zero]; simp [h1, h2]
    have hft : texGenFirstTransformation d uid_data i.val (uid_data.texMtxInfo i)
        = [W ["o.tex%d.xyz = o.tex%d.xyz;\n"]
            [.int i.val, .int (uid_data.texMtxInfo i).embosssourceshift]] := by
      rw [texGenFirstTransformation, if_pos he, if_neg hn]
    rw [hblock, hft]
    constructor
    · simp
    · intro p hp
      simp only [List.mem_append, List.mem_cons, List.mem_singleton, List.not_mem_nil,
        or_false] at hp
      rcases hp with ((((hp | hp) | hp) | hp) | hp) | hp
      · rcases hp with hp | hp <;> subst hp <;> simp [blockOpener, coordReset, Piece.head]
      · rcases texGenSource_mem d uid_data _ source hsrc p hp with hq | hq | hq | hq | hq <;>
          subst hq <;> simp [Piece.head]
      · rw [texGenInputForm_mem d _ p hp]; simp [Piece.head]
      · subst hp; simp [Piece.head]
      · rcases texGenPostTransform_mem d uid_data _ _ _ p hp with hq | hq | hq <;>
          subst hq <;> simp [Piece.head]
      · subst hp; simp [Piece.head]
  · intro hor
    have hn : uid_data.components &&& (d.VB_HAS_NRM1 ||| d.VB_HAS_NRM2) ≠ 0 :=
      (and_or_ne_zero _ _ _).mpr hor
    have hft : texGenFirstTransformation d uid_data i.val (uid_data.texMtxInfo i)
        = [W ["ldir = normalize(", .ext d.LIGHT_POS, ".xyz - pos.xyz);\n"]
              (d.LIGHT_POS_PARAMS (uid_data.texMtxInfo i).embosslightshift),
           W ["o.tex%d.xyz = o.tex%d.xyz + float3(dot(ldir, _norm1), dot(ldir, _norm2), 0.0);\n"]
              [.int i.val, .int (uid_data.texMtxInfo i).embosssourceshift]] := by
      rw [texGenFirstTransformation, if_pos he, if_pos hn]
    rw [hblock, hft]
    constructor <;> simp

theorem GenerateVertexShaderCode_emboss_witness :
    GenerateVertexShaderCode sampleDecls sampleConfig API_TYPE.API_D3D
        (sampleUid 1 0 false
          { inputform := 0, texgentype := 1, sourcerow := 0, embosssourceshift := 0,
            embosslightshift := 0 } UidPostMtxInfo.zero)
      = some (codeOf sampleDecls sampleConfig API_TYPE.API_D3D
        (sampleUid 1 0 false
          { inputform := 0, texgentype := 1, sourcerow := 0, embosssourceshift := 0,
            embosslightshift := 0 } UidPostMtxInfo.zero))
    ∧ ∃ block, block <:+: codeOf sampleDecls sampleConfig API_TYPE.API_D3D
        (sampleUid 1 0 false
          { inputform := 0, texgentype := 1, sourcerow := 0, embosssourceshift := 0,
            embosslightshift := 0 } UidPostMtxInfo.zero)
      ∧ W ["o.tex%d.xyz = o.tex%d.xyz;\n"] [.int 0, .int 0] ∈ block
      ∧ ∀ p, p ∈ block → p.head ≠ some (Seg.lit "ldir = normalize(") := by
  have hs := codeOf_eq sampleDecls sampleConfig API_TYPE.API_D3D
    (sampleUid 1 0 false
      { inputform := 0, texgentype := 1, sourcerow := 0, embosssourceshift := 0,
        embosslightshift := 0 } UidPostMtxInfo.zero) (by decide)
  obtain ⟨block, -, hinf, hno, -⟩ :=
    GenerateVertexShaderCode_emboss sampleDecls sampleConfig API_TYPE.API_D3D _ _ hs 0
      (by decide) (by decide)
  exact ⟨hs, block, hinf, hno ⟨by decide, by decide⟩⟩

/-- C10: the block of an active generator `i` is part of the text.  When dual transform is
enabled and the type of the generator is regular, the block ends with the load of the three
post-transform rows at `k mod 64`, `(k+1) mod 64`, `(k+2) mod 64` (each below 64; `k` is the
post-matrix index), the normalize line if and only if the normalize flag is set, the
post-matrix multiply, and the closing brace.  Otherwise the block holds none of these three
writes. -/
theorem GenerateVertexShaderCode_post_transform (d : Decls) (cfg : VideoConfig)
    (api_type : API_TYPE) (uid_data : vertex_shader_uid_data) (out : ShaderCode)
    (h : GenerateVertexShaderCode d cfg api_type uid_data = some out)
    (i : Fin 8) (hi : i.val < uid_data.numTexGens) :
    ∃ block, texGenBlock d uid_data i.val = some block ∧ block <:+: out
      ∧ ((uid_data.dualTexTrans_enabled = true
            ∧ (uid_data.texMtxInfo i).texgentype = d.XF_TEXGEN_REGULAR) →
          ([W ["float4 P0 = ", .ext d.I_POSTTRANSFORMMATRICES, "[%d];\nfloat4 P1 = ",
                .ext d.I_POSTTRANSFORMMATRICES, "[%d];\nfloat4 P2 = ",
                .ext d.I_POSTTRANSFORMMATRICES, "[%d];\n"]
              [.int ((uid_data.postMtxInfo i).index % 64),
               .int (((uid_data.postMtxInfo i).index + 1) % 64),
               .int (((uid_data.postMtxInfo i).index + 2) % 64)]]
            ++ (if (uid_data.postMtxInfo i).normalize = true then
                  [W ["o.tex%d.xyz = normalize(o.tex%d.xyz);\n"] [.int i.val, .int i.val]]
                else [])
            ++ [W ["o.tex%d.xyz = float3(dot(P0.xyz, o.tex%d.xyz) + P0.w, dot(P1.xyz, o.tex%d.xyz) + P1.w, dot(P2.xyz, o.tex%d.xyz) + P2.w);\n"]
                  [.int i.val, .int i.val, .int i.val, .int i.val]]
            ++ [W ["\x7d\n"] []]) <:+ block
          ∧ (uid_data.postMtxInfo i).index % 64 < 64
          ∧ ((uid_data.postMtxInfo i).index + 1) % 64 < 64
          ∧ ((uid_data.postMtxInfo i).index + 2) % 64 < 64
          ∧ (W ["o.tex%d.xyz = normalize(o.tex%d.xyz);\n"] [.int i.val, .int i.val] ∈ block
              ↔ (uid_data.postMtxInfo i).normalize = true))
      ∧ (¬ (uid_data.dualTexTrans_enabled = true
            ∧ (uid_data.texMtxInfo i).texgentype = d.XF_TEXGEN_REGULAR) →
          ∀ p, p ∈ block →
            p.head ≠ some (Seg.lit "float4 P0 = ")
            ∧ p.head ≠ some (Seg.lit "o.tex%d.xyz = normalize(o.tex%d.xyz);\n")
            ∧ p.head ≠ some (Seg.lit "o.tex%d.xyz = float3(dot(P0.xyz, o.tex%d.xyz) + P0.w, dot(P1.xyz, o.tex%d.xyz) + P1.w, dot(P2.xyz, o.tex%d.xyz) + P2.w);\n")) := by
  obtain ⟨hb, hinf⟩ := block_infix d cfg api_type uid_data out h i.val hi
  obtain ⟨source, hsrc, hmem⟩ := texGenBlock_mem d uid_data i _ hb
  obtain ⟨source2, hsrc2, hblock⟩ := texGenBlock_eq d uid_data i _ hb
  have hss : source2 = source := Option.some.inj (hsrc2.symm.trans hsrc)
  rw [hss] at hblock
  refine ⟨blockOf d uid_data i.val, hb, hinf, ?_, ?_⟩
  · intro hc
    have hpost : texGenPostTransform d uid_data i.val (uid_data.texMtxInfo i)
        (uid_data.postMtxInfo i)
        = [W ["float4 P0 = ", .ext d.I_POSTTRANSFORMMATRICES, "[%d];\nfloat4 P1 = ",
                .ext d.I_POSTTRANSFORMMATRICES, "[%d];\nfloat4 P2 = ",
                .ext d.I_POSTTRANSFORMMATRICES, "[%d];\n"]
              [.int ((uid_data.postMtxInfo i).index % 64),
               .int (((uid_data.postMtxInfo i).index + 1) % 64),
               .int (((uid_data.postMtxInfo i).index + 2) % 64)]]
            ++ (if (uid_data.postMtxInfo i).normalize = true then
                  [W ["o.tex%d.xyz = normalize(o.tex%d.xyz);\n"] [.int i.val, .int i.val]]
                else [])
            ++ [W ["o.tex%d.xyz = float3(dot(P0.xyz, o.tex%d.xyz) + P0.w, dot(P1.xyz, o.tex%d.xyz) + P1.w, dot(P2.xyz, o.tex%d.xyz) + P2.w);\n"]
                  [.int i.val, .int i.val, .int i.val, .int i.val]] := by
      rw [texGenPostTransform, if_pos hc, and_0x3f, and_0x3f, and_0x3f]
    refine ⟨?_, Nat.mod_lt _ (by decide), Nat.mod_lt _ (by decide),
      Nat.mod_lt _ (by decide), ?_⟩
    · rw [hblock, hpost]
      exact ⟨[blockOpener, coordReset] ++ source ++ texGenInputForm d (uid_data.texMtxInfo i)
          ++ texGenFirstTransformation d uid_data i.val (uid_data.texMtxInfo i),
        by simp only [List.append_assoc]⟩
    · constructor
      · intro hp
        by_contra hnorm
        rcases (hmem _).mp hp with hq | hq | hq | hq | hq | hq | hq
        · simp [blockOpener] at hq
        · simp [coordReset] at hq
        · rcases texGenSource_mem d uid_data _ source hsrc _ hq with hq | hq | hq | hq | hq <;>
            simp at hq
        · have := texGenInputForm_mem d _ _ hq; simp at this
        · rcases texGenFirstTransformation_mem d uid_data _ _ _ hq with hq | ⟨-, hq⟩
          · simp [Piece.head] at hq
          · simp [Piece.head] at hq
        · rw [hpost] at hq
          simp [hnorm] at hq
        · simp at hq
      · intro hnorm
        apply (hmem _).mpr
        rw [hpost]
        simp [hnorm]
  · intro hc p hp
    have hpost : texGenPostTransform d uid_data i.val (uid_data.texMtxInfo i)
        (uid_data.postMtxInfo i) = [] := by
      rw [texGenPostTransform, if_neg hc]
    rcases (hmem p).mp hp with hq | hq | hq | hq | hq | hq | hq
    · subst hq; simp [blockOpener, Piece.head]
    · subst hq; simp [coordReset, Piece.head]
    · rcases texGenSource_mem d uid_data _ source hsrc p hq with hq | hq | hq | hq | hq <;>
        subst hq <;> simp [Piece.head]
    · rw [texGenInputForm_mem d _ p hq]; simp [Piece.head]
    · rcases texGenFirstTransformation_mem d uid_data _ _ _ hq with hq | ⟨-, hq⟩
      · simp [hq]
      · rcases hq with hq | hq | hq | hq | hq | hq <;> simp [hq]
    · rw [hpost] at hq; simp at hq
    · subst hq; simp [Piece.head]

theorem GenerateVertexShaderCode_post_transform_witness :
    GenerateVertexShaderCode sampleDecls sampleConfig API_TYPE.API_OPENGL
        (sampleUid 1 0 true
          { inputform := 0, texgentype := 0, sourcerow := 0, embosssourceshift := 0,
            embosslightshift := 0 } { index := 62, normalize := true })
      = some (codeOf sampleDecls sampleConfig API_TYPE.API_OPENGL
        (sampleUid 1 0 true
          { inputform := 0, texgentype := 0, sourcerow := 0, embosssourceshift := 0,
            embosslightshift := 0 } { index := 62, normalize := true }))
    ∧ ∃ block, block <:+: codeOf sampleDecls sampleConfig API_TYPE.API_OPENGL
        (sampleUid 1 0 true
          { inputform := 0, texgentype := 0, sourcerow := 0, embosssourceshift := 0,
            embosslightshift := 0 } { index := 62, normalize := true })
      ∧ [W ["float4 P0 = ", .ext "cpostmtx", "[%d];\nfloat4 P1 = ", .ext "cpostmtx",
              "[%d];\nfloat4 P2 = ", .ext "cpostmtx", "[%d];\n"]
            [.int 62, .int 63, .int 0],
          W ["o.tex%d.xyz = normalize(o.tex%d.xyz);\n"] [.int 0, .int 0],
          W ["o.tex%d.xyz = float3(dot(P0.xyz, o.tex%d.xyz) + P0.w, dot(P1.xyz, o.tex%d.xyz) + P1.w, dot(P2.xyz, o.tex%d.xyz) + P2.w);\n"]
            [.int 0, .int 0, .int 0, .int 0],
          W ["\x7d\n"] []] <:+ block := by
  have hs := codeOf_eq sampleDecls sampleConfig API_TYPE.API_OPENGL
    (sampleUid 1 0 true
      { inputform := 0, texgentype := 0, sourcerow := 0, embosssourceshift := 0,
        embosslightshift := 0 } { index := 62, normalize := true }) (by decide)
  obtain ⟨block, -, hinf, hyes, -⟩ :=
    GenerateVertexShaderCode_post_transform sampleDecls sampleConfig API_TYPE.API_OPENGL _ _
      hs 0 (by decide)
  exact ⟨hs, block, hinf, (hyes ⟨by decide, by decide⟩).1⟩

/-- C11: the block of an active regular generator `i` is part of the text (the case labels
of the switch being distinct).  Without the texture-matrix-index bit `i` it holds the dot
products of `coord` against the fixed rows `3i`, `3i+1`, `3i+2` of the texture matrices when
projection bit `i` is STQ, and against the rows `3i`, `3i+1` with a literal 1 otherwise.
With the bit set it holds `int tmp = int(tex{i}.z);` followed by the dot products against
the rows `tmp`, `tmp+1` (and `tmp+2` for STQ) of the transform matrices. -/
theorem GenerateVertexShaderCode_regular (d : Decls) (cfg : VideoConfig)
    (api_type : API_TYPE) (uid_data : vertex_shader_uid_data) (out : ShaderCode)
    (h : GenerateVertexShaderCode d cfg api_type uid_data = some out)
    (i : Fin 8) (hi : i.val < uid_data.numTexGens)
    (hreg : (uid_data.texMtxInfo i).texgentype = d.XF_TEXGEN_REGULAR)
    (hlabels : d.XF_TEXGEN_REGULAR ≠ d.XF_TEXGEN_EMBOSS_MAP
      ∧ d.XF_TEXGEN_REGULAR ≠ d.XF_TEXGEN_COLOR_STRGBC0
      ∧ d.XF_TEXGEN_REGULAR ≠ d.XF_TEXGEN_COLOR_STRGBC1) :
    ∃ block, texGenBlock d uid_data i.val = some block ∧ block <:+: out
      ∧ (uid_data.components &&& (d.VB_HAS_TEXMTXIDX0 <<< i.val) = 0 →
          ((uid_data.texMtxInfo_n_projection >>> i.val) &&& 1 = d.XF_TEXPROJ_STQ →
            [W ["o.tex%d.xyz = float3(dot(coord, ", .ext d.I_TEXMATRICES,
                "[%d]), dot(coord, ", .ext d.I_TEXMATRICES, "[%d]), dot(coord, ",
                .ext d.I_TEXMATRICES, "[%d]));\n"]
              [.int i.val, .int (3 * i.val), .int (3 * i.val + 1), .int (3 * i.val + 2)]]
              <:+: block)
          ∧ ((uid_data.texMtxInfo_n_projection >>> i.val) &&& 1 ≠ d.XF_TEXPROJ_STQ →
            [W ["o.tex%d.xyz = float3(dot(coord, ", .ext d.I_TEXMATRICES,
                "[%d]), dot(coord, ", .ext d.I_TEXMATRICES, "[%d]), 1);\n"]
              [.int i.val, .int (3 * i.val), .int (3 * i.val + 1)]] <:+: block))
      ∧ (uid_data.components &&& (d.VB_HAS_TEXMTXIDX0 <<< i.val) ≠ 0 →
          ((uid_data.texMtxInfo_n_projection >>> i.val) &&& 1 = d.XF_TEXPROJ_STQ →
            [W ["int tmp = int(tex%d.z);\n"] [.int i.val],
             W ["o.tex%d.xyz = float3(dot(coord, ", .ext d.I_TRANSFORMMATRICES,
                "[tmp]), dot(coord, ", .ext d.I_TRANSFORMMATRICES, "[tmp+1]), dot(coord, ",
                .ext d.I_TRANSFORMMATRICES, "[tmp+2]));\n"] [.int i.val]] <:+: block)
          ∧ ((uid_data.texMtxInfo_n_projection >>> i.val) &&& 1 ≠ d.XF_TEXPROJ_STQ →
            [W ["int tmp = int(tex%d.z);\n"] [.int i.val],
             W ["o.tex%d.xyz = float3(dot(coord, ", .ext d.I_TRANSFORMMATRICES,
                "[tmp]), dot(coord, ", .ext d.I_TRANSFORMMATRICES, "[tmp+1]), 1);\n"]
               [.int i.val]] <:+: block)) := by
  obtain ⟨hb, hinf⟩ := block_infix d cfg api_type uid_data out h i.val hi
  have hft := firstTransformation_infix d uid_data i _ hb
  have h1 : ¬ (uid_data.texMtxInfo i).texgentype = d.XF_TEXGEN_EMBOSS_MAP := by
    rw [hreg]; exact hlabels.1
  have h2 : ¬ (uid_data.texMtxInfo i).texgentype = d.XF_TEXGEN_COLOR_STRGBC0 := by
    rw [hreg]; exact hlabels.2.1
  have h3 : ¬ (uid_data.texMtxInfo i).texgentype = d.XF_TEXGEN_COLOR_STRGBC1 := by
    rw [hreg]; exact hlabels.2.2
  rw [texGenFirstTransformation, if_neg h1, if_neg h2, if_neg h3] at hft
  refine ⟨blockOf d uid_data i.val, hb, hinf, ?_, ?_⟩
  · intro hm
    have hm2 : ¬ (uid_data.components &&& (d.VB_HAS_TEXMTXIDX0 <<< i.val) ≠ 0) := by
      simp [hm]
    rw [if_neg hm2] at hft
    constructor
    · intro hq; rw [if_pos hq] at hft; exact hft
    · intro hq; rw [if_neg hq] at hft; exact hft
  · intro hm
    rw [if_pos hm] at hft
    constructor
    · intro hq; rw [if_pos hq] at hft; exact hft
    · intro hq; rw [if_neg hq] at hft; exact hft

theorem GenerateVertexShaderCode_regular_witness :
    GenerateVertexShaderCode sampleDecls sampleConfig API_TYPE.API_D3D
        (builtUid sampleDecls (busyState 1 0 false 0))
      = some (codeOf sampleDecls sampleConfig API_TYPE.API_D3D
          (builtUid sampleDecls (busyState 1 0 false 0)))
    ∧ ∃ block, block <:+: codeOf sampleDecls sampleConfig API_TYPE.API_D3D
          (builtUid sampleDecls (busyState 1 0 false 0))
      ∧ [W ["o.tex%d.xyz = float3(dot(coord, ", .ext "ctexmtx",
            "[%d]), dot(coord, ", .ext "ctexmtx", "[%d]), dot(coord, ",
            .ext "ctexmtx", "[%d]));\n"]
          [.int 0, .int 0, .int 1, .int 2]] <:+: block := by
  have hs := codeOf_eq sampleDecls sampleConfig API_TYPE.API_D3D
    (builtUid sampleDecls (busyState 1 0 false 0)) (by decide)
  obtain ⟨block, -, hinf, hno, -⟩ :=
    GenerateVertexShaderCode_regular sampleDecls sampleConfig API_TYPE.API_D3D _ _ hs 0
      (by decide) (by decide) (by decide)
  exact ⟨hs, block, hinf, (hno (by decide)).1 (by decide)⟩

/-- C12: the text is a part without any write to an output color and without the
clip-position line, then the fallback colors, then the clip-position line and the rest.  The
fallback colors are: when `numColorChans = 0`, `o.colors_0 = color0;` if COL0 is present and
`o.colors_0 = float4(1.0, 1.0, 1.0, 1.0);` otherwise, and nothing for `o.colors_0` when
`numColorChans ≠ 0`; then, when `numColorChans < 2`, `o.colors_1 = color1;` if COL1 is
present and `o.colors_1 = o.colors_0;` otherwise, and nothing for `o.colors_1` when
`numColorChans ≥ 2`. -/
theorem GenerateVertexShaderCode_fallback_colors (d : Decls) (cfg : VideoConfig)
    (api_type : API_TYPE) (uid_data : vertex_shader_uid_data) (out : ShaderCode)
    (h : GenerateVertexShaderCode d cfg api_type uid_data = some out) :
    ∃ pre post,
      out = pre
        ++ ((if uid_data.numColorChans = 0 then
              (if uid_data.components &&& d.VB_HAS_COL0 ≠ 0 then
                [W ["o.colors_0 = color0;\n"] []]
              else [W ["o.colors_0 = float4(1.0, 1.0, 1.0, 1.0);\n"] []])
            else [])
          ++ (if uid_data.numColorChans < 2 then
              (if uid_data.components &&& d.VB_HAS_COL1 ≠ 0 then
                [W ["o.colors_1 = color1;\n"] []]
              else [W ["o.colors_1 = o.colors_0;\n"] []])
            else []))
        ++ W ["o.clipPos = o.pos;\n"] [] :: post
      ∧ (∀ p, p ∈ pre → p.assignsColor = false)
      ∧ W ["o.clipPos = o.pos;\n"] [] ∉ pre := by
  obtain ⟨-, -, hout⟩ := GenerateVertexShaderCode_shape d cfg api_type uid_data out h
  refine ⟨beforeTexGens d cfg api_type uid_data
      ++ [W ["float4 coord = float4(0.0, 0.0, 1.0, 1.0);\n"] []]
      ++ emitFor (blockOf d uid_data) uid_data.numTexGens,
    (finalOutputs d cfg uid_data).tail ++ epilogue d cfg api_type uid_data, ?_, ?_, ?_⟩
  · rw [hout]
    simp [afterTexGens, fallbackColors, finalOutputs]
  · intro p hp
    rcases List.mem_append.mp hp with hq | hq
    · have hall := assignsColor_before d cfg api_type uid_data
      rw [List.all_eq_true] at hall
      simpa using hall p hq
    · apply forall_mem_blocks d uid_data uid_data.numTexGens Piece.assignsColor _ p hq
      intro q s hs hmem
      rw [assignsColor_of_head q s hs]
      exact blockHeads_no_color s hmem
  · intro hp
    rcases List.mem_append.mp hp with hq | hq
    · exact clipPos_not_mem_before d cfg api_type uid_data hq
    · exact not_mem_blocks d uid_data uid_data.numTexGens (W ["o.clipPos = o.pos;\n"] [])
        "o.clipPos = o.pos;\n" rfl (by decide) hq

theorem GenerateVertexShaderCode_fallback_colors_witness :
    GenerateVertexShaderCode sampleDecls sampleConfig API_TYPE.API_OPENGL
        (sampleUid 0 16384 false UidTexMtxInfo.zero UidPostMtxInfo.zero)
      = some (codeOf sampleDecls sampleConfig API_TYPE.API_OPENGL
          (sampleUid 0 16384 false UidTexMtxInfo.zero UidPostMtxInfo.zero))
    ∧ ∃ pre post, codeOf sampleDecls sampleConfig API_TYPE.API_OPENGL
          (sampleUid 0 16384 false UidTexMtxInfo.zero UidPostMtxInfo.zero)
        = pre ++ [W ["o.colors_1 = color1;\n"] []] ++ W ["o.clipPos = o.pos;\n"] [] :: post
      ∧ (∀ p, p ∈ pre → p.assignsColor = false) := by
  have hs := codeOf_eq sampleDecls sampleConfig API_TYPE.API_OPENGL
    (sampleUid 0 16384 false UidTexMtxInfo.zero UidPostMtxInfo.zero) (by decide)
  obtain ⟨pre, post, hout, hpre, -⟩ :=
    GenerateVertexShaderCode_fallback_colors sampleDecls sampleConfig API_TYPE.API_OPENGL
      _ _ hs
  exact ⟨hs, pre, post, hout, hpre⟩

/-- C13, as stated, fails: the descriptor with `numTexGens = 0`, no component flag,
`pixel_lighting` false and two active color channels gets a text without any write of the
synthesizer to an output color, so no white default is synthesized. -/
theorem scenario_A_without_white_fallback :
    (scenarioA 2).numTexGens = 0 ∧ (scenarioA 2).components = 0
    ∧ (scenarioA 2).pixel_lighting = false
    ∧ GenerateVertexShaderCode sampleDecls sampleConfig API_TYPE.API_OPENGL (scenarioA 2)
      = some (codeOf sampleDecls sampleConfig API_TYPE.API_OPENGL (scenarioA 2))
    ∧ (codeOf sampleDecls sampleConfig API_TYPE.API_OPENGL (scenarioA 2)).filter
        Piece.assignsColor = [] :=
  ⟨rfl, rfl, rfl, codeOf_eq _ _ _ _ (by decide), by decide⟩

/-- C13, amended: for a descriptor with `numTexGens = 0`, no component flag, `pixel_lighting`
false and `numColorChans = 0`, in either dialect and for every capability setting, the
synthesizer returns a text that declares no `tex{i}` input, whose only writes to an output
color are `o.colors_0 = float4(1.0, 1.0, 1.0, 1.0);` followed by `o.colors_1 = o.colors_0;`,
that contains the pixel-center-correction line and that contains neither the `o.Normal` nor
the `o.WorldPos` pass-through. -/
theorem GenerateVertexShaderCode_scenario_A (d : Decls) (cfg : VideoConfig)
    (api_type : API_TYPE) (uid_data : vertex_shader_uid_data)
    (hn : uid_data.numTexGens = 0) (hc : uid_data.components = 0)
    (hpl : uid_data.pixel_lighting = false) (hcc : uid_data.numColorChans = 0) :
    ∃ out, GenerateVertexShaderCode d cfg api_type uid_data = some out
      ∧ (∀ args, W ["in float%d tex%d; // ATTR%d,\n"] args ∉ out)
      ∧ (∀ args, W ["  float%d tex%d : TEXCOORD%d,\n"] args ∉ out)
      ∧ out.filter Piece.assignsColor
          = [W ["o.colors_0 = float4(1.0, 1.0, 1.0, 1.0);\n"] [],
             W ["o.colors_1 = o.colors_0;\n"] []]
      ∧ W ["o.pos.xy = o.pos.xy - o.pos.w * ", .ext d.I_PIXELCENTERCORRECTION, ".xy;\n"] []
          ∈ out
      ∧ W ["o.Normal = _norm0;\n"] [] ∉ out
      ∧ W ["o.WorldPos = pos.xyz;\n"] [] ∉ out := by
  refine ⟨_, GenerateVertexShaderCode_no_generators d cfg api_type uid_data hn, ?_, ?_, ?_,
    ?_, ?_, ?_⟩
  · intro args
    simp [beforeTexGens, preamble, glInterface, d3dInterface, transforms, lightingFragment,
      mem_emitFor, glTexInput, d3dTexInput, mem_ite_list, afterTexGens, fallbackColors,
      finalOutputs, epilogue, hc]
  · intro args
    simp [beforeTexGens, preamble, glInterface, d3dInterface, transforms, lightingFragment,
      mem_emitFor, glTexInput, d3dTexInput, mem_ite_list, afterTexGens, fallbackColors,
      finalOutputs, epilogue, hc]
  · have hb := assignsColor_before d cfg api_type uid_data
    have hb2 : (beforeTexGens d cfg api_type uid_data
        ++ [W ["float4 coord = float4(0.0, 0.0, 1.0, 1.0);\n"] []]).filter
          Piece.assignsColor = [] := by
      rw [List.filter_eq_nil_iff]
      rw [List.all_eq_true] at hb
      intro p hp
      simpa using hb p hp
    rw [List.filter_append, hb2]
    simp +decide [afterTexGens, fallbackColors, finalOutputs, epilogue, hn, hc, hpl, hcc,
      emitFor, filter_ite, Piece.assignsColor, List.filter_cons]
  · simp [afterTexGens, finalOutputs]
  · simp [beforeTexGens, preamble, glInterface, d3dInterface, transforms, lightingFragment,
      mem_emitFor, glTexInput, d3dTexInput, mem_ite_list, afterTexGens, fallbackColors,
      finalOutputs, epilogue, hpl]
  · simp [beforeTexGens, preamble, glInterface, d3dInterface, transforms, lightingFragment,
      mem_emitFor, glTexInput, d3dTexInput, mem_ite_list, afterTexGens, fallbackColors,
      finalOutputs, epilogue, hpl]

theorem GenerateVertexShaderCode_scenario_A_witness :
    ∃ out, GenerateVertexShaderCode sampleDecls sampleConfig API_TYPE.API_D3D (scenarioA 0)
        = some out
      ∧ out.filter Piece.assignsColor
          = [W ["o.colors_0 = float4(1.0, 1.0, 1.0, 1.0);\n"] [],
             W ["o.colors_1 = o.colors_0;\n"] []]
      ∧ W ["o.pos.xy = o.pos.xy - o.pos.w * ", .ext "cpixelcenter", ".xy;\n"] [] ∈ out := by
  obtain ⟨out, h, -, -, h3, h4, -, -⟩ :=
    GenerateVertexShaderCode_scenario_A sampleDecls sampleConfig API_TYPE.API_D3D
      (scenarioA 0) rfl rfl rfl rfl
  exact ⟨out, h, h3, h4⟩

/-- C14, as stated, fails: with POSMTXIDX and NRM0 set, the only write that indexes the
transform matrices by `posmtx` reads the rows `[posmtx]`, `[posmtx+1]`, `[posmtx+2]`, and the
only write of the text that holds a mask `&` is the line of `normidx`: the position rows
are indexed by the unmasked value. -/
theorem position_rows_indexed_by_raw_posmtx :
    GenerateVertexShaderCode sampleDecls sampleConfig API_TYPE.API_OPENGL (attrUid 1026)
      = some (codeOf sampleDecls sampleConfig API_TYPE.API_OPENGL (attrUid 1026))
    ∧ (attrUid 1026).components &&& sampleDecls.VB_HAS_POSMTXIDX ≠ 0
    ∧ (codeOf sampleDecls sampleConfig API_TYPE.API_OPENGL (attrUid 1026)).filter
        (Piece.mentions "ctrmtx[posmtx")
      = [W ["float4 pos = float4(dot(", .ext "ctrmtx", "[posmtx], rawpos), dot(",
            .ext "ctrmtx", "[posmtx+1], rawpos), dot(", .ext "ctrmtx",
            "[posmtx+2], rawpos), 1);\n"] []]
    ∧ (codeOf sampleDecls sampleConfig API_TYPE.API_OPENGL (attrUid 1026)).filter
        (Piece.mentions "&")
      = [W ["int normidx = posmtx & 31;\n"] []] :=
  ⟨codeOf_eq _ _ _ _ (by decide), by decide, by decide, by decide⟩

/-- C14, amended: for a descriptor with the position-matrix-index bit set, the only write that
starts with `float4 pos = ` indexes the transform matrices with the per-vertex value as it
is, `[posmtx]`, `[posmtx+1]`, `[posmtx+2]`, without a mask; the line
`int normidx = posmtx & 31;` and the load of the normal rows at `[normidx]`, `[normidx+1]`,
`[normidx+2]` are written once when a normal attribute is present (NRMALL) and not at all
otherwise. -/
theorem GenerateVertexShaderCode_posmtx (d : Decls) (cfg : VideoConfig)
    (api_type : API_TYPE) (uid_data : vertex_shader_uid_data) (out : ShaderCode)
    (h : GenerateVertexShaderCode d cfg api_type uid_data = some out)
    (hpos : uid_data.components &&& d.VB_HAS_POSMTXIDX ≠ 0) :
    out.filter (Piece.startsWith "float4 pos = ")
      = [W ["float4 pos = float4(dot(", .ext d.I_TRANSFORMMATRICES,
            "[posmtx], rawpos), dot(", .ext d.I_TRANSFORMMATRICES,
            "[posmtx+1], rawpos), dot(", .ext d.I_TRANSFORMMATRICES,
            "[posmtx+2], rawpos), 1);\n"] []]
    ∧ out.filter (Piece.startsWith "int normidx = ")
      = (if uid_data.components &&& d.VB_HAS_NRMALL ≠ 0 then
          [W ["int normidx = posmtx & 31;\n"] []] else [])
    ∧ out.filter (Piece.startsWith "float3 N0 = ")
      = (if uid_data.components &&& d.VB_HAS_NRMALL ≠ 0 then
          [W ["float3 N0 = ", .ext d.I_NORMALMATRICES, "[normidx].xyz, N1 = ",
              .ext d.I_NORMALMATRICES, "[normidx+1].xyz, N2 = ", .ext d.I_NORMALMATRICES,
              "[normidx+2].xyz;\n"] []] else []) := by
  refine ⟨?_, ?_, ?_⟩
  · rw [filter_startsWith d cfg api_type uid_data out h _ (by decide)]
    simp +decide [beforeTexGens, preamble, glInterface, d3dInterface, transforms,
      lightingFragment, filter_emitFor_nil, glTexInput, d3dTexInput, filter_ite,
      afterTexGens, fallbackColors, finalOutputs, epilogue, Piece.startsWith,
      List.filter_cons, hpos]
  · rw [filter_startsWith d cfg api_type uid_data out h _ (by decide)]
    simp +decide [beforeTexGens, preamble, glInterface, d3dInterface, transforms,
      lightingFragment, filter_emitFor_nil, glTexInput, d3dTexInput, filter_ite,
      afterTexGens, fallbackColors, finalOutputs, epilogue, Piece.startsWith,
      List.filter_cons, hpos]
  · rw [filter_startsWith d cfg api_type uid_data out h _ (by decide)]
    simp +decide [beforeTexGens, preamble, glInterface, d3dInterface, transforms,
      lightingFragment, filter_emitFor_nil, glTexInput, d3dTexInput, filter_ite,
      afterTexGens, fallbackColors, finalOutputs, epilogue, Piece.startsWith,
      List.filter_cons, hpos]

theorem GenerateVertexShaderCode_posmtx_witness :
    GenerateVertexShaderCode sampleDecls sampleConfig API_TYPE.API_OPENGL (attrUid 1026)
      = some (codeOf sampleDecls sampleConfig API_TYPE.API_OPENGL (attrUid 1026))
    ∧ (codeOf sampleDecls sampleConfig API_TYPE.API_OPENGL (attrUid 1026)).filter
        (Piece.startsWith "int normidx = ")
      = [W ["int normidx = posmtx & 31;\n"] []] := by
  have hs := codeOf_eq sampleDecls sampleConfig API_TYPE.API_OPENGL (attrUid 1026)
    (by decide)
  exact ⟨hs, (GenerateVertexShaderCode_posmtx sampleDecls sampleConfig
    API_TYPE.API_OPENGL _ _ hs (by decide)).2.1⟩

/-- C15: for a fixed descriptor and fixed capability flags the synthesizer returns a text in
one dialect exactly when it does in the other, and the two texts are `preGL ++ body ++
postGL` and `preD3D ++ body ++ postD3D` with the same `body`, which starts with
`VS_OUTPUT o;` and ends with the pixel-center-correction line; `VS_OUTPUT o;` is in neither
`pre` part and the pixel-center-correction line in neither `post` part, so the texts differ
only before the first and after the second. -/
theorem GenerateVertexShaderCode_dialects (d : Decls) (cfg : VideoConfig)
    (uid_data : vertex_shader_uid_data) :
    (GenerateVertexShaderCode d cfg API_TYPE.API_OPENGL uid_data).isSome
      = (GenerateVertexShaderCode d cfg API_TYPE.API_D3D uid_data).isSome
    ∧ ∀ outGL outD3D,
        GenerateVertexShaderCode d cfg API_TYPE.API_OPENGL uid_data = some outGL →
        GenerateVertexShaderCode d cfg API_TYPE.API_D3D uid_data = some outD3D →
        ∃ preGL preD3D body postGL postD3D,
          outGL = preGL ++ body ++ postGL ∧ outD3D = preD3D ++ body ++ postD3D
          ∧ body.head? = some (W ["VS_OUTPUT o;\n"] [])
          ∧ body.getLast? = some (W ["o.pos.xy = o.pos.xy - o.pos.w * ",
              .ext d.I_PIXELCENTERCORRECTION, ".xy;\n"] [])
          ∧ W ["VS_OUTPUT o;\n"] [] ∉ preGL ∧ W ["VS_OUTPUT o;\n"] [] ∉ preD3D
          ∧ W ["o.pos.xy = o.pos.xy - o.pos.w * ", .ext d.I_PIXELCENTERCORRECTION,
              ".xy;\n"] [] ∉ postGL
          ∧ W ["o.pos.xy = o.pos.xy - o.pos.w * ", .ext d.I_PIXELCENTERCORRECTION,
              ".xy;\n"] [] ∉ postD3D := by
  constructor
  · rw [Bool.eq_iff_iff]
    constructor
    · intro h1
      obtain ⟨o1, ho1⟩ := Option.isSome_iff_exists.mp h1
      exact returns_of_returns d cfg _ _ uid_data o1 ho1
    · intro h1
      obtain ⟨o1, ho1⟩ := Option.isSome_iff_exists.mp h1
      exact returns_of_returns d cfg _ _ uid_data o1 ho1
  · intro outGL outD3D hGL hD3D
    obtain ⟨-, -, h1⟩ := GenerateVertexShaderCode_shape d cfg _ uid_data outGL hGL
    obtain ⟨-, -, h2⟩ := GenerateVertexShaderCode_shape d cfg _ uid_data outD3D hD3D
    refine ⟨preamble d cfg API_TYPE.API_OPENGL uid_data ++ glInterface d cfg uid_data,
      preamble d cfg API_TYPE.API_D3D uid_data ++ d3dInterface d uid_data,
      transforms d uid_data ++ lightingFragment d uid_data
        ++ [W ["float4 coord = float4(0.0, 0.0, 1.0, 1.0);\n"] []]
        ++ emitFor (blockOf d uid_data) uid_data.numTexGens
        ++ fallbackColors d uid_data ++ finalOutputs d cfg uid_data,
      epilogue d cfg API_TYPE.API_OPENGL uid_data,
      epilogue d cfg API_TYPE.API_D3D uid_data, ?_, ?_, ?_, ?_, ?_, ?_,
      pixelcenter_not_mem_epilogue d cfg _ uid_data,
      pixelcenter_not_mem_epilogue d cfg _ uid_data⟩
    · rw [h1]; simp [beforeTexGens, afterTexGens]
    · rw [h2]; simp [beforeTexGens, afterTexGens]
    · simp [transforms]
    · unfold finalOutputs
      rw [← List.append_assoc]
      exact List.getLast?_concat _
    · simpa using VS_OUTPUT_not_mem_interface d cfg API_TYPE.API_OPENGL uid_data
    · simpa using VS_OUTPUT_not_mem_interface d cfg API_TYPE.API_D3D uid_data

theorem GenerateVertexShaderCode_dialects_witness :
    GenerateVertexShaderCode sampleDecls sampleConfig API_TYPE.API_OPENGL
        (builtUid sampleDecls (busyState 2 0 true 2048))
      = some (codeOf sampleDecls sampleConfig API_TYPE.API_OPENGL
          (builtUid sampleDecls (busyState 2 0 true 2048)))
    ∧ GenerateVertexShaderCode sampleDecls sampleConfig API_TYPE.API_D3D
        (builtUid sampleDecls (busyState 2 0 true 2048))
      = some (codeOf sampleDecls sampleConfig API_TYPE.API_D3D
          (builtUid sampleDecls (busyState 2 0 true 2048)))
    ∧ ∃ preGL preD3D body postGL postD3D,
        codeOf sampleDecls sampleConfig API_TYPE.API_OPENGL
            (builtUid sampleDecls (busyState 2 0 true 2048)) = preGL ++ body ++ postGL
        ∧ codeOf sampleDecls sampleConfig API_TYPE.API_D3D
            (builtUid sampleDecls (busyState 2 0 true 2048)) = preD3D ++ body ++ postD3D
        ∧ body.head? = some (W ["VS_OUTPUT o;\n"] []) := by
  have h1 := codeOf_eq sampleDecls sampleConfig API_TYPE.API_OPENGL
    (builtUid sampleDecls (busyState 2 0 true 2048)) (by decide)
  have h2 := codeOf_eq sampleDecls sampleConfig API_TYPE.API_D3D
    (builtUid sampleDecls (busyState 2 0 true 2048)) (by decide)
  obtain ⟨a, b, body, c, e, ha, hb, hh, -⟩ :=
    (GenerateVertexShaderCode_dialects sampleDecls sampleConfig _).2 _ _ h1 h2
  exact ⟨h1, h2, a, b, body, c, e, ha, hb, hh⟩

/-- C16, as stated, fails: for a state whose two generator counts agree and whose two channel
counts agree, with three color channels, the returned descriptor has `numColorChans = 3`. -/
theorem color_channel_count_not_bounded :
    (countState 1 3).bp_numtexgens = (countState 1 3).xfmem.numTexGens
    ∧ (countState 1 3).bp_numcolchans = (countState 1 3).xfmem.numColorChans
    ∧ GetVertexShaderUid sampleDecls (countState 1 3)
        = some (builtUid sampleDecls (countState 1 3))
    ∧ ¬ ((builtUid sampleDecls (countState 1 3)).numColorChans ≤ 2) :=
  ⟨rfl, rfl, builtUid_eq _ _ (by decide), by decide⟩

/-- C16, amended: for a hardware state whose generator counts agree and whose channel counts
agree, a returned descriptor holds the generator count and the channel count of the
registers unchanged, whatever their values; neither count is compared with a bound.  When
the generator count of the registers is at most 8 a descriptor is returned, and every index
the loop uses, `0 .. numTexGens-1`, is below 8.  Nothing is stated for a generator count
above 8, where the loop indexes past the eight slots. -/
theorem GetVertexShaderUid_counts (d : Decls) (s : HwState)
    (hg : s.bp_numtexgens = s.xfmem.numTexGens)
    (hc : s.bp_numcolchans = s.xfmem.numColorChans) :
    (∀ u, GetVertexShaderUid d s = some u →
      u.numTexGens = s.xfmem.numTexGens ∧ u.numColorChans = s.xfmem.numColorChans)
    ∧ (s.xfmem.numTexGens ≤ 8 →
        ∃ u, GetVertexShaderUid d s = some u
          ∧ u.numTexGens = s.xfmem.numTexGens ∧ u.numColorChans = s.xfmem.numColorChans
          ∧ ∀ i, i < u.numTexGens → i < 8) := by
  have key : ∀ u, GetVertexShaderUid d s = some u →
      u.numTexGens = s.xfmem.numTexGens ∧ u.numColorChans = s.xfmem.numColorChans := by
    intro u hu
    have r := GetVertexShaderUid_loop d s u hu
    exact ⟨r.numTexGens, r.numColorChans⟩
  refine ⟨key, ?_⟩
  intro h8
  obtain ⟨u, hu⟩ := GetVertexShaderUid_returns d s hg hc h8
  obtain ⟨hn, hcol⟩ := key u hu
  exact ⟨u, hu, hn, hcol, fun i hi => by omega⟩

theorem GetVertexShaderUid_counts_witness :
    ∃ u, GetVertexShaderUid sampleDecls (countState 8 2) = some u
      ∧ u.numTexGens = 8 ∧ u.numColorChans = 2 := by
  obtain ⟨u, hu, hn, hcol, -⟩ :=
    (GetVertexShaderUid_counts sampleDecls (countState 8 2) rfl rfl).2 (by decide)
  exact ⟨u, hu, hn, hcol⟩

set_option maxHeartbeats 1000000 in
/-- C17: in either dialect the writes that declare `_norm0` are exactly one: the normalized
transformed primary normal when NRM0 is present (with the indexed rows `N0`, `N1`, `N2` under
POSMTXIDX, with rows 3 to 5 of the position-normal matrix otherwise) and
`float3 _norm0 = float3(0.0, 0.0, 0.0);` when it is absent.  The writes that declare `_norm1`
(`_norm2`) are exactly one when NRM1 (NRM2) is set, a `float3(dot, dot, dot)` without
`normalize`, and none otherwise. -/
theorem GenerateVertexShaderCode_normals (d : Decls) (cfg : VideoConfig)
    (api_type : API_TYPE) (uid_data : vertex_shader_uid_data) (out : ShaderCode)
    (h : GenerateVertexShaderCode d cfg api_type uid_data = some out) :
    out.filter (Piece.startsWith "float3 _norm0 = ")
      = [if uid_data.components &&& d.VB_HAS_NRM0 ≠ 0 then
          (if uid_data.components &&& d.VB_HAS_POSMTXIDX ≠ 0 then
            W ["float3 _norm0 = normalize(float3(dot(N0, rawnorm0), dot(N1, rawnorm0), dot(N2, rawnorm0)));\n"] []
          else
            W ["float3 _norm0 = normalize(float3(dot(", .ext d.I_POSNORMALMATRIX,
               "[3].xyz, rawnorm0), dot(", .ext d.I_POSNORMALMATRIX,
               "[4].xyz, rawnorm0), dot(", .ext d.I_POSNORMALMATRIX,
               "[5].xyz, rawnorm0)));\n"] [])
        else W ["float3 _norm0 = float3(0.0, 0.0, 0.0);\n"] []]
    ∧ out.filter (Piece.startsWith "float3 _norm1 = ")
      = (if uid_data.components &&& d.VB_HAS_NRM1 ≠ 0 then
          [if uid_data.components &&& d.VB_HAS_POSMTXIDX ≠ 0 then
            W ["float3 _norm1 = float3(dot(N0, rawnorm1), dot(N1, rawnorm1), dot(N2, rawnorm1));\n"] []
          else
            W ["float3 _norm1 = float3(dot(", .ext d.I_POSNORMALMATRIX,
               "[3].xyz, rawnorm1), dot(", .ext d.I_POSNORMALMATRIX,
               "[4].xyz, rawnorm1), dot(", .ext d.I_POSNORMALMATRIX,
               "[5].xyz, rawnorm1));\n"] []]
        else [])
    ∧ out.filter (Piece.startsWith "float3 _norm2 = ")
      = (if uid_data.components &&& d.VB_HAS_NRM2 ≠ 0 then
          [if uid_data.components &&& d.VB_HAS_POSMTXIDX ≠ 0 then
            W ["float3 _norm2 = float3(dot(N0, rawnorm2), dot(N1, rawnorm2), dot(N2, rawnorm2));\n"] []
          else
            W ["float3 _norm2 = float3(dot(", .ext d.I_POSNORMALMATRIX,
               "[3].xyz, rawnorm2), dot(", .ext d.I_POSNORMALMATRIX,
               "[4].xyz, rawnorm2), dot(", .ext d.I_POSNORMALMATRIX,
               "[5].xyz, rawnorm2));\n"] []]
        else []) := by
  refine ⟨?_, ?_, ?_⟩
  · rw [filter_startsWith d cfg api_type uid_data out h _ (by decide)]
    by_cases hP : uid_data.components &&& d.VB_HAS_POSMTXIDX = 0 <;>
    by_cases hN : uid_data.components &&& d.VB_HAS_NRM0 = 0 <;>
    simp +decide [beforeTexGens, preamble, glInterface, d3dInterface, transforms,
      lightingFragment, filter_emitFor_nil, glTexInput, d3dTexInput, filter_ite,
      afterTexGens, fallbackColors, finalOutputs, epilogue, Piece.startsWith,
      List.filter_cons, hP, hN]
  · rw [filter_startsWith d cfg api_type uid_data out h _ (by decide)]
    by_cases hP : uid_data.components &&& d.VB_HAS_POSMTXIDX = 0 <;>
    by_cases hN : uid_data.components &&& d.VB_HAS_NRM1 = 0 <;>
    simp +decide [beforeTexGens, preamble, glInterface, d3dInterface, transforms,
      lightingFragment, filter_emitFor_nil, glTexInput, d3dTexInput, filter_ite,
      afterTexGens, fallbackColors, finalOutputs, epilogue, Piece.startsWith,
      List.filter_cons, hP, hN]
  · rw [filter_startsWith d cfg api_type uid_data out h _ (by decide)]
    by_cases hP : uid_data.components &&& d.VB_HAS_POSMTXIDX = 0 <;>
    by_cases hN : uid_data.components &&& d.VB_HAS_NRM2 = 0 <;>
    simp +decide [beforeTexGens, preamble, glInterface, d3dInterface, transforms,
      lightingFragment, filter_emitFor_nil, glTexInput, d3dTexInput, filter_ite,
      afterTexGens, fallbackColors, finalOutputs, epilogue, Piece.startsWith,
      List.filter_cons, hP, hN]

theorem GenerateVertexShaderCode_normals_witness :
    GenerateVertexShaderCode sampleDecls sampleConfig API_TYPE.API_D3D (attrUid 2050)
      = some (codeOf sampleDecls sampleConfig API_TYPE.API_D3D (attrUid 2050))
    ∧ (codeOf sampleDecls sampleConfig API_TYPE.API_D3D (attrUid 2050)).filter
        (Piece.startsWith "float3 _norm0 = ")
      = [W ["float3 _norm0 = float3(0.0, 0.0, 0.0);\n"] []]
    ∧ (codeOf sampleDecls sampleConfig API_TYPE.API_D3D (attrUid 2050)).filter
        (Piece.startsWith "float3 _norm1 = ")
      = [W ["float3 _norm1 = float3(dot(N0, rawnorm1), dot(N1, rawnorm1), dot(N2, rawnorm1));\n"] []]
    ∧ (codeOf sampleDecls sampleConfig API_TYPE.API_D3D (attrUid 2050)).filter
        (Piece.startsWith "float3 _norm2 = ") = [] := by
  have hs := codeOf_eq sampleDecls sampleConfig API_TYPE.API_D3D (attrUid 2050) (by decide)
  obtain ⟨h0, h1, h2⟩ :=
    GenerateVertexShaderCode_normals sampleDecls sampleConfig API_TYPE.API_D3D _ _ hs
  exact ⟨hs, h0, h1, h2⟩

/-- C18: the block of an active generator `i` is part of the text and reads: the opener and
the reset `coord = float4(0.0, 0.0, 1.0, 1.0);`, then the source assignment, then
`coord.z = 1.0;` if and only if the input form is AB11, then writes none of which starts
with `coord`.  The case labels being distinct, the source assignment is `coord.xyz =
rawpos.xyz;` for the geometry row; `coord.xyz = rawnorm0.xyz;` (`rawnorm1`, `rawnorm2`) for
the normal (binormal T, binormal B) row if NRM0 (NRM1, NRM2) is present and nothing
otherwise; nothing for the colors row; and for the texcoord row `k` (`k < 8`)
`coord = float4(tex{k}.x, tex{k}.y, 1.0, 1.0);` if the texcoord bit `k` is set and nothing
otherwise. -/
theorem GenerateVertexShaderCode_coord_source (d : Decls) (cfg : VideoConfig)
    (api_type : API_TYPE) (uid_data : vertex_shader_uid_data) (out : ShaderCode)
    (h : GenerateVertexShaderCode d cfg api_type uid_data = some out)
    (i : Fin 8) (hi : i.val < uid_data.numTexGens) (hlab : d.sourceRowLabels) :
    ∃ block source rest, texGenBlock d uid_data i.val = some block ∧ block <:+: out
      ∧ block = [W ["\x7b\n"] [], W ["coord = float4(0.0, 0.0, 1.0, 1.0);\n"] []]
          ++ source
          ++ (if (uid_data.texMtxInfo i).inputform = d.XF_TEXINPUT_AB11 then
                [W ["coord.z = 1.0;\n"] []] else [])
          ++ rest
      ∧ (∀ p, p ∈ rest → p.startsWith "coord" = false)
      ∧ W ["coord.z = 1.0;\n"] [] ∉ source
      ∧ ((uid_data.texMtxInfo i).sourcerow = d.XF_SRCGEOM_INROW →
          source = [W ["coord.xyz = rawpos.xyz;\n"] []])
      ∧ ((uid_data.texMtxInfo i).sourcerow = d.XF_SRCNORMAL_INROW →
          source = if uid_data.components &&& d.VB_HAS_NRM0 ≠ 0 then
            [W ["coord.xyz = rawnorm0.xyz;\n"] []] else [])
      ∧ ((uid_data.texMtxInfo i).sourcerow = d.XF_SRCBINORMAL_T_INROW →
          source = if uid_data.components &&& d.VB_HAS_NRM1 ≠ 0 then
            [W ["coord.xyz = rawnorm1.xyz;\n"] []] else [])
      ∧ ((uid_data.texMtxInfo i).sourcerow = d.XF_SRCBINORMAL_B_INROW →
          source = if uid_data.components &&& d.VB_HAS_NRM2 ≠ 0 then
            [W ["coord.xyz = rawnorm2.xyz;\n"] []] else [])
      ∧ ((uid_data.texMtxInfo i).sourcerow = d.XF_SRCCOLORS_INROW → source = [])
      ∧ (∀ k, k < 8 → (uid_data.texMtxInfo i).sourcerow = d.XF_SRCTEX0_INROW + k →
          source = if uid_data.components &&& (d.VB_HAS_UV0 <<< k) ≠ 0 then
            [W ["coord = float4(tex%d.x, tex%d.y, 1.0, 1.0);\n"] [.int k, .int k]]
          else []) := by
  obtain ⟨hb, hinf⟩ := block_infix d cfg api_type uid_data out h i.val hi
  obtain ⟨source, hsrc, hblock⟩ := texGenBlock_eq d uid_data i _ hb
  obtain ⟨r1, r2, r3, r4, r5, r6⟩ := texGenSource_rows d uid_data _ source hsrc hlab
  refine ⟨blockOf d uid_data i.val, source,
    texGenFirstTransformation d uid_data i.val (uid_data.texMtxInfo i)
      ++ texGenPostTransform d uid_data i.val (uid_data.texMtxInfo i)
          (uid_data.postMtxInfo i)
      ++ [W ["\x7d\n"] []], hb, hinf, ?_, ?_, ?_, r1, r2, r3, r4, r5, r6⟩
  · rw [hblock]
    simp only [texGenInputForm, blockOpener, coordReset, List.append_assoc]
  · intro p hp
    have hhead : ∃ s, p.head = some (Seg.lit s) ∧ "coord".data.isPrefixOf s.data = false := by
      simp only [List.mem_append, List.mem_singleton] at hp
      rcases hp with (hq | hq) | hq
      · rcases texGenFirstTransformation_mem d uid_data _ _ _ hq with hq | ⟨-, hq⟩
        · exact ⟨_, hq, blockHeads_no_coord_after _ (by simp)⟩
        · rcases hq with hq | hq | hq | hq | hq | hq <;>
            exact ⟨_, hq, blockHeads_no_coord_after _ (by simp)⟩
      · rcases texGenPostTransform_mem d uid_data _ _ _ p hq with hq | hq | hq <;>
          subst hq <;> exact ⟨_, rfl, blockHeads_no_coord_after _ (by simp)⟩
      · subst hq; exact ⟨_, rfl, blockHeads_no_coord_after _ (by simp)⟩
    obtain ⟨s, hs, hpre⟩ := hhead
    rw [startsWith_of_head "coord" p s hs]
    exact hpre
  · intro hmem
    rcases texGenSource_mem d uid_data _ source hsrc _ hmem with hq | hq | hq | hq | hq <;>
      simp at hq

theorem GenerateVertexShaderCode_coord_source_witness :
    GenerateVertexShaderCode sampleDecls sampleConfig API_TYPE.API_D3D
        (sampleUid 1 32768 false
          { inputform := 0, texgentype := 0, sourcerow := 5, embosssourceshift := 0,
            embosslightshift := 0 } UidPostMtxInfo.zero)
      = some (codeOf sampleDecls sampleConfig API_TYPE.API_D3D
        (sampleUid 1 32768 false
          { inputform := 0, texgentype := 0, sourcerow := 5, embosssourceshift := 0,
            embosslightshift := 0 } UidPostMtxInfo.zero))
    ∧ ∃ block rest, block <:+: codeOf sampleDecls sampleConfig API_TYPE.API_D3D
        (sampleUid 1 32768 false
          { inputform := 0, texgentype := 0, sourcerow := 5, embosssourceshift := 0,
            embosslightshift := 0 } UidPostMtxInfo.zero)
      ∧ block = [W ["\x7b\n"] [], W ["coord = float4(0.0, 0.0, 1.0, 1.0);\n"] [],
          W ["coord = float4(tex%d.x, tex%d.y, 1.0, 1.0);\n"] [.int 0, .int 0],
          W ["coord.z = 1.0;\n"] []] ++ rest
      ∧ (∀ p, p ∈ rest → p.startsWith "coord" = false) := by
  have hs := codeOf_eq sampleDecls sampleConfig API_TYPE.API_D3D
    (sampleUid 1 32768 false
      { inputform := 0, texgentype := 0, sourcerow := 5, embosssourceshift := 0,
        embosslightshift := 0 } UidPostMtxInfo.zero) (by decide)
  obtain ⟨block, source, rest, -, hinf, hb, hrest, -, -, -, -, -, -, htex⟩ :=
    GenerateVertexShaderCode_coord_source sampleDecls sampleConfig API_TYPE.API_D3D _ _ hs 0
      (by decide) (by decide)
  have hsrc := htex 0 (by decide) (by decide)
  refine ⟨hs, block, rest, hinf, ?_, hrest⟩
  rw [hb, hsrc]
  rfl

/-- C19: for a fixed dialect and fixed capability flags, two descriptors that agree on what
`ReadsAlike` lists (the scalar fields; for each active generator the source row, type and
input form, the emboss source shift if the type is emboss, the emboss light shift if the
type is emboss and NRM1 or NRM2 is present, the projection bit unless the type is emboss or
a color type, the post-matrix slot if dual transform is enabled and the type is regular)
get the same result from the synthesizer, whatever they hold in inactive slots and in the
fields not listed. -/
theorem GenerateVertexShaderCode_reads (d : Decls) (cfg : VideoConfig)
    (api_type : API_TYPE) (u1 u2 : vertex_shader_uid_data) (r : ReadsAlike d u1 u2) :
    GenerateVertexShaderCode d cfg api_type u1 = GenerateVertexShaderCode d cfg api_type u2 := by
  unfold GenerateVertexShaderCode texGens
  rw [beforeTexGens_congr d cfg api_type u1 u2 r, afterTexGens_congr d cfg api_type u1 u2 r,
    ← r.numTexGens]
  have key := forUpTo_congr
    (fun i out => (texGenBlock d u1 i).map (fun block => out ++ block))
    (fun i out => (texGenBlock d u2 i).map (fun block => out ++ block)) u1.numTexGens
    (fun i hi s => by beta_reduce; rw [texGenBlock_congr d u1 u2 r i hi])
  simp only [key]

theorem GenerateVertexShaderCode_reads_witness :
    GenerateVertexShaderCode sampleDecls sampleConfig API_TYPE.API_OPENGL
        (builtUid sampleDecls (busyState 2 0 false 2048))
      = GenerateVertexShaderCode sampleDecls sampleConfig API_TYPE.API_OPENGL
        { builtUid sampleDecls (busyState 2 0 false 2048) with
          texMtxInfo := fun i =>
            { (builtUid sampleDecls (busyState 2 0 false 2048)).texMtxInfo i with
              embosssourceshift := 7, embosslightshift := 7 },
          postMtxInfo := fun _ => { index := 9, normalize := true },
          texMtxInfo_n_projection := 3 + 4 }
    ∧ (builtUid sampleDecls (busyState 2 0 false 2048)).texMtxInfo_n_projection ≠ 3 + 4
    ∧ (GenerateVertexShaderCode sampleDecls sampleConfig API_TYPE.API_OPENGL
        (builtUid sampleDecls (busyState 2 0 false 2048))).isSome = true :=
  ⟨GenerateVertexShaderCode_reads sampleDecls sampleConfig API_TYPE.API_OPENGL _ _
    { components := rfl, numTexGens := rfl, numColorChans := rfl, dual := rfl,
      pixel_lighting := rfl, msaa := rfl, ssaa := rfl, lighting := rfl,
      sourcerow := by decide, texgentype := by decide, inputform := by decide,
      embosssourceshift := by decide, embosslightshift := by decide,
      projection := by decide, post := by decide },
   by decide, by decide⟩

end VertexShaderGen
